import Mathlib

/-! On-screen-display menu engine (`src/main/io/osd.c`).

A shallow embedding of the menu and overlay code of `osd.c`:

* the row handlers (`update_int_pid`, `update_float_pid`, the rate and VTX handlers),
* the page catalog `menu_pages`,
* `show_menu` (render, gesture dispatch, cursor moves, cursor glyph),
* `updateOsd` (deadline gate, skip counter, arming edges, stick sampling).

Machine integers are natural numbers with an explicit reduction modulo `2^w` where
the C code stores into a `uint8_t`, `uint16_t` or `uint32_t`.  Floating gains are exact
rationals.  Calls to collaborators (display driver, VTX driver, configuration store) are
recorded as a list of `Event`s returned next to the new state.
-/

namespace Osd

/-! ## Constants declared in headers that are not part of `osd.c` -/

/-- Compile-time constants, macros and tables that `osd.c` uses but that are declared in
other headers (`osd.h`, `pid.h`, `rc_controls.h`, `rx.h`, `rtc6705.h`). -/
structure Build where
  /-- whether `USE_RTC6705` is defined -/
  USE_RTC6705 : Bool
  /-- `MAX_MENU_ROWS` of `osd.h` -/
  MAX_MENU_ROWS : Nat
  /-- the macro `IS_PID_CONTROLLER_FP_BASED(pidController)` -/
  IS_PID_CONTROLLER_FP_BASED : Nat → Bool
  CONTROL_RATE_CONFIG_ROLL_PITCH_RATE_MAX : Nat
  CONTROL_RATE_CONFIG_YAW_RATE_MAX : Nat
  PWM_RANGE_MIN : Int
  PWM_RANGE_MAX : Int
  /-- the table `vtx_freq[]` -/
  vtx_freq : Nat → Nat
  /-- the table `vtx_bands[]` -/
  vtx_bands : Nat → String

/-- Modelled from the spec: `rc_controls.h` is missing; the stick channels are ordered
`{ROLL, PITCH, YAW, THROTTLE}`. -/
def ROLL : Nat := 0

/-- Modelled from the spec: second stick channel of `{ROLL, PITCH, YAW, THROTTLE}`. -/
def PITCH : Nat := 1

/-- Modelled from the spec: third stick channel of `{ROLL, PITCH, YAW, THROTTLE}`. -/
def YAW : Nat := 2

/-- Modelled from the spec: fourth stick channel of `{ROLL, PITCH, YAW, THROTTLE}`. -/
def THROTTLE : Nat := 3

/-- Modelled from the spec: `axis.h` is missing; the per-axis rate limits are indexed by
the flight-dynamics axes in the order roll, pitch, yaw. -/
def FD_ROLL : Nat := 0

/-- Modelled from the spec: second flight-dynamics axis (see `FD_ROLL`). -/
def FD_PITCH : Nat := 1

/-- Modelled from the spec: third flight-dynamics axis (see `FD_ROLL`). -/
def FD_YAW : Nat := 2

def OSD_UPDATE_FREQUENCY : Nat := (1000 * 1000) / 5

def OSD_LINE_LENGTH : Nat := 30

/-! ## Live configuration -/

/-- The fields of `currentProfile->pidProfile` that `osd.c` touches.  Arrays are functions
of the index. -/
structure pidProfile_t where
  pidController : Nat
  P8 : Nat → Nat
  I8 : Nat → Nat
  D8 : Nat → Nat
  P_f : Nat → ℚ
  I_f : Nat → ℚ
  D_f : Nat → ℚ

/-- The live configuration read and mutated in place by the row handlers. -/
structure Config where
  /-- `currentProfile->pidProfile` -/
  pidProfile : pidProfile_t
  /-- `currentControlRateProfile->rates[]` -/
  rates : Nat → Nat
  /-- `masterConfig.vtx_channel` -/
  vtx_channel : Nat
  /-- the global `current_vtx_channel` (channel being edited, not yet committed) -/
  current_vtx_channel : Nat

/-! ## Row handlers: `update_*` -/

/-- Lines 249-255 of `update_int_pid`: the guarded `+= 1` / `-= 1` on the `uint8_t`
behind `ptr`. -/
def int_pid_step (inc : Bool) (v : Nat) : Nat :=
  if inc then
    if v < 200 then (v + 1) % 256 else v
  else
    if v > 0 then (v - 1) % 256 else v

def update_int_pid (inc : Bool) (col : Nat) (pid_term : Nat) (p : pidProfile_t) :
    pidProfile_t :=
  match col with
  | 0 => { p with P8 := Function.update p.P8 pid_term (int_pid_step inc (p.P8 pid_term)) }
  | 1 => { p with I8 := Function.update p.I8 pid_term (int_pid_step inc (p.I8 pid_term)) }
  | 2 => { p with D8 := Function.update p.D8 pid_term (int_pid_step inc (p.D8 pid_term)) }
  | _ => p

/-- Lines 277-283 of `update_float_pid`: the guarded `+= diff` / `-= diff` on the float
behind `ptr`, over exact rationals. -/
def float_pid_step (inc : Bool) (diff : ℚ) (v : ℚ) : ℚ :=
  if inc then
    if v < 100 then v + diff else v
  else
    if v > 0 then v - diff else v

/-- The function `update_float_pid`.  Its `switch` has no `default`: for a column other
than 0, 1, 2 both `ptr` and `diff` are indeterminate and the store is undefined, which
is the result `none`. -/
def update_float_pid (inc : Bool) (col : Nat) (pid_term : Nat) (p : pidProfile_t) :
    Option pidProfile_t :=
  match col with
  | 0 => some { p with
      P_f := Function.update p.P_f pid_term (float_pid_step inc (1 / 10) (p.P_f pid_term)) }
  | 1 => some { p with
      I_f := Function.update p.I_f pid_term (float_pid_step inc (1 / 100) (p.I_f pid_term)) }
  | 2 => some { p with
      D_f := Function.update p.D_f pid_term (float_pid_step inc (1 / 1000) (p.D_f pid_term)) }
  | _ => none

/-- Common body of `update_roll_pid`, `update_pitch_pid` and `update_yaw_pid`, which differ
only in the axis constant. -/
def update_axis_pid (B : Build) (pid_term : Nat) (inc : Bool) (col : Nat) (c : Config) :
    Option Config :=
  if B.IS_PID_CONTROLLER_FP_BASED c.pidProfile.pidController then
    (update_float_pid inc col pid_term c.pidProfile).map fun p => { c with pidProfile := p }
  else
    some { c with pidProfile := update_int_pid inc col pid_term c.pidProfile }

def update_roll_pid (B : Build) (inc : Bool) (col : Nat) (c : Config) : Option Config :=
  update_axis_pid B ROLL inc col c

def update_pitch_pid (B : Build) (inc : Bool) (col : Nat) (c : Config) : Option Config :=
  update_axis_pid B PITCH inc col c

def update_yaw_pid (B : Build) (inc : Bool) (col : Nat) (c : Config) : Option Config :=
  update_axis_pid B YAW inc col c

/-- Common body of `update_roll_rate`, `update_pitch_rate` and `update_yaw_rate`:
guarded `++` / `--` on the `uint8_t` rate of one axis. -/
def rate_step (max : Nat) (inc : Bool) (v : Nat) : Nat :=
  if inc then
    if v < max then (v + 1) % 256 else v
  else
    if v > 0 then (v - 1) % 256 else v

def update_roll_rate (B : Build) (inc : Bool) (_col : Nat) (c : Config) : Config :=
  { c with rates := (Function.update c.rates FD_ROLL
      (rate_step B.CONTROL_RATE_CONFIG_ROLL_PITCH_RATE_MAX inc (c.rates FD_ROLL))) }

def update_pitch_rate (B : Build) (increase : Bool) (_col : Nat) (c : Config) : Config :=
  { c with rates := (Function.update c.rates FD_PITCH
      (rate_step B.CONTROL_RATE_CONFIG_ROLL_PITCH_RATE_MAX increase (c.rates FD_PITCH))) }

def update_yaw_rate (B : Build) (increase : Bool) (_col : Nat) (c : Config) : Config :=
  { c with rates := (Function.update c.rates FD_YAW
      (rate_step B.CONTROL_RATE_CONFIG_YAW_RATE_MAX increase (c.rates FD_YAW))) }

def update_vtx_band (increase : Bool) (_col : Nat) (c : Config) : Config :=
  if increase then
    if c.current_vtx_channel < 32 then
      { c with current_vtx_channel := (c.current_vtx_channel + 8) % 256 }
    else c
  else
    if c.current_vtx_channel > 7 then
      { c with current_vtx_channel := (c.current_vtx_channel - 8) % 256 }
    else c

def update_vtx_channel (increase : Bool) (_col : Nat) (c : Config) : Config :=
  if increase then
    if c.current_vtx_channel % 8 < 7 then
      { c with current_vtx_channel := (c.current_vtx_channel + 1) % 256 }
    else c
  else
    if c.current_vtx_channel % 8 > 0 then
      { c with current_vtx_channel := (c.current_vtx_channel - 1) % 256 }
    else c

/-- The gain that `update_int_pid` selects with `(col, pid_term)`: `P8`, `I8` or `D8`. -/
def int_gain (col : Nat) (pid_term : Nat) (p : pidProfile_t) : Nat :=
  match col with
  | 0 => p.P8 pid_term
  | 1 => p.I8 pid_term
  | _ => p.D8 pid_term

/-- The gain that `update_float_pid` selects with `(col, pid_term)`: `P_f`, `I_f` or `D_f`. -/
def float_gain (col : Nat) (pid_term : Nat) (p : pidProfile_t) : ℚ :=
  match col with
  | 0 => p.P_f pid_term
  | 1 => p.I_f pid_term
  | _ => p.D_f pid_term

/-- The step `diff` that `update_float_pid` selects with `col`. -/
def float_diff (col : Nat) : ℚ :=
  match col with
  | 0 => 1 / 10
  | 1 => 1 / 100
  | _ => 1 / 1000

/-! ## Collaborator calls -/

/-- An argument of a `sprintf` conversion. -/
inductive Arg where
  | int (i : Int)
  | str (s : String)
deriving DecidableEq, Repr

/-- The update handlers a row can point to. -/
inductive UpdateFn where
  | update_vtx_band
  | update_vtx_channel
  | update_roll_pid
  | update_pitch_pid
  | update_yaw_pid
  | update_roll_rate
  | update_pitch_rate
  | update_yaw_rate
deriving DecidableEq, Repr

/-- The print handlers a row can point to. -/
inductive PrintFn where
  | print_average_system_load
  | print_batt_voltage
  | print_vtx_band
  | print_vtx_channel
  | print_vtx_freq
  | print_roll_pid
  | print_pitch_pid
  | print_yaw_pid
  | print_roll_rate
  | print_pitch_rate
  | print_yaw_rate
deriving DecidableEq, Repr

/-- One observable call made by the module, in program order.
`max7456_write_string fmt args pos` stands for formatting `fmt` with `args` (the
`sprintf` into `string_buffer`, or a literal when `args` is empty) followed by
`max7456_write_string(..., pos)`.  `show_menu` and `update` mark the entry into
`show_menu` and into a row's update handler. -/
inductive Event where
  | max7456_write_string (fmt : String) (args : List Arg) (pos : Nat)
  | max7456_draw_screen_fast
  | writeEEPROM
  | rtc6705_set_channel (freq : Nat)
  | show_menu
  | update (f : UpdateFn) (inc : Bool) (col : Nat)
deriving DecidableEq, Repr

/-- Values read from the rest of the firmware during one call of `updateOsd`. -/
structure Inputs where
  /-- the result of `micros()` -/
  now : Nat
  /-- the value of `ARMING_FLAG(ARMED)` -/
  ARMED : Bool
  /-- the raw channel readings `rcData[]` -/
  rcData : Nat → Int
  vbat : Nat
  batteryWarningVoltage : Nat
  rssi : Nat
  averageSystemLoadPercent : Nat
  /-- indeterminate initial content of the local `cursor_x` of `show_menu` -/
  cursor_x : Nat
  /-- indeterminate initial content of the local `cursor_y` of `show_menu` -/
  cursor_y : Nat

/-! ## Print handlers -/

/-- The C conversion `(int)x` of a floating value: truncation towards zero. -/
def c_int_cast (q : ℚ) : Int :=
  if 0 ≤ q then Rat.floor q else -Rat.floor (-q)

def print_pid (B : Build) (c : Config) (pos : Nat) (col : Nat) (pid_term : Nat) :
    List Event :=
  match col with
  | 0 =>
    if B.IS_PID_CONTROLLER_FP_BASED c.pidProfile.pidController then
      [Event.max7456_write_string "%d" [Arg.int (c_int_cast (c.pidProfile.P_f pid_term * 10))] pos]
    else
      [Event.max7456_write_string "%d" [Arg.int (c.pidProfile.P8 pid_term)] pos]
  | 1 =>
    if B.IS_PID_CONTROLLER_FP_BASED c.pidProfile.pidController then
      [Event.max7456_write_string "%d" [Arg.int (c_int_cast (c.pidProfile.I_f pid_term * 100))] pos]
    else
      [Event.max7456_write_string "%d" [Arg.int (c.pidProfile.I8 pid_term)] pos]
  | 2 =>
    if B.IS_PID_CONTROLLER_FP_BASED c.pidProfile.pidController then
      [Event.max7456_write_string "%d" [Arg.int (c_int_cast (c.pidProfile.D_f pid_term * 1000))] pos]
    else
      [Event.max7456_write_string "%d" [Arg.int (c.pidProfile.D8 pid_term)] pos]
  | _ => []

/-- Common body of `print_roll_rate`, `print_pitch_rate` and `print_yaw_rate`. -/
def print_rate (c : Config) (pos : Nat) (col : Nat) (axis : Nat) : List Event :=
  if col = 0 then [Event.max7456_write_string "%d" [Arg.int (c.rates axis)] pos] else []

def print_average_system_load (inp : Inputs) (pos : Nat) (_col : Nat) : List Event :=
  [Event.max7456_write_string "%d" [Arg.int inp.averageSystemLoadPercent] pos]

def print_batt_voltage (inp : Inputs) (pos : Nat) (_col : Nat) : List Event :=
  [Event.max7456_write_string "%d.%1d" [Arg.int (inp.vbat / 10 : Nat), Arg.int (inp.vbat % 10 : Nat)] pos]

def print_vtx_band (B : Build) (c : Config) (pos : Nat) (_col : Nat) : List Event :=
  [Event.max7456_write_string "%s" [Arg.str (B.vtx_bands (c.current_vtx_channel / 8))] pos]

def print_vtx_channel (c : Config) (pos : Nat) (_col : Nat) : List Event :=
  [Event.max7456_write_string "%d" [Arg.int (c.current_vtx_channel % 8 + 1 : Nat)] pos]

def print_vtx_freq (B : Build) (c : Config) (pos : Nat) (_col : Nat) : List Event :=
  [Event.max7456_write_string "%d M" [Arg.int (B.vtx_freq c.current_vtx_channel)] pos]

/-- The call `row->print(pos, col)` through the function pointer. -/
def call_print (B : Build) (inp : Inputs) (c : Config) (pos : Nat) (col : Nat) :
    PrintFn → List Event
  | .print_average_system_load => print_average_system_load inp pos col
  | .print_batt_voltage => print_batt_voltage inp pos col
  | .print_vtx_band => print_vtx_band B c pos col
  | .print_vtx_channel => print_vtx_channel c pos col
  | .print_vtx_freq => print_vtx_freq B c pos col
  | .print_roll_pid => print_pid B c pos col ROLL
  | .print_pitch_pid => print_pid B c pos col PITCH
  | .print_yaw_pid => print_pid B c pos col YAW
  | .print_roll_rate => print_rate c pos col FD_ROLL
  | .print_pitch_rate => print_rate c pos col FD_PITCH
  | .print_yaw_rate => print_rate c pos col FD_YAW

/-- The call `row.update(inc, col)` through the function pointer; `none` when the handler
runs into the undefined store of `update_float_pid`. -/
def call_update (B : Build) (inc : Bool) (col : Nat) (c : Config) :
    UpdateFn → Option Config
  | .update_vtx_band => some (update_vtx_band inc col c)
  | .update_vtx_channel => some (update_vtx_channel inc col c)
  | .update_roll_pid => update_roll_pid B inc col c
  | .update_pitch_pid => update_pitch_pid B inc col c
  | .update_yaw_pid => update_yaw_pid B inc col c
  | .update_roll_rate => some (update_roll_rate B inc col c)
  | .update_pitch_rate => some (update_pitch_rate B inc col c)
  | .update_yaw_rate => some (update_yaw_rate B inc col c)

/-! ## The page catalog -/

structure col_t where
  title : Option String
  x_pos : Nat
deriving DecidableEq, Repr

structure row_t where
  title : String
  y_pos : Nat
  update : Option UpdateFn
  print : Option PrintFn
deriving DecidableEq, Repr

structure page_t where
  title : String
  cols_number : Nat
  rows_number : Nat
  cols : List col_t
  rows : List row_t
deriving DecidableEq, Repr

def status_page : page_t :=
  { title := "STATUS"
    cols_number := 1
    rows_number := 2
    cols := [{ title := none, x_pos := 15 }]
    rows := [
      { title := "AVG LOAD", y_pos := 0, update := none,
        print := some .print_average_system_load },
      { title := "BATT", y_pos := 1, update := none,
        print := some .print_batt_voltage }] }

def vtx_page : page_t :=
  { title := "VTX SETTINGS"
    cols_number := 1
    rows_number := 3
    cols := [{ title := none, x_pos := 15 }]
    rows := [
      { title := "BAND", y_pos := 0, update := some .update_vtx_band,
        print := some .print_vtx_band },
      { title := "CHANNEL", y_pos := 1, update := some .update_vtx_channel,
        print := some .print_vtx_channel },
      { title := "FREQUENCY", y_pos := 2, update := none,
        print := some .print_vtx_freq }] }

def pid_page : page_t :=
  { title := "PID SETTINGS"
    cols_number := 3
    rows_number := 6
    cols := [
      { title := some "P", x_pos := 13 },
      { title := some "I", x_pos := 19 },
      { title := some "D", x_pos := 25 }]
    rows := [
      { title := "ROLL", y_pos := 0, update := some .update_roll_pid,
        print := some .print_roll_pid },
      { title := "PITCH", y_pos := 1, update := some .update_pitch_pid,
        print := some .print_pitch_pid },
      { title := "YAW", y_pos := 2, update := some .update_yaw_pid,
        print := some .print_yaw_pid },
      { title := "ROLL_RATE", y_pos := 3, update := some .update_roll_rate,
        print := some .print_roll_rate },
      { title := "PITCH_RATE", y_pos := 4, update := some .update_pitch_rate,
        print := some .print_pitch_rate },
      { title := "YAW_RATE", y_pos := 5, update := some .update_yaw_rate,
        print := some .print_yaw_rate }] }

/-- The array `menu_pages`; the VTX page is present only when `USE_RTC6705` is defined. -/
def menu_pages (B : Build) : List page_t :=
  [status_page] ++ (if B.USE_RTC6705 then [vtx_page] else []) ++ [pid_page]

/-- An all-zero `col_t`: what C leaves in the entries of `cols[]` without an initialiser. -/
def zero_col : col_t := { title := none, x_pos := 0 }

/-- An all-zero `row_t`: what C leaves in the entries of `rows[]` without an initialiser. -/
def zero_row : row_t := { title := "", y_pos := 0, update := none, print := none }

/-- An all-zero `page_t`, the value read for an index outside `menu_pages` (the C read
is out of bounds there). -/
def zero_page : page_t :=
  { title := "", cols_number := 0, rows_number := 0, cols := [], rows := [] }

/-- The read `menu_pages[i]`. -/
def page_at (B : Build) (i : Nat) : page_t := (menu_pages B).getD i zero_page

/-- The read `page.cols[i]`. -/
def col_at (page : page_t) (i : Nat) : col_t := page.cols.getD i zero_col

/-- The read `page.rows[i]`. -/
def row_at (page : page_t) (i : Nat) : row_t := page.rows.getD i zero_row

/-! ## Module state -/

/-- The file-scope statics of `osd.c`, the function-scope statics of `updateOsd`
(`skip`, `blink`, `arming`) and the live configuration. -/
structure State where
  next_osd_update_at : Nat
  armed_seconds : Nat
  armed_at : Nat
  armed : Bool
  current_page : Nat
  sticks : Nat → Nat
  cursor_row : Nat
  cursor_col : Nat
  in_menu : Bool
  skip : Nat
  blink : Bool
  arming : Nat
  cfg : Config

/-- The state after program start-up: every static holds its initialiser. -/
def init_state (c : Config) : State :=
  { next_osd_update_at := 0
    armed_seconds := 0
    armed_at := 0
    armed := false
    current_page := 0
    sticks := fun _ => 0
    cursor_row := 255
    cursor_col := 0
    in_menu := false
    skip := 0
    blink := false
    arming := 0
    cfg := c }

/-! ## `show_menu` -/

/-- Lines 499-508: the loop over the columns of the page.  It returns the local
`cursor_x` and the header writes; `cursor_x` keeps its previous (indeterminate) content
unless `cursor_col` is one of the column indices. -/
def cols_loop (page : page_t) (cursor_col : Nat) (line : Nat) (cursor_x : Nat) :
    Nat × List Event :=
  (List.range page.cols_number).foldl
    (fun acc i =>
      ((if cursor_col = i then ((col_at page i).x_pos + 65535) % 65536 else acc.1),
       acc.2 ++
        (match (col_at page i).title with
         | some t =>
           [Event.max7456_write_string "%s" [Arg.str t]
             (line * OSD_LINE_LENGTH + (col_at page i).x_pos)]
         | none => [])))
    (cursor_x, [])

/-- Lines 518-521: the inner loop that prints every column of one row. -/
def row_prints (B : Build) (inp : Inputs) (c : Config) (page : page_t) (row : row_t)
    (line : Nat) : List Event :=
  (List.range page.cols_number).foldl
    (fun acc j =>
      acc ++
        (match row.print with
         | some f =>
           call_print B inp c
             (((line + row.y_pos) * OSD_LINE_LENGTH + (col_at page j).x_pos) % 65536) j f
         | none => []))
    []

/-- Lines 511-522: the loop over the rows of the page.  It returns the local `cursor_y`
and the writes of the row titles and values. -/
def rows_loop (B : Build) (inp : Inputs) (c : Config) (page : page_t) (cursor_row : Nat)
    (line : Nat) (cursor_y : Nat) : Nat × List Event :=
  (List.range page.rows_number).foldl
    (fun acc i =>
      ((if cursor_row = i then (line + (row_at page i).y_pos) % 65536 else acc.1),
       acc.2 ++
        [Event.max7456_write_string "%s" [Arg.str (row_at page i).title]
          ((line + (row_at page i).y_pos) * OSD_LINE_LENGTH + 1)] ++
        row_prints B inp c page (row_at page i) line))
    (cursor_y, [])

/-- Lines 524-550: the Select / Increase gesture. -/
def select_step (B : Build) (s : State) : Option (State × List Event) :=
  if s.sticks YAW > 90 ∧ s.sticks ROLL > 10 ∧ s.sticks ROLL < 90 ∧
      s.sticks PITCH > 10 ∧ s.sticks PITCH < 90 then
    if s.cursor_row > B.MAX_MENU_ROWS then
      match s.cursor_col with
      | 0 => some ({ s with in_menu := false }, [])
      | 1 =>
        if B.USE_RTC6705 = true ∧ s.cfg.vtx_channel ≠ s.cfg.current_vtx_channel then
          some ({ s with
                  in_menu := false
                  cfg := { s.cfg with vtx_channel := s.cfg.current_vtx_channel } },
                [Event.rtc6705_set_channel (B.vtx_freq s.cfg.current_vtx_channel),
                 Event.writeEEPROM])
        else
          some ({ s with in_menu := false }, [Event.writeEEPROM])
      | 2 =>
        if s.current_page < (menu_pages B).length - 1 then
          some ({ s with current_page := (s.current_page + 1) % 256 }, [])
        else
          some ({ s with current_page := 0 }, [])
      | _ => some (s, [])
    else
      match (row_at (page_at B s.current_page) s.cursor_row).update with
      | some f =>
        (call_update B true s.cursor_col s.cfg f).map fun c =>
          ({ s with cfg := c }, [Event.update f true s.cursor_col])
      | none => some (s, [])
  else some (s, [])

/-- Lines 552-561: the Back / Decrease gesture. -/
def back_step (B : Build) (s : State) : Option (State × List Event) :=
  if s.sticks YAW < 10 ∧ s.sticks ROLL > 10 ∧ s.sticks ROLL < 90 ∧
      s.sticks PITCH > 10 ∧ s.sticks PITCH < 90 then
    if s.cursor_row > B.MAX_MENU_ROWS then
      if s.cursor_col = 2 ∧ s.current_page > 0 then
        some ({ s with current_page := (s.current_page - 1) % 256 }, [])
      else some (s, [])
    else
      match (row_at (page_at B s.current_page) s.cursor_row).update with
      | some f =>
        (call_update B false s.cursor_col s.cfg f).map fun c =>
          ({ s with cfg := c }, [Event.update f false s.cursor_col])
      | none => some (s, [])
  else some (s, [])

/-- Lines 563-571: the Up gesture.  `rows_number - 1` is computed in `int` and stored
into the `uint8_t` `cursor_row`. -/
def up_step (B : Build) (s : State) : State :=
  if s.sticks PITCH > 90 ∧ s.sticks YAW > 10 ∧ s.sticks YAW < 90 then
    if s.cursor_row > B.MAX_MENU_ROWS then
      { s with
        cursor_row := ((page_at B s.current_page).rows_number + 255) % 256
        cursor_col := 0 }
    else
      if s.cursor_row > 0 then { s with cursor_row := (s.cursor_row - 1) % 256 } else s
  else s

/-- Lines 572-577: the Down gesture.  The comparison `cursor_row < rows_number - 1` is
made in `int`. -/
def down_step (B : Build) (s : State) : State :=
  if s.sticks PITCH < 10 ∧ s.sticks YAW > 10 ∧ s.sticks YAW < 90 then
    if (s.cursor_row : Int) < ((page_at B s.current_page).rows_number : Int) - 1 then
      { s with cursor_row := (s.cursor_row + 1) % 256 }
    else
      { s with cursor_row := 255 }
  else s

/-- Lines 578-586: the Right gesture.  The comparison `cursor_col < cols_number - 1` is
made in `int`. -/
def right_step (B : Build) (s : State) : State :=
  if s.sticks ROLL > 90 ∧ s.sticks YAW > 10 ∧ s.sticks YAW < 90 then
    if s.cursor_row > B.MAX_MENU_ROWS then
      if s.cursor_col < 2 then { s with cursor_col := (s.cursor_col + 1) % 256 } else s
    else
      if (s.cursor_col : Int) < ((page_at B s.current_page).cols_number : Int) - 1 then
        { s with cursor_col := (s.cursor_col + 1) % 256 }
      else s
  else s

/-- Lines 587-590: the Left gesture. -/
def left_step (s : State) : State :=
  if s.sticks ROLL < 10 ∧ s.sticks YAW > 10 ∧ s.sticks YAW < 90 then
    if s.cursor_col > 0 then { s with cursor_col := (s.cursor_col - 1) % 256 } else s
  else s

/-- Lines 563-590: the four directional gestures in program order. -/
def move_steps (B : Build) (s : State) : State :=
  left_step (right_step B (down_step B (up_step B s)))

/-- Lines 592-608: on the toolbar the sentinel is re-established and the locals
`cursor_x`, `cursor_y` are recomputed; on a row they keep what the render loops left.
The result is the state and the final `(cursor_x, cursor_y)`. -/
def final_cursor (B : Build) (s : State) (cursor_x cursor_y : Nat) : State × Nat × Nat :=
  if s.cursor_row > B.MAX_MENU_ROWS then
    ({ s with cursor_row := 255 },
     (match s.cursor_col with
      | 0 => 0
      | 1 => 9
      | 2 => 23
      | _ => 0),
     12)
  else (s, cursor_x, cursor_y)

/-- Lines 490-495: the toolbar line and the page title.  `strlen` yields an unsigned
32-bit `size_t`, and the sum is stored into the `uint16_t` `pos`; `line` is 1 here. -/
def header_writes (page : page_t) : List Event :=
  [Event.max7456_write_string "EXIT     SAVE+EXIT     PAGE" [] (12 * OSD_LINE_LENGTH + 1),
   Event.max7456_write_string "%s" [Arg.str page.title]
     ((((OSD_LINE_LENGTH + (4294967296 - page.title.length % 4294967296)) % 4294967296) / 2
        + 1 * OSD_LINE_LENGTH) % 65536)]

/-- Everything `show_menu` writes before it looks at the sticks (lines 484-522), for the
page and cursor the call starts with: the events, and the locals `cursor_x`, `cursor_y`
as the loops leave them. -/
def render_menu (B : Build) (inp : Inputs) (s : State) : List Event × Nat × Nat :=
  let page := page_at B s.current_page
  let cx := cols_loop page s.cursor_col 3 inp.cursor_x
  let cy := rows_loop B inp s.cfg page s.cursor_row 4 inp.cursor_y
  (header_writes page ++ cx.2 ++ cy.2, cx.1, cy.1)

/-- The function `show_menu`: render, Select, Back, the directional moves, and the cursor
glyph.  `none` when a row handler runs into undefined behaviour. -/
def show_menu (B : Build) (inp : Inputs) (s : State) : Option (State × List Event) :=
  let r := render_menu B inp s
  match select_step B s with
  | none => none
  | some (s1, e1) =>
    match back_step B s1 with
    | none => none
    | some (s2, e2) =>
      let f := final_cursor B (move_steps B s2) r.2.1 r.2.2
      some (f.1,
        r.1 ++ e1 ++ e2 ++
          [Event.max7456_write_string ">" [] (f.2.1 + f.2.2 * OSD_LINE_LENGTH)])

/-! ## `updateOsd` -/

/-- Modelled from the spec: `common/maths.h` is missing; `constrain(amt, low, high)` clamps
`amt` into `[low, high]`. -/
def constrain (amt low high : Int) : Int :=
  if amt < low then low else if amt > high then high else amt

/-- The right-hand side of line 643 stored into the `uint8_t` `sticks[channelIndex]`:
`int` arithmetic with the truncating division of C, then reduction modulo 256. -/
def stick_value (B : Build) (rc : Int) : Nat :=
  ((((constrain rc B.PWM_RANGE_MIN B.PWM_RANGE_MAX - B.PWM_RANGE_MIN) * 100).tdiv
      (B.PWM_RANGE_MAX - B.PWM_RANGE_MIN)) % 256).toNat

/-- Lines 642-644: the loop that samples the four stick channels. -/
def sample_sticks (B : Build) (rcData : Nat → Int) (sticks : Nat → Nat) : Nat → Nat :=
  (List.range 4).foldl (fun st channelIndex =>
    Function.update st channelIndex (stick_value B (rcData channelIndex))) sticks

/-- The 32-bit unsigned difference `a - b`. -/
def sub32 (a b : Nat) : Nat := (a % 4294967296 + (4294967296 - b % 4294967296)) % 4294967296

/-- Line 621: `(int32_t)(now - next_osd_update_at) >= 0`. -/
def updateNow (now : Nat) (s : State) : Bool :=
  decide (sub32 now s.next_osd_update_at < 2147483648)

/-- Lines 630-650: arming edges, stick sampling and the enter-menu gesture. -/
def arming_step (B : Build) (inp : Inputs) (s : State) : State :=
  if inp.ARMED = true then
    if s.armed = false then
      { s with armed := true, armed_at := inp.now % 4294967296, in_menu := false, arming := 5 }
    else s
  else
    let s1 : State :=
      if s.armed = true then
        { s with
          armed := false
          armed_seconds :=
            (s.armed_seconds + sub32 inp.now s.armed_at / 1000000) % 4294967296 }
      else s
    let s2 : State := { s1 with sticks := sample_sticks B inp.rcData s1.sticks }
    if s2.in_menu = false ∧ s2.sticks YAW < 10 ∧ s2.sticks THROTTLE > 10 ∧
        s2.sticks THROTTLE < 90 ∧ s2.sticks ROLL > 10 ∧ s2.sticks ROLL < 90 ∧
        s2.sticks PITCH > 90 then
      { s2 with in_menu := true, cursor_row := 255, cursor_col := 2 }
    else s2

/-- Lines 654-674: the flight overlay drawn when the menu is not shown. -/
def overlay (B : Build) (inp : Inputs) (s : State) : State × List Event :=
  let e1 : List Event :=
    if inp.batteryWarningVoltage > inp.vbat ∧ s.blink = true then
      [Event.max7456_write_string "LOW VOLTAGE" [] 310]
    else []
  let flash : Bool := decide (s.arming ≠ 0 ∧ s.blink = true)
  let e2 : List Event :=
    if flash = true then [Event.max7456_write_string "ARMED" [] 283] else []
  let s1 : State := if flash = true then { s with arming := (s.arming - 1) % 256 } else s
  let e3 : List Event :=
    if s1.armed = false then [Event.max7456_write_string "DISARMED" [] 281] else []
  let seconds : Nat := (sub32 inp.now s1.armed_at / 1000000 + s1.armed_seconds) % 4294967296
  (s1,
   e1 ++ e2 ++ e3 ++
     [Event.max7456_write_string "\x97%d.%1d"
        [Arg.int (inp.vbat / 10 : Nat), Arg.int (inp.vbat % 10 : Nat)] 361,
      Event.max7456_write_string "\xba%d" [Arg.int (inp.rssi / 10 : Nat)] 331,
      Event.max7456_write_string "\x7e%3d"
        [Arg.int (((constrain (inp.rcData THROTTLE) B.PWM_RANGE_MIN B.PWM_RANGE_MAX
            - B.PWM_RANGE_MIN) * 100).tdiv (B.PWM_RANGE_MAX - B.PWM_RANGE_MIN))] 381,
      Event.max7456_write_string "\x9C %02d:%02d"
        [Arg.int (seconds / 60 : Nat), Arg.int (seconds % 60 : Nat)] 351] ++
     print_average_system_load inp 26 0)

/-- Lines 630-675: the body of the `if (skip++ & 1)` branch, the content-update pass. -/
def content_pass (B : Build) (inp : Inputs) (s : State) : Option (State × List Event) :=
  let s1 := arming_step B inp s
  if s1.in_menu = true then
    (show_menu B inp s1).map fun r => (r.1, Event.show_menu :: r.2)
  else
    some (overlay B inp s1)

/-- Lines 625-629: the new deadline, the toggle of `blink` on an even `skip`, and the
post-increment of `skip`. -/
def pass_prelude (inp : Inputs) (s : State) : State :=
  let s1 : State :=
    { s with next_osd_update_at := (inp.now % 4294967296 + OSD_UPDATE_FREQUENCY) % 4294967296 }
  let s2 : State := if s1.skip % 2 = 0 then { s1 with blink := !s1.blink } else s1
  { s2 with skip := (s2.skip + 1) % 256 }

/-- The function `updateOsd`.  The result is the new state and the calls made, in order;
`none` when a row handler runs into undefined behaviour.  The test `skip++ & 1` reads
`skip` before the increment. -/
def updateOsd (B : Build) (inp : Inputs) (s : State) : Option (State × List Event) :=
  if updateNow inp.now s = false then
    some (s, [])
  else if s.skip % 2 = 1 then
    content_pass B inp (pass_prelude inp s)
  else
    some (pass_prelude inp s, [Event.max7456_draw_screen_fast])

/-- States the module can be in: the start-up state, and every state a call of
`updateOsd` leaves, for any inputs. -/
inductive Reachable (B : Build) : State → Prop where
  | init (c : Config) : Reachable B (init_state c)
  | step {s t : State} {ev : List Event} (inp : Inputs) :
      Reachable B s → updateOsd B inp s = some (t, ev) → Reachable B t

/-- A concrete build (VTX support compiled in, PWM range 1000..2000), used to evaluate
the definitions on concrete inputs. -/
def sample_build : Build :=
  { USE_RTC6705 := true
    MAX_MENU_ROWS := 8
    IS_PID_CONTROLLER_FP_BASED := fun pc => pc == 2
    CONTROL_RATE_CONFIG_ROLL_PITCH_RATE_MAX := 100
    CONTROL_RATE_CONFIG_YAW_RATE_MAX := 255
    PWM_RANGE_MIN := 1000
    PWM_RANGE_MAX := 2000
    vtx_freq := fun i => 5000 + i
    vtx_bands := fun _ => "A" }

/-- A PID profile whose integer gains are all `v` and whose floating gains are all `q`. -/
def sample_pid (pc : Nat) (v : Nat) (q : ℚ) : pidProfile_t :=
  { pidController := pc
    P8 := fun _ => v
    I8 := fun _ => v
    D8 := fun _ => v
    P_f := fun _ => q
    I_f := fun _ => q
    D_f := fun _ => q }

/-- A configuration built from `sample_pid`, with rates 50 and both VTX channels given. -/
def sample_cfg (pc : Nat) (v : Nat) (q : ℚ) (saved current : Nat) : Config :=
  { pidProfile := sample_pid pc v q
    rates := fun _ => 50
    vtx_channel := saved
    current_vtx_channel := current }

/-! ## Invariants and specification-level definitions -/

/-- The cursor invariant of the menu: `current_page` indexes `menu_pages`, `cursor_row`
is the toolbar sentinel 255 or a row of the current page, and `cursor_col` is one of the
three toolbar slots on the toolbar and a column of the current page on a row. -/
def cursor_inv (B : Build) (s : State) : Prop :=
  s.current_page < (menu_pages B).length ∧
  (s.cursor_row = 255 ∨ s.cursor_row < (page_at B s.current_page).rows_number) ∧
  (s.cursor_row = 255 → s.cursor_col < 3) ∧
  (s.cursor_row ≠ 255 → s.cursor_col < (page_at B s.current_page).cols_number)

/-- Whether an event is a `max7456_write_string` call, that is neither the entry into
`show_menu`, nor a row update handler, nor `writeEEPROM`, nor a VTX or draw call. -/
def is_write : Event → Bool
  | .max7456_write_string _ _ _ => true
  | _ => false

/-- Inputs with the given timestamp, arming flag and raw readings of the four stick
channels; battery, RSSI and load are fixed. -/
def sample_inputs (now : Nat) (armed : Bool) (roll pitch yaw throttle : Int) : Inputs :=
  { now := now
    ARMED := armed
    rcData := fun i =>
      if i = ROLL then roll else if i = PITCH then pitch else if i = YAW then yaw else throttle
    vbat := 111
    batteryWarningVoltage := 105
    rssi := 1000
    averageSystemLoadPercent := 7
    cursor_x := 0
    cursor_y := 0 }

/-- The state after the first (flush-only) pass at time 0 from start-up, with an integer
PID controller and all gains 40. -/
def sample_flushed : State :=
  pass_prelude (sample_inputs 0 false 1500 1500 1500 1500) (init_state (sample_cfg 0 40 0 3 5))

/-- The state after `n` successive calls of `show_menu` with the same inputs (the sticks
are part of the state and stay as they are between the calls). -/
def show_menu_iter (B : Build) (inp : Inputs) : Nat → State → Option State
  | 0, s => some s
  | n + 1, s => (show_menu B inp s).bind fun r => show_menu_iter B inp n r.1

/-- The calls in a pass other than `max7456_write_string`, in program order. -/
def calls (ev : List Event) : List Event := ev.filter fun e => !is_write e

/-- Stick values for the four channels. -/
def sample_sticks_at (roll pitch yaw throttle : Nat) : Nat → Nat :=
  fun i => if i = ROLL then roll else if i = PITCH then pitch else if i = YAW then yaw
    else throttle

/-- A state with the menu shown on the given page and cursor, with the given stick values;
everything else as in `sample_flushed`. -/
def sample_menu (page row col : Nat) (sticks : Nat → Nat) : State :=
  { sample_flushed with
    in_menu := true
    current_page := page
    cursor_row := row
    cursor_col := col
    sticks := sticks }

/-! ## The cursor rules of the specification (section 4.3, rules 3 to 6) -/

/-- The cursor of the specification: on the toolbar at one of its slots, or on a data row
at a column. -/
inductive Cursor where
  | toolbar (col : Nat)
  | row (r c : Nat)
deriving DecidableEq, Repr

/-- Specification, rule 3 (Up): from the toolbar to the last row of the page, column 0;
on a row the row index is decremented, with floor 0. -/
def spec_up (page : page_t) : Cursor → Cursor
  | .toolbar _ => .row (page.rows_number - 1) 0
  | .row r c => .row (r - 1) c

/-- Specification, rule 4 (Down): on a row that is not the last one the row index is
incremented; otherwise the cursor goes to (or stays on) the toolbar, the column kept. -/
def spec_down (page : page_t) : Cursor → Cursor
  | .toolbar c => .toolbar c
  | .row r c => if r ≠ page.rows_number - 1 then .row (r + 1) c else .toolbar c

/-- Specification, rule 5 (Right): on the toolbar the column is incremented with ceiling 2;
on a row it is incremented up to `cols_number - 1`. -/
def spec_right (page : page_t) : Cursor → Cursor
  | .toolbar c => .toolbar (min (c + 1) 2)
  | .row r c => .row r (min (c + 1) (page.cols_number - 1))

/-- Specification, rule 6 (Left): the column is decremented with floor 0, in both states. -/
def spec_left : Cursor → Cursor
  | .toolbar c => .toolbar (c - 1)
  | .row r c => .row r (c - 1)

/-- Specification, rules 3 to 6 applied in that order, each under its gesture of
section 4.1 (Up: PITCH > 90, Down: PITCH < 10, Right: ROLL > 90, Left: ROLL < 10, all with
YAW strictly between 10 and 90). -/
def spec_moves (page : page_t) (sticks : Nat → Nat) (cur : Cursor) : Cursor :=
  let c1 := if sticks PITCH > 90 ∧ 10 < sticks YAW ∧ sticks YAW < 90
    then spec_up page cur else cur
  let c2 := if sticks PITCH < 10 ∧ 10 < sticks YAW ∧ sticks YAW < 90
    then spec_down page c1 else c1
  let c3 := if sticks ROLL > 90 ∧ 10 < sticks YAW ∧ sticks YAW < 90
    then spec_right page c2 else c2
  if sticks ROLL < 10 ∧ 10 < sticks YAW ∧ sticks YAW < 90 then spec_left c3 else c3

/-- The specification cursor that the statics `cursor_row`, `cursor_col` stand for. -/
def cursor_of (s : State) : Cursor :=
  if s.cursor_row = 255 then .toolbar s.cursor_col else .row s.cursor_row s.cursor_col

/-! ## Sample states of a flight -/

/-- Inputs of the arming pass used in the examples: time 200000, arming flag set. -/
def sample_arm_inputs : Inputs := sample_inputs 200000 true 1500 1500 1500 1500

/-- The state after the content-update pass at time 200000 with the arming flag set,
from `sample_flushed`: the module is armed since 200000. -/
def sample_armed : State :=
  (overlay sample_build sample_arm_inputs
    (arming_step sample_build sample_arm_inputs
      (pass_prelude sample_arm_inputs sample_flushed))).1

/-- The state after the following flush-only pass at time 400000, still armed. -/
def sample_armed_flushed : State :=
  pass_prelude (sample_inputs 400000 true 1500 1500 1500 1500) sample_armed

/-- Inputs of the disarming pass used in the examples: 125 seconds after the arming pass,
arming flag clear, sticks centred. -/
def sample_disarm_inputs : Inputs := sample_inputs 125200000 false 1500 1500 1500 1500

/-- The arguments of the elapsed-time writes of a pass: the `(minutes, seconds)` given to
the format "%02d:%02d" of the write at position 351. -/
def elapsed_time_args (ev : List Event) : List (List Arg) :=
  ev.filterMap fun e =>
    match e with
    | .max7456_write_string _ args pos => if pos = 351 then some args else none
    | _ => none

/-- A 32-bit pattern read as a signed `int32_t`. -/
def int32_of (x : Nat) : Int :=
  if x % 4294967296 < 2147483648 then (x % 4294967296 : Nat)
  else ((x % 4294967296 : Nat) : Int) - 4294967296

/-- A run of un-gated passes: `updateOsd` is called with each of the inputs in turn, and
every call finds its deadline reached; `none` when a call is gated or does not return. -/
def ungated_run (B : Build) : List Inputs → State → Option State
  | [], s => some s
  | inp :: rest, s =>
    if updateNow inp.now s = true then
      (updateOsd B inp s).bind fun r => ungated_run B rest r.1
    else none

/-- Inputs whose timestamp is exactly the deadline of the state `s`, so that a call of
`updateOsd` with them is not gated; disarmed, all readings zero. -/
def due_inputs (s : State) : Inputs :=
  { now := s.next_osd_update_at
    ARMED := false
    rcData := fun _ => 0
    vbat := 0
    batteryWarningVoltage := 0
    rssi := 0
    averageSystemLoadPercent := 0
    cursor_x := 0
    cursor_y := 0 }

/-- What the print call of row `r`, column `k` of a page writes in `show_menu` when the
configuration is `c`: the call `row->print((line + row->y_pos) * 30 + col->x_pos, k)` of
line 520, with `line` = 4. -/
def row_print_events (B : Build) (inp : Inputs) (c : Config) (page : page_t) (r k : Nat) :
    List Event :=
  match (row_at page r).print with
  | some f =>
    call_print B inp c
      (((4 + (row_at page r).y_pos) * OSD_LINE_LENGTH + (col_at page k).x_pos) % 65536) k f
  | none => []

/-- Whether an event is a write of the cursor glyph ">". -/
def is_glyph : Event → Bool
  | .max7456_write_string fmt _ _ => fmt == ">"
  | _ => false

/-- Stick values of a Select gesture, as in `sample_sticks_at 50 50 95 50`. -/
def select_sticks : Nat → Nat := sample_sticks_at 50 50 95 50

/-- Stick values of a Down gesture: PITCH below 10, the other channels centred. -/
def down_sticks : Nat → Nat := sample_sticks_at 50 5 50 50

/-- Inputs of a content-update pass in the menu examples. -/
def sample_menu_inputs : Inputs := sample_inputs 400000 false 1500 1500 1500 1500

/-- The positions at which a pass writes the string formatted from `fmt` and `args`. -/
def write_positions (fmt : String) (args : List Arg) (ev : List Event) : List Nat :=
  ev.filterMap fun e =>
    match e with
    | .max7456_write_string f a pos => if f = fmt ∧ a = args then some pos else none
    | _ => none

/-- Stick values with which no gesture holds: all four channels centred. -/
def idle_sticks : Nat → Nat := sample_sticks_at 50 50 50 50

/-! ## The gesture conditions tested by `show_menu` and `updateOsd` -/

/-- Line 524: the Select / Increase condition. -/
def select_gesture (sticks : Nat → Nat) : Prop :=
  sticks YAW > 90 ∧ sticks ROLL > 10 ∧ sticks ROLL < 90 ∧ sticks PITCH > 10 ∧
    sticks PITCH < 90

/-- Line 552: the Back / Decrease condition. -/
def back_gesture (sticks : Nat → Nat) : Prop :=
  sticks YAW < 10 ∧ sticks ROLL > 10 ∧ sticks ROLL < 90 ∧ sticks PITCH > 10 ∧
    sticks PITCH < 90

/-- Line 563: the Up condition. -/
def up_gesture (sticks : Nat → Nat) : Prop :=
  sticks PITCH > 90 ∧ sticks YAW > 10 ∧ sticks YAW < 90

/-- Line 572: the Down condition. -/
def down_gesture (sticks : Nat → Nat) : Prop :=
  sticks PITCH < 10 ∧ sticks YAW > 10 ∧ sticks YAW < 90

/-- Line 578: the Right condition. -/
def right_gesture (sticks : Nat → Nat) : Prop :=
  sticks ROLL > 90 ∧ sticks YAW > 10 ∧ sticks YAW < 90

/-- Line 587: the Left condition. -/
def left_gesture (sticks : Nat → Nat) : Prop :=
  sticks ROLL < 10 ∧ sticks YAW > 10 ∧ sticks YAW < 90

/-- Line 645: the stick part of the enter-menu condition of `updateOsd`. -/
def enter_gesture (sticks : Nat → Nat) : Prop :=
  sticks YAW < 10 ∧ sticks THROTTLE > 10 ∧ sticks THROTTLE < 90 ∧ sticks ROLL > 10 ∧
    sticks ROLL < 90 ∧ sticks PITCH > 90

/-- Stick values of an Up gesture: PITCH above 90, the other channels centred. -/
def up_sticks : Nat → Nat := sample_sticks_at 50 95 50 50

/-- The inputs `sample_menu_inputs`, with the given indeterminate initial contents of the
locals `cursor_x` and `cursor_y` of `show_menu`. -/
def sample_menu_inputs_with (x y : Nat) : Inputs :=
  { sample_menu_inputs with cursor_x := x, cursor_y := y }

/-! ## Integer and floating gain handlers -/

theorem int_gain_update (inc : Bool) (col axis : Nat) (p : pidProfile_t) (hcol : col ≤ 2) :
    int_gain col axis (update_int_pid inc col axis p) = int_pid_step inc (int_gain col axis p) := by
  have h : col = 0 ∨ col = 1 ∨ col = 2 := by omega
  rcases h with rfl | rfl | rfl <;> simp [int_gain, update_int_pid]

theorem int_pid_step_le (inc : Bool) (v : Nat) (hv : v ≤ 200) : int_pid_step inc v ≤ 200 := by
  unfold int_pid_step
  split_ifs <;> omega

/-- C2 (as stated, refuted): a stored gain of 255 is left at 255 by an increase, so the
gain is outside `[0,200]` after `update_int_pid` returns. -/
theorem update_int_pid_range_fails :
    ¬ (∀ (p : pidProfile_t) (inc : Bool) (col axis : Nat), col ≤ 2 →
        int_gain col axis p ≤ 255 →
        int_gain col axis (update_int_pid inc col axis p) ≤ 200) := by
  intro h
  have h1 := h (sample_pid 0 255 0) true 0 ROLL (by decide) (by decide)
  revert h1
  decide

/-- C2 (amended): for a column in {0,1,2} and any axis, a stored gain of at most 200 is
in `[0,200]` after `update_int_pid`; a stored 8-bit gain above 200 is not clamped: an
increase leaves it unchanged and a decrease lowers it by one. -/
theorem update_int_pid_range (p : pidProfile_t) (inc : Bool) (col axis : Nat)
    (hcol : col ≤ 2) (hv : int_gain col axis p ≤ 255) :
    (int_gain col axis p ≤ 200 →
      int_gain col axis (update_int_pid inc col axis p) ≤ 200) ∧
    (200 < int_gain col axis p →
      int_gain col axis (update_int_pid inc col axis p)
        = if inc = true then int_gain col axis p else int_gain col axis p - 1) := by
  rw [int_gain_update inc col axis p hcol]
  refine ⟨int_pid_step_le inc _, ?_⟩
  intro h
  unfold int_pid_step
  split_ifs <;> omega

theorem update_int_pid_range_witness :
    int_gain 1 PITCH (sample_pid 0 200 0) ≤ 255 ∧
      int_gain 1 PITCH (update_int_pid true 1 PITCH (sample_pid 0 200 0)) ≤ 200 :=
  ⟨by decide,
   (update_int_pid_range (sample_pid 0 200 0) true 1 PITCH (by decide) (by decide)).1
     (by decide)⟩

theorem int_pid_step_inc (v : Nat) (hv : v ≤ 200) : int_pid_step true v = min (v + 1) 200 := by
  simp only [int_pid_step, if_true]
  split_ifs <;> omega

theorem int_pid_step_dec (v : Nat) (hv : v ≤ 200) : int_pid_step false v = v - 1 := by
  simp only [int_pid_step, Bool.false_eq_true, if_false]
  split_ifs <;> omega

theorem int_gain_iterate_inc (col axis : Nat) (hcol : col ≤ 2) (n : Nat) :
    ∀ p : pidProfile_t, int_gain col axis p ≤ 200 →
      int_gain col axis ((update_int_pid true col axis)^[n] p)
        = min (int_gain col axis p + n) 200 := by
  induction n with
  | zero => intro p hp; simp [hp]
  | succ k ih =>
    intro p hp
    have h1 := int_gain_update true col axis p hcol
    have h2 := int_pid_step_le true _ hp
    rw [Function.iterate_succ_apply, ih _ (h1 ▸ h2), h1, int_pid_step_inc _ hp]
    omega

theorem int_gain_iterate_dec (col axis : Nat) (hcol : col ≤ 2) (n : Nat) :
    ∀ p : pidProfile_t, int_gain col axis p ≤ 200 →
      int_gain col axis ((update_int_pid false col axis)^[n] p)
        = int_gain col axis p - n := by
  induction n with
  | zero => intro p _; simp
  | succ k ih =>
    intro p hp
    have h1 := int_gain_update false col axis p hcol
    have h2 := int_pid_step_le false _ hp
    rw [Function.iterate_succ_apply, ih _ (h1 ▸ h2), h1, int_pid_step_dec _ hp]
    omega

/-- C3: for a gain `v ≤ 200`, a column in {0,1,2} and any axis, `n` successive
`update_int_pid(true, col, axis)` calls leave the selected gain at `min (v + n) 200` and
`n` successive `update_int_pid(false, col, axis)` calls leave it at `max (v - n) 0`
(computed in the integers, so no 8-bit wrap-around); an increase at 200 and a decrease
at 0 change nothing, and five increases from 40 give 45; with an integer PID controller
`update_roll_pid` is `update_int_pid` on the roll axis. -/
theorem update_int_pid_saturating (p : pidProfile_t) (col axis n : Nat)
    (hcol : col ≤ 2) (hv : int_gain col axis p ≤ 200) :
    int_gain col axis ((update_int_pid true col axis)^[n] p)
        = min (int_gain col axis p + n) 200 ∧
    ((int_gain col axis ((update_int_pid false col axis)^[n] p) : Nat) : Int)
        = max ((int_gain col axis p : Int) - (n : Int)) 0 ∧
    (int_gain col axis p = 200 →
        int_gain col axis (update_int_pid true col axis p) = 200) ∧
    (int_gain col axis p = 0 →
        int_gain col axis (update_int_pid false col axis p) = 0) ∧
    (int_gain col axis p = 40 →
        int_gain col axis ((update_int_pid true col axis)^[5] p) = 45) ∧
    (∀ (B : Build) (c : Config) (inc : Bool), c.pidProfile = p →
        B.IS_PID_CONTROLLER_FP_BASED c.pidProfile.pidController = false →
        update_roll_pid B inc col c
          = some { c with pidProfile := update_int_pid inc col ROLL p }) := by
  refine ⟨int_gain_iterate_inc col axis hcol n p hv, ?_, ?_, ?_, ?_, ?_⟩
  rotate_right
  · intro B c inc hc hfp
    subst hc
    simp [update_roll_pid, update_axis_pid, hfp]
  · rw [int_gain_iterate_dec col axis hcol n p hv]
    omega
  · intro h
    rw [int_gain_update true col axis p hcol, h]
    decide
  · intro h
    rw [int_gain_update false col axis p hcol, h]
    decide
  · intro h
    rw [int_gain_iterate_inc col axis hcol 5 p hv, h]
    decide

theorem update_int_pid_saturating_witness :
    int_gain 0 ROLL (sample_pid 0 198 0) ≤ 200 ∧
    int_gain 0 ROLL ((update_int_pid true 0 ROLL)^[7] (sample_pid 0 198 0))
      = min (int_gain 0 ROLL (sample_pid 0 198 0) + 7) 200 :=
  ⟨by decide,
   (update_int_pid_saturating (sample_pid 0 198 0) 0 ROLL 7 (by decide) (by decide)).1⟩

/-- C4 (the code at the failing inputs): a floating P gain of 99.95, inside
`[0.0, 100.0]`, is raised by `update_float_pid` to 100.05, above 100.0; a gain of 0.05
is lowered to -0.05, below 0.0. -/
theorem update_float_pid_overshoots :
    (0 ≤ float_gain 0 ROLL (sample_pid 2 0 (1999 / 20)) ∧
      float_gain 0 ROLL (sample_pid 2 0 (1999 / 20)) ≤ 100) ∧
    (update_float_pid true 0 ROLL (sample_pid 2 0 (1999 / 20))).map (float_gain 0 ROLL)
      = some (2001 / 20) ∧
    (100 : ℚ) < 2001 / 20 ∧
    (0 ≤ float_gain 0 ROLL (sample_pid 2 0 (1 / 20)) ∧
      float_gain 0 ROLL (sample_pid 2 0 (1 / 20)) ≤ 100) ∧
    (update_float_pid false 0 ROLL (sample_pid 2 0 (1 / 20))).map (float_gain 0 ROLL)
      = some (-1 / 20) ∧
    (-1 / 20 : ℚ) < 0 := by
  refine ⟨⟨?_, ?_⟩, ?_, ?_, ⟨?_, ?_⟩, ?_, ?_⟩ <;>
    norm_num [update_float_pid, float_gain, sample_pid, float_pid_step]

/-- For a column in {0,1,2} `update_float_pid` returns, and the selected gain is either
unchanged or moved by exactly the step of the column (0.1, 0.01, 0.001) in the
requested direction. -/
theorem update_float_pid_step (p : pidProfile_t) (inc : Bool) (col axis : Nat)
    (hcol : col ≤ 2) :
    ∃ q, update_float_pid inc col axis p = some q ∧
      (float_gain col axis q = float_gain col axis p ∨
        float_gain col axis q
          = if inc = true then float_gain col axis p + float_diff col
            else float_gain col axis p - float_diff col) := by
  have h : col = 0 ∨ col = 1 ∨ col = 2 := by omega
  rcases h with rfl | rfl | rfl <;>
    refine ⟨_, rfl, ?_⟩ <;>
    simp only [float_gain, float_diff, Function.update_same, float_pid_step] <;>
    cases inc <;> simp only [Bool.false_eq_true, if_false, if_true] <;>
    split_ifs <;> simp

/-! ## The cursor invariant -/

theorem pages_length (B : Build) :
    2 ≤ (menu_pages B).length ∧ (menu_pages B).length ≤ 3 := by
  cases h : B.USE_RTC6705 <;> simp [menu_pages, h]

theorem page_bounds (B : Build) (p : Nat) (hp : p < (menu_pages B).length) :
    1 ≤ (page_at B p).rows_number ∧ (page_at B p).rows_number ≤ 6 ∧
    1 ≤ (page_at B p).cols_number ∧ (page_at B p).cols_number ≤ 3 := by
  cases h : B.USE_RTC6705
  · simp [menu_pages, h] at hp
    have hp2 : p = 0 ∨ p = 1 := by omega
    rcases hp2 with rfl | rfl <;>
      simp [page_at, menu_pages, h, status_page, pid_page]
  · simp [menu_pages, h] at hp
    have hp2 : p = 0 ∨ p = 1 ∨ p = 2 := by omega
    rcases hp2 with rfl | rfl | rfl <;>
      simp [page_at, menu_pages, h, status_page, vtx_page, pid_page]

theorem call_update_total (B : Build) (inc : Bool) (col : Nat) (c : Config) (f : UpdateFn)
    (hcol : col ≤ 2) : ∃ c2, call_update B inc col c f = some c2 := by
  have h : col = 0 ∨ col = 1 ∨ col = 2 := by omega
  cases f <;>
    simp only [call_update, update_roll_pid, update_pitch_pid, update_yaw_pid,
      update_axis_pid, Option.some.injEq, exists_eq']
  all_goals
    split_ifs
    · rcases h with rfl | rfl | rfl <;> simp [update_float_pid]
    · simp

/-- What `select_step` can change: `in_menu`, the configuration and, from the toolbar
at column 2, the page. -/
theorem select_step_frame (B : Build) (s t : State) (ev : List Event)
    (h : select_step B s = some (t, ev)) :
    t.cursor_row = s.cursor_row ∧ t.cursor_col = s.cursor_col ∧ t.sticks = s.sticks ∧
    t.armed = s.armed ∧
    (t.current_page = s.current_page ∨
      (s.cursor_row > B.MAX_MENU_ROWS ∧ s.cursor_col = 2 ∧
        t.current_page = if s.current_page < (menu_pages B).length - 1
          then (s.current_page + 1) % 256 else 0)) := by
  unfold select_step at h
  split_ifs at h <;> (try split at h) <;>
    simp only [Option.some.injEq, Prod.mk.injEq, Option.map_eq_some'] at h <;>
    first
    | (obtain ⟨rfl, rfl⟩ := h; simp [*])
    | (obtain ⟨c2, hu, rfl, rfl⟩ := h; simp [*])

/-- What `back_step` can change: the configuration and, from the toolbar at column 2,
the page. -/
theorem back_step_frame (B : Build) (s t : State) (ev : List Event)
    (h : back_step B s = some (t, ev)) :
    t.cursor_row = s.cursor_row ∧ t.cursor_col = s.cursor_col ∧ t.sticks = s.sticks ∧
    t.armed = s.armed ∧ t.in_menu = s.in_menu ∧
    (t.current_page = s.current_page ∨
      (s.cursor_row > B.MAX_MENU_ROWS ∧ s.cursor_col = 2 ∧ s.current_page > 0 ∧
        t.current_page = (s.current_page - 1) % 256)) := by
  unfold back_step at h
  split_ifs at h <;> (try split at h) <;>
    simp only [Option.some.injEq, Prod.mk.injEq, Option.map_eq_some'] at h <;>
    first
    | (obtain ⟨rfl, rfl⟩ := h; simp [*])
    | (obtain ⟨c2, hu, rfl, rfl⟩ := h; simp [*])

theorem select_step_inv (B : Build) (hB : 5 ≤ B.MAX_MENU_ROWS ∧ B.MAX_MENU_ROWS < 255)
    (s t : State) (ev : List Event) (hs : cursor_inv B s)
    (h : select_step B s = some (t, ev)) : cursor_inv B t := by
  obtain ⟨hp, hr, hc1, hc2⟩ := hs
  have hb := page_bounds B s.current_page hp
  have hl := pages_length B
  obtain ⟨h1, h2, -, -, h3 | ⟨h3, h4, h5⟩⟩ := select_step_frame B s t ev h
  · unfold cursor_inv
    rw [h1, h2, h3]
    exact ⟨hp, hr, hc1, hc2⟩
  · have hrow : s.cursor_row = 255 := by omega
    unfold cursor_inv
    rw [h1, h2, h5]
    refine ⟨?_, Or.inl hrow, hc1, fun hne => absurd hrow hne⟩
    split_ifs <;> omega

theorem back_step_inv (B : Build) (hB : 5 ≤ B.MAX_MENU_ROWS ∧ B.MAX_MENU_ROWS < 255)
    (s t : State) (ev : List Event) (hs : cursor_inv B s)
    (h : back_step B s = some (t, ev)) : cursor_inv B t := by
  obtain ⟨hp, hr, hc1, hc2⟩ := hs
  have hb := page_bounds B s.current_page hp
  have hl := pages_length B
  obtain ⟨h1, h2, -, -, -, h3 | ⟨h3, h4, h5, h6⟩⟩ := back_step_frame B s t ev h
  · unfold cursor_inv
    rw [h1, h2, h3]
    exact ⟨hp, hr, hc1, hc2⟩
  · have hrow : s.cursor_row = 255 := by omega
    unfold cursor_inv
    rw [h1, h2, h6]
    refine ⟨?_, Or.inl hrow, hc1, fun hne => absurd hrow hne⟩
    omega

theorem up_step_inv (B : Build) (hB : 5 ≤ B.MAX_MENU_ROWS ∧ B.MAX_MENU_ROWS < 255)
    (s : State) (hs : cursor_inv B s) : cursor_inv B (up_step B s) := by
  obtain ⟨hp, hr, hc1, hc2⟩ := hs
  have hb := page_bounds B s.current_page hp
  unfold up_step
  split_ifs
  · refine ⟨hp, Or.inr ?_, ?_, ?_⟩ <;> simp only <;> omega
  · refine ⟨hp, Or.inr ?_, ?_, ?_⟩ <;> simp only <;> omega
  · exact ⟨hp, hr, hc1, hc2⟩
  · exact ⟨hp, hr, hc1, hc2⟩

theorem down_step_inv (B : Build) (s : State) (hs : cursor_inv B s) : cursor_inv B (down_step B s) := by
  obtain ⟨hp, hr, hc1, hc2⟩ := hs
  have hb := page_bounds B s.current_page hp
  unfold down_step
  split_ifs
  · refine ⟨hp, Or.inr ?_, ?_, ?_⟩ <;> simp only <;> omega
  · refine ⟨hp, Or.inl rfl, ?_, ?_⟩ <;> simp only <;> omega
  · exact ⟨hp, hr, hc1, hc2⟩

theorem right_step_inv (B : Build) (hB : 5 ≤ B.MAX_MENU_ROWS ∧ B.MAX_MENU_ROWS < 255)
    (s : State) (hs : cursor_inv B s) : cursor_inv B (right_step B s) := by
  obtain ⟨hp, hr, hc1, hc2⟩ := hs
  have hb := page_bounds B s.current_page hp
  unfold right_step
  split_ifs
  · refine ⟨hp, hr, ?_, ?_⟩ <;> simp only <;> omega
  · exact ⟨hp, hr, hc1, hc2⟩
  · refine ⟨hp, hr, ?_, ?_⟩ <;> simp only <;> omega
  · exact ⟨hp, hr, hc1, hc2⟩
  · exact ⟨hp, hr, hc1, hc2⟩

theorem left_step_inv (B : Build) (s : State) (hs : cursor_inv B s) :
    cursor_inv B (left_step s) := by
  obtain ⟨hp, hr, hc1, hc2⟩ := hs
  unfold left_step
  split_ifs
  · refine ⟨hp, hr, ?_, ?_⟩ <;> simp only <;> omega
  · exact ⟨hp, hr, hc1, hc2⟩
  · exact ⟨hp, hr, hc1, hc2⟩

theorem move_steps_inv (B : Build) (hB : 5 ≤ B.MAX_MENU_ROWS ∧ B.MAX_MENU_ROWS < 255)
    (s : State) (hs : cursor_inv B s) : cursor_inv B (move_steps B s) :=
  left_step_inv B _ (right_step_inv B hB _ (down_step_inv B _ (up_step_inv B hB _ hs)))

/-- Under the cursor invariant `final_cursor` leaves the state as it is. -/
theorem final_cursor_state (B : Build) (hB : 5 ≤ B.MAX_MENU_ROWS ∧ B.MAX_MENU_ROWS < 255)
    (s : State) (hs : cursor_inv B s) (x y : Nat) : (final_cursor B s x y).1 = s := by
  obtain ⟨hp, hr, hc1, hc2⟩ := hs
  have hb := page_bounds B s.current_page hp
  unfold final_cursor
  split_ifs with h
  · have hrow : s.cursor_row = 255 := by omega
    cases s
    simp only at hrow
    simp [hrow]
  · rfl

theorem option_map_total {α β : Type} (o : Option α) (f : α → β) (h : ∃ a, o = some a) :
    ∃ r, o.map f = some r := by
  obtain ⟨a, rfl⟩ := h
  exact ⟨_, rfl⟩

theorem select_step_total (B : Build) (hB : 5 ≤ B.MAX_MENU_ROWS ∧ B.MAX_MENU_ROWS < 255)
    (s : State) (hs : cursor_inv B s) : ∃ r, select_step B s = some r := by
  obtain ⟨hp, hr, hc1, hc2⟩ := hs
  have hb := page_bounds B s.current_page hp
  unfold select_step
  split_ifs <;> (try split) <;>
    first
    | exact ⟨_, rfl⟩
    | exact option_map_total _ _ (call_update_total B _ _ _ _ (by omega))

theorem back_step_total (B : Build) (hB : 5 ≤ B.MAX_MENU_ROWS ∧ B.MAX_MENU_ROWS < 255)
    (s : State) (hs : cursor_inv B s) : ∃ r, back_step B s = some r := by
  obtain ⟨hp, hr, hc1, hc2⟩ := hs
  have hb := page_bounds B s.current_page hp
  unfold back_step
  split_ifs <;> (try split) <;>
    first
    | exact ⟨_, rfl⟩
    | exact option_map_total _ _ (call_update_total B _ _ _ _ (by omega))

/-- The shape of a successful `show_menu` call. -/
theorem show_menu_some (B : Build) (inp : Inputs) (s t : State) (ev : List Event)
    (h : show_menu B inp s = some (t, ev)) :
    ∃ s1 e1 s2 e2, select_step B s = some (s1, e1) ∧ back_step B s1 = some (s2, e2) ∧
      t = (final_cursor B (move_steps B s2) (render_menu B inp s).2.1
            (render_menu B inp s).2.2).1 ∧
      ev = (render_menu B inp s).1 ++ e1 ++ e2 ++
        [Event.max7456_write_string ">" []
          ((final_cursor B (move_steps B s2) (render_menu B inp s).2.1
              (render_menu B inp s).2.2).2.1 +
            (final_cursor B (move_steps B s2) (render_menu B inp s).2.1
              (render_menu B inp s).2.2).2.2 * OSD_LINE_LENGTH)] := by
  unfold show_menu at h
  rcases h1 : select_step B s with _ | ⟨s1, e1⟩
  · simp [h1] at h
  · rcases h2 : back_step B s1 with _ | ⟨s2, e2⟩
    · simp [h1, h2] at h
    · simp only [h1, h2, Option.some.injEq, Prod.mk.injEq] at h
      exact ⟨s1, e1, s2, e2, rfl, h2, h.1.symm, h.2.symm⟩

theorem show_menu_inv (B : Build) (hB : 5 ≤ B.MAX_MENU_ROWS ∧ B.MAX_MENU_ROWS < 255)
    (inp : Inputs) (s t : State) (ev : List Event) (hs : cursor_inv B s)
    (h : show_menu B inp s = some (t, ev)) : cursor_inv B t := by
  obtain ⟨s1, e1, s2, e2, h1, h2, rfl, -⟩ := show_menu_some B inp s t ev h
  have i1 := select_step_inv B hB s s1 e1 hs h1
  have i2 := back_step_inv B hB s1 s2 e2 i1 h2
  have i3 := move_steps_inv B hB s2 i2
  rw [final_cursor_state B hB _ i3]
  exact i3

theorem show_menu_total (B : Build) (hB : 5 ≤ B.MAX_MENU_ROWS ∧ B.MAX_MENU_ROWS < 255)
    (inp : Inputs) (s : State) (hs : cursor_inv B s) : ∃ r, show_menu B inp s = some r := by
  obtain ⟨⟨s1, e1⟩, h1⟩ := select_step_total B hB s hs
  have i1 := select_step_inv B hB s s1 e1 hs h1
  obtain ⟨⟨s2, e2⟩, h2⟩ := back_step_total B hB s1 i1
  unfold show_menu
  simp only [h1, h2]
  exact ⟨_, rfl⟩

theorem arming_step_inv (B : Build) (inp : Inputs) (s : State) (hs : cursor_inv B s) :
    cursor_inv B (arming_step B inp s) := by
  obtain ⟨hp, hr, hc1, hc2⟩ := hs
  unfold arming_step
  split_ifs
  · exact ⟨hp, hr, hc1, hc2⟩
  · exact ⟨hp, hr, hc1, hc2⟩
  · simp only
    split_ifs
    · exact ⟨hp, Or.inl rfl, fun _ => (by decide : (2 : Nat) < 3), fun h => absurd rfl h⟩
    · exact ⟨hp, hr, hc1, hc2⟩
  · simp only
    split_ifs
    · exact ⟨hp, Or.inl rfl, fun _ => (by decide : (2 : Nat) < 3), fun h => absurd rfl h⟩
    · exact ⟨hp, hr, hc1, hc2⟩

theorem overlay_cursor (B : Build) (inp : Inputs) (s : State) :
    (overlay B inp s).1.current_page = s.current_page ∧
    (overlay B inp s).1.cursor_row = s.cursor_row ∧
    (overlay B inp s).1.cursor_col = s.cursor_col := by
  unfold overlay
  simp only
  split_ifs <;> simp

theorem cursor_inv_congr (B : Build) (s t : State) (hp : t.current_page = s.current_page)
    (hr : t.cursor_row = s.cursor_row) (hc : t.cursor_col = s.cursor_col)
    (hs : cursor_inv B s) : cursor_inv B t := by
  unfold cursor_inv
  rw [hp, hr, hc]
  exact hs

theorem content_pass_inv (B : Build) (hB : 5 ≤ B.MAX_MENU_ROWS ∧ B.MAX_MENU_ROWS < 255)
    (inp : Inputs) (s t : State) (ev : List Event) (hs : cursor_inv B s)
    (h : content_pass B inp s = some (t, ev)) : cursor_inv B t := by
  have ha := arming_step_inv B inp s hs
  unfold content_pass at h
  simp only at h
  split_ifs at h with hm
  · simp only [Option.map_eq_some', Prod.mk.injEq] at h
    obtain ⟨⟨t2, e2⟩, hsm, rfl, -⟩ := h
    exact show_menu_inv B hB inp _ t2 e2 ha hsm
  · simp only [Option.some.injEq] at h
    have ho := overlay_cursor B inp (arming_step B inp s)
    rw [h] at ho
    exact cursor_inv_congr B _ t ho.1 ho.2.1 ho.2.2 ha

theorem content_pass_total (B : Build) (hB : 5 ≤ B.MAX_MENU_ROWS ∧ B.MAX_MENU_ROWS < 255)
    (inp : Inputs) (s : State) (hs : cursor_inv B s) :
    ∃ r, content_pass B inp s = some r := by
  have ha := arming_step_inv B inp s hs
  unfold content_pass
  simp only
  split_ifs
  · exact option_map_total _ _ (show_menu_total B hB inp _ ha)
  · exact ⟨_, rfl⟩

theorem pass_prelude_frame (inp : Inputs) (s : State) :
    (pass_prelude inp s).current_page = s.current_page ∧
    (pass_prelude inp s).cursor_row = s.cursor_row ∧
    (pass_prelude inp s).cursor_col = s.cursor_col ∧
    (pass_prelude inp s).in_menu = s.in_menu ∧
    (pass_prelude inp s).armed = s.armed ∧
    (pass_prelude inp s).armed_at = s.armed_at ∧
    (pass_prelude inp s).armed_seconds = s.armed_seconds ∧
    (pass_prelude inp s).arming = s.arming ∧
    (pass_prelude inp s).sticks = s.sticks ∧
    (pass_prelude inp s).cfg = s.cfg := by
  unfold pass_prelude
  simp only
  split_ifs <;> simp

theorem updateOsd_inv (B : Build) (hB : 5 ≤ B.MAX_MENU_ROWS ∧ B.MAX_MENU_ROWS < 255)
    (inp : Inputs) (s t : State) (ev : List Event) (hs : cursor_inv B s)
    (h : updateOsd B inp s = some (t, ev)) : cursor_inv B t := by
  have hf := pass_prelude_frame inp s
  have hp : cursor_inv B (pass_prelude inp s) :=
    cursor_inv_congr B s _ hf.1 hf.2.1 hf.2.2.1 hs
  unfold updateOsd at h
  split_ifs at h
  · simp only [Option.some.injEq, Prod.mk.injEq] at h
    obtain ⟨rfl, -⟩ := h
    exact hs
  · exact content_pass_inv B hB inp _ t ev hp h
  · simp only [Option.some.injEq, Prod.mk.injEq] at h
    obtain ⟨rfl, -⟩ := h
    exact hp

theorem updateOsd_total (B : Build) (hB : 5 ≤ B.MAX_MENU_ROWS ∧ B.MAX_MENU_ROWS < 255)
    (inp : Inputs) (s : State) (hs : cursor_inv B s) :
    ∃ r, updateOsd B inp s = some r := by
  have hf := pass_prelude_frame inp s
  have hp : cursor_inv B (pass_prelude inp s) :=
    cursor_inv_congr B s _ hf.1 hf.2.1 hf.2.2.1 hs
  unfold updateOsd
  split_ifs
  · exact ⟨_, rfl⟩
  · exact content_pass_total B hB inp _ hp
  · exact ⟨_, rfl⟩

theorem init_state_inv (B : Build) (c : Config) : cursor_inv B (init_state c) := by
  have hl := pages_length B
  refine ⟨?_, Or.inl rfl, fun _ => ?_, fun h => absurd rfl h⟩
  · show 0 < _
    omega
  · show 0 < 3
    decide

theorem reachable_inv (B : Build) (hB : 5 ≤ B.MAX_MENU_ROWS ∧ B.MAX_MENU_ROWS < 255)
    (s : State) (h : Reachable B s) : cursor_inv B s := by
  induction h with
  | init c => exact init_state_inv B c
  | step inp _ hstep ih => exact updateOsd_inv B hB inp _ _ _ ih hstep

theorem reachable_total (B : Build) (hB : 5 ≤ B.MAX_MENU_ROWS ∧ B.MAX_MENU_ROWS < 255)
    (s : State) (h : Reachable B s) (inp : Inputs) : ∃ r, updateOsd B inp s = some r :=
  updateOsd_total B hB inp s (reachable_inv B hB s h)

/-- C1: with `MAX_MENU_ROWS` at least 5 and below 255, every state reachable from the
start-up state by `updateOsd` passes (any timestamps, stick readings and arming flags)
has `current_page` a valid index of `menu_pages`, `cursor_row` equal to 255 or below the
`rows_number` of the current page, and `cursor_col` below 3 on the toolbar and below the
`cols_number` of the current page on a row; from such a state every further call of
`updateOsd` returns. -/
theorem reachable_cursor_inv (B : Build)
    (hB : 5 ≤ B.MAX_MENU_ROWS ∧ B.MAX_MENU_ROWS < 255) (s : State) (h : Reachable B s) :
    (s.current_page < (menu_pages B).length ∧
      (s.cursor_row = 255 ∨ s.cursor_row < (page_at B s.current_page).rows_number) ∧
      (s.cursor_row = 255 → s.cursor_col < 3) ∧
      (s.cursor_row ≠ 255 → s.cursor_col < (page_at B s.current_page).cols_number)) ∧
    ∀ inp : Inputs, ∃ r, updateOsd B inp s = some r := by
  have hinv : cursor_inv B s := by
    induction h with
    | init c => exact init_state_inv B c
    | step inp _ hstep ih => exact updateOsd_inv B hB inp _ _ _ ih hstep
  exact ⟨hinv, fun inp => updateOsd_total B hB inp s hinv⟩

theorem sample_flushed_reachable : Reachable sample_build sample_flushed :=
  Reachable.step (sample_inputs 0 false 1500 1500 1500 1500)
    (Reachable.init (sample_cfg 0 40 0 3 5)) rfl

theorem reachable_cursor_inv_witness :
    (5 ≤ sample_build.MAX_MENU_ROWS ∧ sample_build.MAX_MENU_ROWS < 255) ∧
    Reachable sample_build sample_flushed ∧
    (sample_flushed.current_page < (menu_pages sample_build).length ∧
      (sample_flushed.cursor_row = 255 ∨
        sample_flushed.cursor_row
          < (page_at sample_build sample_flushed.current_page).rows_number) ∧
      (sample_flushed.cursor_row = 255 → sample_flushed.cursor_col < 3) ∧
      (sample_flushed.cursor_row ≠ 255 →
        sample_flushed.cursor_col
          < (page_at sample_build sample_flushed.current_page).cols_number)) :=
  ⟨by decide, sample_flushed_reachable,
   (reachable_cursor_inv sample_build (by decide) sample_flushed
      sample_flushed_reachable).1⟩

/-! ## Arming and the menu -/

theorem overlay_frame (B : Build) (inp : Inputs) (s : State) :
    (overlay B inp s).1.in_menu = s.in_menu ∧ (overlay B inp s).1.armed = s.armed ∧
    (overlay B inp s).1.sticks = s.sticks ∧ (overlay B inp s).1.cfg = s.cfg ∧
    (overlay B inp s).1.armed_at = s.armed_at ∧
    (overlay B inp s).1.armed_seconds = s.armed_seconds := by
  unfold overlay
  simp only
  split_ifs <;> simp

theorem overlay_writes (B : Build) (inp : Inputs) (s : State) :
    ∀ e ∈ (overlay B inp s).2, is_write e = true := by
  have h : (overlay B inp s).2.all is_write = true := by
    unfold overlay
    simp only [print_average_system_load]
    split_ifs <;> rfl
  exact List.all_eq_true.mp h

/-- The state part of `overlay` does not read `rcData`. -/
theorem overlay_state_rcData (B : Build) (inp : Inputs) (rc : Nat → Int) (s : State) :
    (overlay B { inp with rcData := rc } s).1 = (overlay B inp s).1 := by
  unfold overlay
  simp only

/-- With the arming flag set `arming_step` does not read `rcData` and leaves the menu
fields alone, apart from forcing `in_menu` to false on the arming edge. -/
theorem arming_step_armed (B : Build) (inp : Inputs) (s : State) (ha : inp.ARMED = true) :
    arming_step B inp s =
      if s.armed = false then
        { s with armed := true, armed_at := inp.now % 4294967296, in_menu := false, arming := 5 }
      else s := by
  unfold arming_step
  simp [ha]

theorem arming_step_exclusive (B : Build) (inp : Inputs) (s : State)
    (hs : ¬ (s.armed = true ∧ s.in_menu = true)) :
    (arming_step B inp s).armed = false ∨
      ((arming_step B inp s).in_menu = false ∧ inp.ARMED = true) := by
  unfold arming_step
  split_ifs with h1 h2
  · exact Or.inr ⟨rfl, h1⟩
  · refine Or.inr ⟨?_, h1⟩
    cases hm : s.in_menu
    · rfl
    · exact absurd ⟨by simpa using h2, hm⟩ hs
  all_goals
    simp only
    split_ifs <;> simp_all

/-- The directional moves change nothing but the cursor. -/
theorem move_steps_frame (B : Build) (s : State) :
    ∃ r c, move_steps B s = { s with cursor_row := r, cursor_col := c } := by
  have hu : ∃ r c, up_step B s = { s with cursor_row := r, cursor_col := c } := by
    unfold up_step
    split_ifs <;> exact ⟨_, _, rfl⟩
  obtain ⟨r1, c1, h1⟩ := hu
  have hd : ∀ u : State, ∃ r c, down_step B u = { u with cursor_row := r, cursor_col := c } := by
    intro u
    unfold down_step
    split_ifs <;> exact ⟨_, _, rfl⟩
  obtain ⟨r2, c2, h2⟩ := hd (up_step B s)
  have hr : ∀ u : State, ∃ r c, right_step B u = { u with cursor_row := r, cursor_col := c } := by
    intro u
    unfold right_step
    split_ifs <;> exact ⟨_, _, rfl⟩
  obtain ⟨r3, c3, h3⟩ := hr (down_step B (up_step B s))
  have hl : ∀ u : State, ∃ r c, left_step u = { u with cursor_row := r, cursor_col := c } := by
    intro u
    unfold left_step
    split_ifs <;> exact ⟨_, _, rfl⟩
  obtain ⟨r4, c4, h4⟩ := hl (right_step B (down_step B (up_step B s)))
  refine ⟨r4, c4, ?_⟩
  unfold move_steps
  rw [h4, h3, h2, h1]

theorem final_cursor_frame (B : Build) (s : State) (x y : Nat) :
    ∃ r, (final_cursor B s x y).1 = { s with cursor_row := r } := by
  unfold final_cursor
  split_ifs <;> exact ⟨_, rfl⟩

theorem show_menu_armed (B : Build) (inp : Inputs) (s t : State) (ev : List Event)
    (h : show_menu B inp s = some (t, ev)) : t.armed = s.armed := by
  obtain ⟨s1, e1, s2, e2, h1, h2, rfl, -⟩ := show_menu_some B inp s t ev h
  have f1 := select_step_frame B s s1 e1 h1
  have f2 := back_step_frame B s1 s2 e2 h2
  obtain ⟨r, c, h3⟩ := move_steps_frame B s2
  obtain ⟨r2, h4⟩ := final_cursor_frame B (move_steps B s2) (render_menu B inp s).2.1
    (render_menu B inp s).2.2
  rw [h4, h3]
  show s2.armed = s.armed
  rw [f2.2.2.2.1, f1.2.2.2.1]

theorem content_pass_exclusive (B : Build) (inp : Inputs) (s t : State) (ev : List Event)
    (hs : ¬ (s.armed = true ∧ s.in_menu = true))
    (h : content_pass B inp s = some (t, ev)) : ¬ (t.armed = true ∧ t.in_menu = true) := by
  have ha := arming_step_exclusive B inp s hs
  unfold content_pass at h
  simp only at h
  split_ifs at h with hm
  · simp only [Option.map_eq_some', Prod.mk.injEq] at h
    obtain ⟨⟨t2, e2⟩, hsm, rfl, -⟩ := h
    have := show_menu_armed B inp _ t2 e2 hsm
    rcases ha with ha | ha
    · simp [this, ha]
    · simp [ha.1] at hm
  · simp only [Option.some.injEq] at h
    have ho := overlay_frame B inp (arming_step B inp s)
    rw [h] at ho
    simp only at ho
    intro hc
    rw [ho.1] at hc
    exact hm hc.2

theorem updateOsd_exclusive (B : Build) (inp : Inputs) (s t : State) (ev : List Event)
    (hs : ¬ (s.armed = true ∧ s.in_menu = true))
    (h : updateOsd B inp s = some (t, ev)) : ¬ (t.armed = true ∧ t.in_menu = true) := by
  have hf := pass_prelude_frame inp s
  have hp : ¬ ((pass_prelude inp s).armed = true ∧ (pass_prelude inp s).in_menu = true) := by
    rw [hf.2.2.2.1, hf.2.2.2.2.1]
    exact hs
  unfold updateOsd at h
  split_ifs at h
  · simp only [Option.some.injEq, Prod.mk.injEq] at h
    obtain ⟨rfl, -⟩ := h
    exact hs
  · exact content_pass_exclusive B inp _ t ev hp h
  · simp only [Option.some.injEq, Prod.mk.injEq] at h
    obtain ⟨rfl, -⟩ := h
    exact hp

theorem reachable_exclusive (B : Build) (s : State) (h : Reachable B s) :
    ¬ (s.armed = true ∧ s.in_menu = true) := by
  induction h with
  | init c => simp [init_state]
  | step inp _ hstep ih => exact updateOsd_exclusive B inp _ _ _ ih hstep

/-- A content-update pass with the arming flag set, from a state where `armed` and
`in_menu` are not both true: the menu is not shown and only the overlay is drawn. -/
theorem content_pass_armed (B : Build) (inp : Inputs) (s : State)
    (hs : ¬ (s.armed = true ∧ s.in_menu = true)) (ha : inp.ARMED = true) :
    (arming_step B inp s).in_menu = false ∧
    content_pass B inp s = some (overlay B inp (arming_step B inp s)) ∧
    (arming_step B inp s).current_page = s.current_page ∧
    (arming_step B inp s).cursor_row = s.cursor_row ∧
    (arming_step B inp s).cursor_col = s.cursor_col ∧
    (arming_step B inp s).sticks = s.sticks ∧
    (arming_step B inp s).cfg = s.cfg := by
  have hm : (arming_step B inp s).in_menu = false := by
    rw [arming_step_armed B inp s ha]
    split_ifs with h
    · rfl
    · cases hmm : s.in_menu
      · rfl
      · exact absurd ⟨by simpa using h, hmm⟩ hs
  refine ⟨hm, ?_, ?_⟩
  · unfold content_pass
    simp [hm]
  · rw [arming_step_armed B inp s ha]
    split_ifs <;> simp

/-- C5: in no reachable state are `armed` and `in_menu` both true; a content-update pass
of `updateOsd` (deadline reached, `skip` odd) with `ARMING_FLAG(ARMED)` set, from a
reachable state, returns with `in_menu` false, makes only `max7456_write_string` calls
(so neither `show_menu`, nor a row update handler, nor `writeEEPROM`, nor the VTX
driver is called), leaves `current_page`, `cursor_row`, `cursor_col`, `sticks` and the
configuration unchanged, and ends in the same state whatever `rcData` holds. -/
theorem armed_pass_inert (B : Build) (s : State) (hs : Reachable B s) (inp : Inputs)
    (hgate : updateNow inp.now s = true) (hskip : s.skip % 2 = 1)
    (harm : inp.ARMED = true) :
    ¬ (s.armed = true ∧ s.in_menu = true) ∧
    ∃ t ev, updateOsd B inp s = some (t, ev) ∧
      t.in_menu = false ∧
      (∀ e ∈ ev, is_write e = true) ∧
      t.current_page = s.current_page ∧ t.cursor_row = s.cursor_row ∧
      t.cursor_col = s.cursor_col ∧ t.sticks = s.sticks ∧ t.cfg = s.cfg ∧
      ∀ rc : Nat → Int, ∃ ev2, updateOsd B { inp with rcData := rc } s = some (t, ev2) := by
  have hex := reachable_exclusive B s hs
  refine ⟨hex, ?_⟩
  have hf := pass_prelude_frame inp s
  have hp : ¬ ((pass_prelude inp s).armed = true ∧ (pass_prelude inp s).in_menu = true) := by
    rw [hf.2.2.2.1, hf.2.2.2.2.1]
    exact hex
  obtain ⟨c1, c2, c3, c4, c5, c6, c7⟩ := content_pass_armed B inp (pass_prelude inp s) hp harm
  have ho := overlay_frame B inp (arming_step B inp (pass_prelude inp s))
  have hc := overlay_cursor B inp (arming_step B inp (pass_prelude inp s))
  have hu : ∀ i : Inputs, i.now = inp.now →
      updateOsd B i s = content_pass B i (pass_prelude i s) := by
    intro i hi
    unfold updateOsd
    simp [hi, hgate, hskip]
  refine ⟨(overlay B inp (arming_step B inp (pass_prelude inp s))).1,
    (overlay B inp (arming_step B inp (pass_prelude inp s))).2, ?_, ?_, ?_, ?_, ?_, ?_, ?_, ?_, ?_⟩
  · rw [hu inp rfl, c2]
  · rw [ho.1, c1]
  · exact overlay_writes B inp _
  · rw [hc.1, c3, hf.1]
  · rw [hc.2.1, c4, hf.2.1]
  · rw [hc.2.2, c5, hf.2.2.1]
  · rw [ho.2.2.1, c6, hf.2.2.2.2.2.2.2.2.1]
  · rw [ho.2.2.2.1, c7, hf.2.2.2.2.2.2.2.2.2]
  · intro rc
    refine ⟨(overlay B { inp with rcData := rc } (arming_step B inp (pass_prelude inp s))).2, ?_⟩
    have hpre : pass_prelude { inp with rcData := rc } s = pass_prelude inp s := rfl
    have harm2 : ({ inp with rcData := rc } : Inputs).ARMED = true := harm
    obtain ⟨-, d2, -⟩ := content_pass_armed B { inp with rcData := rc } (pass_prelude inp s) hp harm2
    have hars : arming_step B { inp with rcData := rc } (pass_prelude inp s)
        = arming_step B inp (pass_prelude inp s) := by
      rw [arming_step_armed B _ _ harm2, arming_step_armed B _ _ harm]
    rw [hu { inp with rcData := rc } rfl, hpre, d2, hars, ← overlay_state_rcData B inp rc]

theorem armed_pass_inert_witness :
    ¬ (sample_flushed.armed = true ∧ sample_flushed.in_menu = true) ∧
    ∃ t ev, updateOsd sample_build (sample_inputs 200000 true 1500 1950 1050 1500)
        sample_flushed = some (t, ev) ∧
      t.in_menu = false ∧
      (∀ e ∈ ev, is_write e = true) ∧
      t.current_page = sample_flushed.current_page ∧
      t.cursor_row = sample_flushed.cursor_row ∧
      t.cursor_col = sample_flushed.cursor_col ∧ t.sticks = sample_flushed.sticks ∧
      t.cfg = sample_flushed.cfg ∧
      ∀ rc : Nat → Int, ∃ ev2,
        updateOsd sample_build
          { sample_inputs 200000 true 1500 1950 1050 1500 with rcData := rc }
          sample_flushed = some (t, ev2) :=
  armed_pass_inert sample_build sample_flushed sample_flushed_reachable
    (sample_inputs 200000 true 1500 1950 1050 1500) (by decide) (by decide) rfl

/-! ## Entering the menu -/

theorem sample_sticks_apply (B : Build) (rc : Nat → Int) (st : Nat → Nat) :
    sample_sticks B rc st ROLL = stick_value B (rc ROLL) ∧
    sample_sticks B rc st PITCH = stick_value B (rc PITCH) ∧
    sample_sticks B rc st YAW = stick_value B (rc YAW) ∧
    sample_sticks B rc st THROTTLE = stick_value B (rc THROTTLE) := by
  simp [sample_sticks, List.range, List.range.loop, Function.update, ROLL, PITCH, YAW, THROTTLE]

/-- With YAW below 10 and PITCH above 90 none of the six menu gestures holds: a
`show_menu` call from a toolbar state changes nothing. -/
theorem show_menu_idle (B : Build) (inp : Inputs) (s : State)
    (hy : s.sticks YAW < 10) (hp : s.sticks PITCH > 90) (hr : s.cursor_row = 255) :
    ∃ ev, show_menu B inp s = some (s, ev) := by
  have h1 : select_step B s = some (s, []) := by
    unfold select_step
    rw [if_neg (by omega)]
  have h2 : back_step B s = some (s, []) := by
    unfold back_step
    rw [if_neg (by omega)]
  have h3 : move_steps B s = s := by
    unfold move_steps
    have hu : up_step B s = s := by
      unfold up_step
      rw [if_neg (by omega)]
    have hd : down_step B s = s := by
      unfold down_step
      rw [if_neg (by omega)]
    have hri : right_step B s = s := by
      unfold right_step
      rw [if_neg (by omega)]
    have hl : left_step s = s := by
      unfold left_step
      rw [if_neg (by omega)]
    rw [hu, hd, hri, hl]
  have h4 : ∀ x y, (final_cursor B s x y).1 = s := by
    intro x y
    unfold final_cursor
    split_ifs
    · cases s
      simp only at hr
      simp [hr]
    · rfl
  unfold show_menu
  simp only [h1, h2, h3, h4]
  exact ⟨_, rfl⟩

/-- The enter-menu condition of line 645 on the freshly sampled sticks. -/
theorem arming_step_disarmed (B : Build) (inp : Inputs) (s : State)
    (ha : inp.ARMED = false) (hm : s.in_menu = false) :
    ((arming_step B inp s).in_menu = true ↔
      (stick_value B (inp.rcData YAW) < 10 ∧
        10 < stick_value B (inp.rcData THROTTLE) ∧
        stick_value B (inp.rcData THROTTLE) < 90 ∧
        10 < stick_value B (inp.rcData ROLL) ∧ stick_value B (inp.rcData ROLL) < 90 ∧
        stick_value B (inp.rcData PITCH) > 90)) ∧
    ((arming_step B inp s).in_menu = true →
      (arming_step B inp s).cursor_row = 255 ∧ (arming_step B inp s).cursor_col = 2) ∧
    (arming_step B inp s).current_page = s.current_page ∧
    (arming_step B inp s).cfg = s.cfg ∧
    (arming_step B inp s).sticks = sample_sticks B inp.rcData s.sticks := by
  obtain ⟨k1, k2, k3, k4⟩ := sample_sticks_apply B inp.rcData s.sticks
  unfold arming_step
  rw [if_neg (by simp [ha])]
  simp only
  split_ifs with h1 h2 h2
  all_goals simp only [hm, k1, k2, k3, k4, true_and] at h2
  all_goals simp only [k1, k2, k3, k4, hm]
  · simp [h2]
  · simp
    intro a b c d e
    exact Nat.le_of_not_lt fun hh => h2 ⟨a, b, c, d, e, hh⟩
  · simp [h2]
  · simp
    intro a b c d e
    exact Nat.le_of_not_lt fun hh => h2 ⟨a, b, c, d, e, hh⟩

/-- C6: on a content-update pass of `updateOsd` (deadline reached, `skip` odd) that
starts with `in_menu` false, the pass returns, and `in_menu` is true afterwards exactly
when `ARMING_FLAG(ARMED)` is clear and the normalised sticks satisfy YAW < 10,
10 < THROTTLE < 90, 10 < ROLL < 90 and PITCH > 90; in that case `show_menu` has run in
the same pass and the state after the pass has `cursor_row = 255`, `cursor_col = 2`,
with `current_page` and the configuration unchanged. -/
theorem menu_entry (B : Build) (inp : Inputs) (s : State)
    (hgate : updateNow inp.now s = true) (hskip : s.skip % 2 = 1)
    (hm : s.in_menu = false) :
    ∃ t ev, updateOsd B inp s = some (t, ev) ∧
      (t.in_menu = true ↔
        (inp.ARMED = false ∧ stick_value B (inp.rcData YAW) < 10 ∧
          10 < stick_value B (inp.rcData THROTTLE) ∧
          stick_value B (inp.rcData THROTTLE) < 90 ∧
          10 < stick_value B (inp.rcData ROLL) ∧ stick_value B (inp.rcData ROLL) < 90 ∧
          stick_value B (inp.rcData PITCH) > 90)) ∧
      (t.in_menu = true →
        t.cursor_row = 255 ∧ t.cursor_col = 2 ∧ t.current_page = s.current_page ∧
        t.cfg = s.cfg ∧ Event.show_menu ∈ ev) := by
  have hf := pass_prelude_frame inp s
  have hpm : (pass_prelude inp s).in_menu = false := by rw [hf.2.2.2.1, hm]
  have hu : updateOsd B inp s = content_pass B inp (pass_prelude inp s) := by
    unfold updateOsd
    simp [hgate, hskip]
  rw [hu]
  cases ha : inp.ARMED
  · obtain ⟨a1, a2, a3, a4, a5⟩ := arming_step_disarmed B inp (pass_prelude inp s) ha hpm
    cases hin : (arming_step B inp (pass_prelude inp s)).in_menu
    · refine ⟨(overlay B inp (arming_step B inp (pass_prelude inp s))).1,
        (overlay B inp (arming_step B inp (pass_prelude inp s))).2, ?_, ?_, ?_⟩
      · unfold content_pass
        simp [hin]
      · have ho := overlay_frame B inp (arming_step B inp (pass_prelude inp s))
        rw [ho.1, ← a1, hin]
        simp
      · have ho := overlay_frame B inp (arming_step B inp (pass_prelude inp s))
        rw [ho.1, hin]
        simp
    · obtain ⟨k1, k2, k3, k4⟩ := sample_sticks_apply B inp.rcData (pass_prelude inp s).sticks
      have hg := a1.1 hin
      obtain ⟨r1, r2⟩ := a2 hin
      obtain ⟨ev, hsm⟩ := show_menu_idle B inp (arming_step B inp (pass_prelude inp s))
        (by rw [a5, k3]; exact hg.1) (by rw [a5, k2]; exact hg.2.2.2.2.2) r1
      refine ⟨arming_step B inp (pass_prelude inp s), Event.show_menu :: ev, ?_, ?_, ?_⟩
      · unfold content_pass
        simp [hin, hsm]
      · rw [hin]
        simp [hg]
      · intro _
        exact ⟨r1, r2, by rw [a3, hf.1], by rw [a4, hf.2.2.2.2.2.2.2.2.2], by simp⟩
  · have hp : ¬ ((pass_prelude inp s).armed = true ∧ (pass_prelude inp s).in_menu = true) := by
      simp [hpm]
    obtain ⟨c1, c2, -⟩ := content_pass_armed B inp (pass_prelude inp s) hp ha
    have ho := overlay_frame B inp (arming_step B inp (pass_prelude inp s))
    refine ⟨(overlay B inp (arming_step B inp (pass_prelude inp s))).1,
      (overlay B inp (arming_step B inp (pass_prelude inp s))).2, c2, ?_, ?_⟩
    · rw [ho.1, c1]
      simp
    · rw [ho.1, c1]
      simp

theorem menu_entry_witness :
    ∃ t ev, updateOsd sample_build (sample_inputs 200000 false 1500 1950 1050 1500)
        sample_flushed = some (t, ev) ∧
      t.in_menu = true ∧ t.cursor_row = 255 ∧ t.cursor_col = 2 ∧
      t.current_page = sample_flushed.current_page ∧ t.cfg = sample_flushed.cfg ∧
      stick_value sample_build 1050 = 5 ∧ stick_value sample_build 1500 = 50 ∧
      stick_value sample_build 1950 = 95 := by
  obtain ⟨t, ev, h1, h2, h3⟩ := menu_entry sample_build
    (sample_inputs 200000 false 1500 1950 1050 1500) sample_flushed
    (by decide) (by decide) rfl
  have hin : t.in_menu = true := h2.2 (by decide)
  obtain ⟨r1, r2, r3, r4, -⟩ := h3 hin
  exact ⟨t, ev, h1, hin, r1, r2, r3, r4, by decide, by decide, by decide⟩

/-! ## Select and Back on the toolbar and on a row -/

theorem final_cursor_toolbar (B : Build) (s : State) (x y : Nat) (hr : s.cursor_row = 255) :
    (final_cursor B s x y).1 = s := by
  unfold final_cursor
  split_ifs
  · cases s
    simp only at hr
    simp [hr]
  · rfl

theorem move_steps_yaw_out (B : Build) (s : State)
    (hy : ¬ (s.sticks YAW > 10 ∧ s.sticks YAW < 90)) : move_steps B s = s := by
  have hu : up_step B s = s := by
    unfold up_step
    rw [if_neg (fun h => hy h.2)]
  have hd : down_step B s = s := by
    unfold down_step
    rw [if_neg (fun h => hy h.2)]
  have hri : right_step B s = s := by
    unfold right_step
    rw [if_neg (fun h => hy h.2)]
  have hl : left_step s = s := by
    unfold left_step
    rw [if_neg (fun h => hy h.2)]
  unfold move_steps
  rw [hu, hd, hri, hl]

/-- The cursor glyph write that ends `show_menu`, for the state `u` reached by the
gesture handling. -/
theorem show_menu_of_steps (B : Build) (inp : Inputs) (s s1 s2 : State) (e1 e2 : List Event)
    (h1 : select_step B s = some (s1, e1)) (h2 : back_step B s1 = some (s2, e2)) :
    ∃ g, show_menu B inp s =
      some ((final_cursor B (move_steps B s2) (render_menu B inp s).2.1
              (render_menu B inp s).2.2).1,
            (render_menu B inp s).1 ++ e1 ++ e2 ++ [Event.max7456_write_string ">" [] g]) := by
  unfold show_menu
  simp only [h1, h2]
  exact ⟨_, rfl⟩

theorem final_cursor_keeps (B : Build) (s : State) (x y : Nat)
    (hr : s.cursor_row = 255 ∨ s.cursor_row ≤ B.MAX_MENU_ROWS) :
    (final_cursor B s x y).1 = s := by
  rcases hr with hr | hr
  · exact final_cursor_toolbar B s x y hr
  · unfold final_cursor
    rw [if_neg (by omega)]

/-- A Select gesture: only `select_step` acts. -/
theorem show_menu_select (B : Build) (inp : Inputs) (s s1 : State) (e1 : List Event)
    (hy : s.sticks YAW > 90) (hr : s.cursor_row = 255 ∨ s.cursor_row ≤ B.MAX_MENU_ROWS)
    (h1 : select_step B s = some (s1, e1)) :
    ∃ g, show_menu B inp s =
      some (s1, (render_menu B inp s).1 ++ e1 ++ [Event.max7456_write_string ">" [] g]) := by
  have f1 := select_step_frame B s s1 e1 h1
  have h2 : back_step B s1 = some (s1, []) := by
    unfold back_step
    rw [if_neg (by rw [f1.2.2.1]; omega)]
  obtain ⟨g, hg⟩ := show_menu_of_steps B inp s s1 s1 e1 [] h1 h2
  rw [move_steps_yaw_out B s1 (by rw [f1.2.2.1]; omega),
    final_cursor_keeps B s1 _ _ (by rw [f1.1]; exact hr)] at hg
  exact ⟨g, by simpa using hg⟩

/-- A Back gesture: only `back_step` acts. -/
theorem show_menu_back (B : Build) (inp : Inputs) (s s2 : State) (e2 : List Event)
    (hy : s.sticks YAW < 10) (hr : s.cursor_row = 255 ∨ s.cursor_row ≤ B.MAX_MENU_ROWS)
    (h2 : back_step B s = some (s2, e2)) :
    ∃ g, show_menu B inp s =
      some (s2, (render_menu B inp s).1 ++ e2 ++ [Event.max7456_write_string ">" [] g]) := by
  have f2 := back_step_frame B s s2 e2 h2
  have h1 : select_step B s = some (s, []) := by
    unfold select_step
    rw [if_neg (by omega)]
  obtain ⟨g, hg⟩ := show_menu_of_steps B inp s s s2 [] e2 h1 h2
  rw [move_steps_yaw_out B s2 (by rw [f2.2.2.1]; omega),
    final_cursor_keeps B s2 _ _ (by rw [f2.1]; exact hr)] at hg
  exact ⟨g, by simpa using hg⟩

theorem select_page (B : Build) (hB : B.MAX_MENU_ROWS < 255) (inp : Inputs) (s : State)
    (hrow : s.cursor_row = 255) (hcol : s.cursor_col = 2)
    (hg : s.sticks YAW > 90 ∧ s.sticks ROLL > 10 ∧ s.sticks ROLL < 90 ∧
      s.sticks PITCH > 10 ∧ s.sticks PITCH < 90) :
    ∃ ev, show_menu B inp s =
      some ({ s with current_page :=
                if s.current_page < (menu_pages B).length - 1
                then (s.current_page + 1) % 256 else 0 }, ev) := by
  have h1 : select_step B s =
      some ({ s with current_page :=
                if s.current_page < (menu_pages B).length - 1
                then (s.current_page + 1) % 256 else 0 }, []) := by
    unfold select_step
    rw [if_pos hg, if_pos (by omega), hcol]
    simp only
    split_ifs <;> rfl
  obtain ⟨g, h⟩ := show_menu_select B inp s _ [] hg.1 (Or.inl hrow) h1
  exact ⟨_, h⟩

theorem back_page (B : Build) (hB : B.MAX_MENU_ROWS < 255) (inp : Inputs) (s : State)
    (hrow : s.cursor_row = 255) (hcol : s.cursor_col = 2)
    (hg : s.sticks YAW < 10 ∧ s.sticks ROLL > 10 ∧ s.sticks ROLL < 90 ∧
      s.sticks PITCH > 10 ∧ s.sticks PITCH < 90) :
    ∃ ev, show_menu B inp s =
      some ({ s with current_page :=
                if s.current_page > 0 then (s.current_page - 1) % 256 else s.current_page },
            ev) := by
  have h2 : back_step B s =
      some ({ s with current_page :=
                if s.current_page > 0 then (s.current_page - 1) % 256 else s.current_page },
            []) := by
    unfold back_step
    rw [if_pos hg, if_pos (by omega)]
    by_cases hp : s.current_page > 0
    · rw [if_pos ⟨hcol, hp⟩, if_pos hp]
    · rw [if_neg (fun h => hp h.2), if_neg hp]
  obtain ⟨g, h⟩ := show_menu_back B inp s _ [] hg.1 (Or.inl hrow) h2
  exact ⟨_, h⟩

theorem show_menu_iter_select (B : Build) (hB : B.MAX_MENU_ROWS < 255) (inp : Inputs)
    (k : Nat) : ∀ s : State, s.cursor_row = 255 → s.cursor_col = 2 →
      s.current_page < (menu_pages B).length →
      (s.sticks YAW > 90 ∧ s.sticks ROLL > 10 ∧ s.sticks ROLL < 90 ∧
        s.sticks PITCH > 10 ∧ s.sticks PITCH < 90) →
      show_menu_iter B inp k s =
        some { s with current_page := (s.current_page + k) % (menu_pages B).length } := by
  have hN := pages_length B
  induction k with
  | zero =>
    intro s _ _ hp _
    simp only [show_menu_iter, Nat.add_zero, Nat.mod_eq_of_lt hp]
  | succ k ih =>
    intro s hrow hcol hp hg
    obtain ⟨ev, hsm⟩ := select_page B hB inp s hrow hcol hg
    have hnext : (if s.current_page < (menu_pages B).length - 1
        then (s.current_page + 1) % 256 else 0) < (menu_pages B).length := by
      split_ifs <;> omega
    have key : ((if s.current_page < (menu_pages B).length - 1
        then (s.current_page + 1) % 256 else 0) + k) % (menu_pages B).length
        = (s.current_page + (k + 1)) % (menu_pages B).length := by
      have h23 : (menu_pages B).length = 2 ∨ (menu_pages B).length = 3 := by omega
      rcases h23 with h | h <;> rw [h] at hp ⊢ <;> split_ifs <;> omega
    simp only [show_menu_iter, hsm, Option.some_bind]
    rw [ih { s with current_page :=
        if s.current_page < (menu_pages B).length - 1
        then (s.current_page + 1) % 256 else 0 } hrow hcol hnext hg]
    simp only [key]

/-- C7: with the cursor on the toolbar at column 2 and a valid `current_page` p (N pages):
a Select gesture makes `show_menu` change p to p + 1 when p < N - 1 and to 0 when
p = N - 1; a Back gesture changes p to p - 1 when p > 0 and leaves page 0 unchanged;
every other field of the state (cursor, `in_menu`, configuration) is as before.  N
Selects return to the starting page, and from page 0 a Select followed by a Back returns
to page 0. -/
theorem page_navigation (B : Build) (hB : B.MAX_MENU_ROWS < 255) (inp : Inputs) (s : State)
    (hrow : s.cursor_row = 255) (hcol : s.cursor_col = 2)
    (hp : s.current_page < (menu_pages B).length)
    (hroll : 10 < s.sticks ROLL ∧ s.sticks ROLL < 90)
    (hpitch : 10 < s.sticks PITCH ∧ s.sticks PITCH < 90) :
    (s.sticks YAW > 90 →
      (∃ ev, show_menu B inp s =
        some ({ s with current_page :=
                  if s.current_page < (menu_pages B).length - 1
                  then s.current_page + 1 else 0 }, ev)) ∧
      show_menu_iter B inp (menu_pages B).length s = some s ∧
      (s.current_page = 0 → ∀ back : Nat → Nat,
        (back YAW < 10 ∧ back ROLL > 10 ∧ back ROLL < 90 ∧ back PITCH > 10 ∧
          back PITCH < 90) →
        ∃ s1 ev1 ev2, show_menu B inp s = some (s1, ev1) ∧ s1.current_page = 1 ∧
          show_menu B inp { s1 with sticks := back }
            = some ({ s with sticks := back }, ev2))) ∧
    (s.sticks YAW < 10 →
      ∃ ev, show_menu B inp s =
        some ({ s with current_page :=
                  if s.current_page > 0 then s.current_page - 1 else s.current_page },
              ev)) := by
  have hN := pages_length B
  constructor
  · intro hy
    have hg : s.sticks YAW > 90 ∧ s.sticks ROLL > 10 ∧ s.sticks ROLL < 90 ∧
        s.sticks PITCH > 10 ∧ s.sticks PITCH < 90 :=
      ⟨hy, hroll.1, hroll.2, hpitch.1, hpitch.2⟩
    obtain ⟨ev, hsm⟩ := select_page B hB inp s hrow hcol hg
    have hmod : (s.current_page + 1) % 256 = s.current_page + 1 := by omega
    rw [hmod] at hsm
    refine ⟨⟨ev, hsm⟩, ?_, ?_⟩
    · rw [show_menu_iter_select B hB inp _ s hrow hcol hp hg]
      have : (s.current_page + (menu_pages B).length) % (menu_pages B).length
          = s.current_page := by
        rw [Nat.add_mod_right, Nat.mod_eq_of_lt hp]
      rw [this]
    · intro h0 back hb
      obtain ⟨ev2, hsm2⟩ := back_page B hB inp
        { s with current_page := 1, sticks := back } hrow hcol hb
      refine ⟨_, ev, ev2, hsm, ?_, ?_⟩
      · simp only [h0]
        rw [if_pos (by omega)]
      · simp only [h0]
        rw [if_pos (by omega)]
        rw [hsm2]
        simp only [gt_iff_lt, Nat.lt_one_iff, Nat.one_pos, if_true]
  · intro hy
    have hg : s.sticks YAW < 10 ∧ s.sticks ROLL > 10 ∧ s.sticks ROLL < 90 ∧
        s.sticks PITCH > 10 ∧ s.sticks PITCH < 90 :=
      ⟨hy, hroll.1, hroll.2, hpitch.1, hpitch.2⟩
    obtain ⟨ev, hsm⟩ := back_page B hB inp s hrow hcol hg
    have hmod : (s.current_page - 1) % 256 = s.current_page - 1 := by omega
    rw [hmod] at hsm
    exact ⟨ev, hsm⟩

theorem page_navigation_witness :
    (∃ ev, show_menu sample_build (sample_inputs 400000 false 1500 1500 1950 1500)
        (sample_menu 0 255 2 (sample_sticks_at 50 50 95 50)) =
      some ({ sample_menu 0 255 2 (sample_sticks_at 50 50 95 50) with
              current_page :=
                if (sample_menu 0 255 2 (sample_sticks_at 50 50 95 50)).current_page
                    < (menu_pages sample_build).length - 1
                then (sample_menu 0 255 2 (sample_sticks_at 50 50 95 50)).current_page + 1
                else 0 }, ev)) ∧
    show_menu_iter sample_build (sample_inputs 400000 false 1500 1500 1950 1500)
        (menu_pages sample_build).length (sample_menu 0 255 2 (sample_sticks_at 50 50 95 50))
      = some (sample_menu 0 255 2 (sample_sticks_at 50 50 95 50)) :=
  ⟨((page_navigation sample_build (by decide)
      (sample_inputs 400000 false 1500 1500 1950 1500)
      (sample_menu 0 255 2 (sample_sticks_at 50 50 95 50)) rfl rfl (by decide) (by decide)
      (by decide)).1 (by decide)).1,
   ((page_navigation sample_build (by decide)
      (sample_inputs 400000 false 1500 1500 1950 1500)
      (sample_menu 0 255 2 (sample_sticks_at 50 50 95 50)) rfl rfl (by decide) (by decide)
      (by decide)).1 (by decide)).2.1⟩

/-! ## The calls made by `show_menu` -/

theorem foldl_invariant {α β : Type} (P : β → Prop) (f : β → α → β) (l : List α) :
    ∀ b : β, P b → (∀ b a, P b → P (f b a)) → P (l.foldl f b) := by
  induction l with
  | nil => intro b hb _; exact hb
  | cons a l ih => intro b hb hf; exact ih (f b a) (hf b a hb) hf

theorem all_write_append (l1 l2 : List Event) (h1 : l1.all is_write = true)
    (h2 : l2.all is_write = true) : (l1 ++ l2).all is_write = true := by
  rw [List.all_append, h1, h2]
  rfl

theorem call_print_writes (B : Build) (inp : Inputs) (c : Config) (pos col : Nat)
    (f : PrintFn) : (call_print B inp c pos col f).all is_write = true := by
  cases f <;>
    simp only [call_print, print_average_system_load, print_batt_voltage, print_vtx_band,
      print_vtx_channel, print_vtx_freq, print_pid, print_rate]
  all_goals first
    | rfl
    | (split_ifs <;> rfl)
    | (split <;> first | rfl | (split_ifs <;> rfl))

theorem row_prints_writes (B : Build) (inp : Inputs) (c : Config) (page : page_t)
    (row : row_t) (line : Nat) : (row_prints B inp c page row line).all is_write = true := by
  unfold row_prints
  apply foldl_invariant (fun acc : List Event => acc.all is_write = true)
  · rfl
  · intro b a hb
    apply all_write_append _ _ hb
    split
    · exact call_print_writes B inp c _ _ _
    · rfl

theorem cols_loop_writes (page : page_t) (cursor_col line x : Nat) :
    (cols_loop page cursor_col line x).2.all is_write = true := by
  unfold cols_loop
  apply foldl_invariant (fun acc : Nat × List Event => acc.2.all is_write = true)
  · rfl
  · intro b a hb
    apply all_write_append _ _ hb
    split <;> rfl

theorem rows_loop_writes (B : Build) (inp : Inputs) (c : Config) (page : page_t)
    (cursor_row line y : Nat) :
    (rows_loop B inp c page cursor_row line y).2.all is_write = true := by
  unfold rows_loop
  apply foldl_invariant (fun acc : Nat × List Event => acc.2.all is_write = true)
  · rfl
  · intro b a hb
    exact all_write_append _ _ (all_write_append _ _ hb rfl) (row_prints_writes B inp c _ _ _)

theorem render_menu_writes (B : Build) (inp : Inputs) (s : State) :
    (render_menu B inp s).1.all is_write = true := by
  unfold render_menu
  exact all_write_append _ _ (all_write_append _ _ rfl (cols_loop_writes _ _ _ _))
    (rows_loop_writes B inp _ _ _ _ _)

/-- The calls of a `show_menu` pass are those of its gesture handling: the render part
and the cursor glyph are display writes. -/
theorem calls_show_menu (r e : List Event) (g : Nat) (hr : r.all is_write = true) :
    calls (r ++ e ++ [Event.max7456_write_string ">" [] g]) = calls e := by
  have h1 : calls r = [] := by
    unfold calls
    rw [List.filter_eq_nil_iff]
    intro a ha
    simp [List.all_eq_true.mp hr a ha]
  unfold calls at h1 ⊢
  rw [List.filter_append, List.filter_append, h1]
  simp [is_write]

/-- C8: a Select gesture with the cursor on the toolbar.  At column 0 `show_menu` sets
`in_menu` to false and makes no call besides display writes (neither `writeEEPROM` nor
the VTX driver; the configuration, `masterConfig.vtx_channel` included, is unchanged).
At column 1 it sets `in_menu` to false; with `USE_RTC6705` defined and
`current_vtx_channel` different from `masterConfig.vtx_channel` it stores
`current_vtx_channel` there and calls `rtc6705_set_channel` once, with
`vtx_freq[current_vtx_channel]`, and then `writeEEPROM` once; otherwise (channels equal,
or no VTX support compiled in) it only calls `writeEEPROM` once.  In all cases
`current_page`, `cursor_row` and `cursor_col` are unchanged. -/
theorem exit_and_save (B : Build) (hB : B.MAX_MENU_ROWS < 255) (inp : Inputs) (s : State)
    (hrow : s.cursor_row = 255)
    (hg : s.sticks YAW > 90 ∧ s.sticks ROLL > 10 ∧ s.sticks ROLL < 90 ∧
      s.sticks PITCH > 10 ∧ s.sticks PITCH < 90) :
    (s.cursor_col = 0 →
      ∃ ev, show_menu B inp s = some ({ s with in_menu := false }, ev) ∧ calls ev = []) ∧
    (s.cursor_col = 1 → B.USE_RTC6705 = true →
      s.cfg.vtx_channel ≠ s.cfg.current_vtx_channel →
      ∃ ev, show_menu B inp s =
          some ({ s with
                  in_menu := false
                  cfg := { s.cfg with vtx_channel := s.cfg.current_vtx_channel } }, ev) ∧
        calls ev = [Event.rtc6705_set_channel (B.vtx_freq s.cfg.current_vtx_channel),
                    Event.writeEEPROM]) ∧
    (s.cursor_col = 1 →
      (B.USE_RTC6705 = false ∨ s.cfg.vtx_channel = s.cfg.current_vtx_channel) →
      ∃ ev, show_menu B inp s = some ({ s with in_menu := false }, ev) ∧
        calls ev = [Event.writeEEPROM]) := by
  have hw := render_menu_writes B inp s
  refine ⟨?_, ?_, ?_⟩
  · intro hcol
    have h1 : select_step B s = some ({ s with in_menu := false }, []) := by
      unfold select_step
      rw [if_pos hg, if_pos (by omega), hcol]
    obtain ⟨g, h⟩ := show_menu_select B inp s _ [] hg.1 (Or.inl hrow) h1
    exact ⟨_, h, by rw [calls_show_menu _ _ _ hw]; rfl⟩
  · intro hcol hvtx hne
    have h1 : select_step B s =
        some ({ s with
                in_menu := false
                cfg := { s.cfg with vtx_channel := s.cfg.current_vtx_channel } },
              [Event.rtc6705_set_channel (B.vtx_freq s.cfg.current_vtx_channel),
               Event.writeEEPROM]) := by
      unfold select_step
      rw [if_pos hg, if_pos (by omega), hcol]
      simp only
      rw [if_pos ⟨hvtx, hne⟩]
    obtain ⟨g, h⟩ := show_menu_select B inp s _ _ hg.1 (Or.inl hrow) h1
    exact ⟨_, h, by rw [calls_show_menu _ _ _ hw]; rfl⟩
  · intro hcol hor
    have h1 : select_step B s = some ({ s with in_menu := false }, [Event.writeEEPROM]) := by
      unfold select_step
      rw [if_pos hg, if_pos (by omega), hcol]
      simp only
      rw [if_neg]
      rintro ⟨hv, hne⟩
      rcases hor with hor | hor
      · rw [hor] at hv
        exact Bool.false_ne_true hv
      · exact hne hor
    obtain ⟨g, h⟩ := show_menu_select B inp s _ _ hg.1 (Or.inl hrow) h1
    exact ⟨_, h, by rw [calls_show_menu _ _ _ hw]; rfl⟩

theorem exit_and_save_witness :
    ∃ ev, show_menu sample_build (sample_inputs 400000 false 1500 1500 1950 1500)
        (sample_menu 0 255 1 (sample_sticks_at 50 50 95 50)) =
          some ({ sample_menu 0 255 1 (sample_sticks_at 50 50 95 50) with
                  in_menu := false
                  cfg := { (sample_menu 0 255 1 (sample_sticks_at 50 50 95 50)).cfg with
                           vtx_channel := 5 } }, ev) ∧
        calls ev = [Event.rtc6705_set_channel 5005, Event.writeEEPROM] :=
  (exit_and_save sample_build (by decide)
    (sample_inputs 400000 false 1500 1500 1950 1500)
    (sample_menu 0 255 1 (sample_sticks_at 50 50 95 50)) rfl (by decide)).2.1 rfl rfl
    (by decide)

/-- C9: with the cursor on a data row (r, c) of the current page, a Select gesture makes
`show_menu` call that row's update handler exactly once, as `update(true, c)`, and a
Back gesture exactly once, as `update(false, c)`, when the row has a handler; the
handler returns and its result is the new configuration.  When the row has no handler
(both STATUS rows and the VTX FREQUENCY row; every other row has one) no call is made
and the state, the configuration included, is unchanged.  In every case `current_page`,
`cursor_row`, `cursor_col` and `in_menu` are unchanged. -/
theorem row_dispatch (B : Build) (hB : 5 ≤ B.MAX_MENU_ROWS ∧ B.MAX_MENU_ROWS < 255)
    (inp : Inputs) (s : State)
    (hpage : s.current_page < (menu_pages B).length)
    (hrow : s.cursor_row < (page_at B s.current_page).rows_number)
    (hcol : s.cursor_col < (page_at B s.current_page).cols_number)
    (hroll : 10 < s.sticks ROLL ∧ s.sticks ROLL < 90)
    (hpitch : 10 < s.sticks PITCH ∧ s.sticks PITCH < 90) :
    (s.sticks YAW > 90 →
      (∀ f, (row_at (page_at B s.current_page) s.cursor_row).update = some f →
        ∃ c ev, call_update B true s.cursor_col s.cfg f = some c ∧
          show_menu B inp s = some ({ s with cfg := c }, ev) ∧
          calls ev = [Event.update f true s.cursor_col]) ∧
      ((row_at (page_at B s.current_page) s.cursor_row).update = none →
        ∃ ev, show_menu B inp s = some (s, ev) ∧ calls ev = [])) ∧
    (s.sticks YAW < 10 →
      (∀ f, (row_at (page_at B s.current_page) s.cursor_row).update = some f →
        ∃ c ev, call_update B false s.cursor_col s.cfg f = some c ∧
          show_menu B inp s = some ({ s with cfg := c }, ev) ∧
          calls ev = [Event.update f false s.cursor_col]) ∧
      ((row_at (page_at B s.current_page) s.cursor_row).update = none →
        ∃ ev, show_menu B inp s = some (s, ev) ∧ calls ev = [])) ∧
    ((row_at status_page 0).update = none ∧ (row_at status_page 1).update = none ∧
      (row_at vtx_page 2).update = none ∧
      (∀ r, r < 2 → (row_at vtx_page r).update ≠ none) ∧
      (∀ r, r < 6 → (row_at pid_page r).update ≠ none)) := by
  have hb := page_bounds B s.current_page hpage
  have hw := render_menu_writes B inp s
  have hr : s.cursor_row = 255 ∨ s.cursor_row ≤ B.MAX_MENU_ROWS := Or.inr (by omega)
  refine ⟨?_, ?_, rfl, rfl, rfl, by decide, by decide⟩
  · intro hy
    have hg : s.sticks YAW > 90 ∧ s.sticks ROLL > 10 ∧ s.sticks ROLL < 90 ∧
        s.sticks PITCH > 10 ∧ s.sticks PITCH < 90 :=
      ⟨hy, hroll.1, hroll.2, hpitch.1, hpitch.2⟩
    constructor
    · intro f hf
      obtain ⟨c, hc⟩ := call_update_total B true s.cursor_col s.cfg f (by omega)
      have h1 : select_step B s =
          some ({ s with cfg := c }, [Event.update f true s.cursor_col]) := by
        unfold select_step
        rw [if_pos hg, if_neg (by omega), hf]
        simp only [hc, Option.map_some']
      obtain ⟨g, h⟩ := show_menu_select B inp s _ _ hy hr h1
      exact ⟨c, _, hc, h, by rw [calls_show_menu _ _ _ hw]; rfl⟩
    · intro hf
      have h1 : select_step B s = some (s, []) := by
        unfold select_step
        rw [if_pos hg, if_neg (by omega), hf]
      obtain ⟨g, h⟩ := show_menu_select B inp s _ _ hy hr h1
      exact ⟨_, h, by rw [calls_show_menu _ _ _ hw]; rfl⟩
  · intro hy
    have hg : s.sticks YAW < 10 ∧ s.sticks ROLL > 10 ∧ s.sticks ROLL < 90 ∧
        s.sticks PITCH > 10 ∧ s.sticks PITCH < 90 :=
      ⟨hy, hroll.1, hroll.2, hpitch.1, hpitch.2⟩
    constructor
    · intro f hf
      obtain ⟨c, hc⟩ := call_update_total B false s.cursor_col s.cfg f (by omega)
      have h2 : back_step B s =
          some ({ s with cfg := c }, [Event.update f false s.cursor_col]) := by
        unfold back_step
        rw [if_pos hg, if_neg (by omega), hf]
        simp only [hc, Option.map_some']
      obtain ⟨g, h⟩ := show_menu_back B inp s _ _ hy hr h2
      exact ⟨c, _, hc, h, by rw [calls_show_menu _ _ _ hw]; rfl⟩
    · intro hf
      have h2 : back_step B s = some (s, []) := by
        unfold back_step
        rw [if_pos hg, if_neg (by omega), hf]
      obtain ⟨g, h⟩ := show_menu_back B inp s _ _ hy hr h2
      exact ⟨_, h, by rw [calls_show_menu _ _ _ hw]; rfl⟩

theorem row_dispatch_witness :
    ∃ c ev, call_update sample_build true 0 (sample_menu 2 0 0 (sample_sticks_at 50 50 95 50)).cfg
        UpdateFn.update_roll_pid = some c ∧
      show_menu sample_build (sample_inputs 400000 false 1500 1500 1950 1500)
        (sample_menu 2 0 0 (sample_sticks_at 50 50 95 50)) =
          some ({ sample_menu 2 0 0 (sample_sticks_at 50 50 95 50) with cfg := c }, ev) ∧
      calls ev = [Event.update UpdateFn.update_roll_pid true 0] :=
  ((row_dispatch sample_build (by decide)
    (sample_inputs 400000 false 1500 1500 1950 1500)
    (sample_menu 2 0 0 (sample_sticks_at 50 50 95 50)) (by decide) (by decide) (by decide)
    (by decide) (by decide)).1 (by decide)).1 UpdateFn.update_roll_pid rfl

/-! ## Directional moves against the rules of the specification -/

theorem up_step_spec (B : Build) (hB : 5 ≤ B.MAX_MENU_ROWS ∧ B.MAX_MENU_ROWS < 255)
    (s : State) (hinv : cursor_inv B s) :
    cursor_of (up_step B s) =
      if s.sticks PITCH > 90 ∧ 10 < s.sticks YAW ∧ s.sticks YAW < 90
      then spec_up (page_at B s.current_page) (cursor_of s) else cursor_of s := by
  obtain ⟨hp, hr, hc1, hc2⟩ := hinv
  have hb := page_bounds B s.current_page hp
  unfold up_step
  by_cases hg : s.sticks PITCH > 90 ∧ s.sticks YAW > 10 ∧ s.sticks YAW < 90
  · rw [if_pos hg, if_pos hg]
    by_cases h255 : s.cursor_row = 255
    · rw [if_pos (by omega)]
      simp only [cursor_of, h255, if_true, spec_up]
      rw [if_neg (by omega)]
      congr 1
      omega
    · rw [if_neg (by omega)]
      by_cases h0 : s.cursor_row > 0
      · rw [if_pos h0]
        simp only [cursor_of, if_neg h255, spec_up]
        rw [if_neg (by omega)]
        congr 1
        omega
      · rw [if_neg h0]
        simp only [cursor_of, if_neg h255, spec_up]
        congr 1
        omega
  · rw [if_neg hg, if_neg hg]

theorem down_step_spec (B : Build) (s : State) (hinv : cursor_inv B s) :
    cursor_of (down_step B s) =
      if s.sticks PITCH < 10 ∧ 10 < s.sticks YAW ∧ s.sticks YAW < 90
      then spec_down (page_at B s.current_page) (cursor_of s) else cursor_of s := by
  obtain ⟨hp, hr, hc1, hc2⟩ := hinv
  have hb := page_bounds B s.current_page hp
  unfold down_step
  by_cases hg : s.sticks PITCH < 10 ∧ s.sticks YAW > 10 ∧ s.sticks YAW < 90
  · rw [if_pos hg, if_pos hg]
    by_cases h255 : s.cursor_row = 255
    · rw [if_neg (by omega)]
      simp only [cursor_of, h255, if_true, spec_down]
    · by_cases hlast : s.cursor_row = (page_at B s.current_page).rows_number - 1
      · rw [if_neg (by omega)]
        simp only [cursor_of, if_neg h255, if_true, spec_down]
        rw [if_neg (by omega)]
      · rw [if_pos (by omega)]
        simp only [cursor_of, if_neg h255, spec_down]
        rw [if_neg (by omega), if_pos hlast]
        congr 1
        omega
  · rw [if_neg hg, if_neg hg]

theorem right_step_spec (B : Build) (hB : 5 ≤ B.MAX_MENU_ROWS ∧ B.MAX_MENU_ROWS < 255)
    (s : State) (hinv : cursor_inv B s) :
    cursor_of (right_step B s) =
      if s.sticks ROLL > 90 ∧ 10 < s.sticks YAW ∧ s.sticks YAW < 90
      then spec_right (page_at B s.current_page) (cursor_of s) else cursor_of s := by
  obtain ⟨hp, hr, hc1, hc2⟩ := hinv
  have hb := page_bounds B s.current_page hp
  unfold right_step
  by_cases hg : s.sticks ROLL > 90 ∧ s.sticks YAW > 10 ∧ s.sticks YAW < 90
  · rw [if_pos hg, if_pos hg]
    by_cases h255 : s.cursor_row = 255
    · rw [if_pos (by omega)]
      by_cases h2 : s.cursor_col < 2
      · rw [if_pos h2]
        simp only [cursor_of, h255, if_true, spec_right]
        congr 1
        omega
      · rw [if_neg h2]
        simp only [cursor_of, h255, if_true, spec_right]
        congr 1
        omega
    · rw [if_neg (by omega)]
      by_cases h2 : (s.cursor_col : Int) < ((page_at B s.current_page).cols_number : Int) - 1
      · rw [if_pos h2]
        simp only [cursor_of, if_neg h255, spec_right]
        congr 1
        omega
      · rw [if_neg h2]
        simp only [cursor_of, if_neg h255, spec_right]
        congr 1
        omega
  · rw [if_neg hg, if_neg hg]

theorem left_step_spec (B : Build) (s : State) (hinv : cursor_inv B s) :
    cursor_of (left_step s) =
      if s.sticks ROLL < 10 ∧ 10 < s.sticks YAW ∧ s.sticks YAW < 90
      then spec_left (cursor_of s) else cursor_of s := by
  obtain ⟨hp, hr, hc1, hc2⟩ := hinv
  have hb := page_bounds B s.current_page hp
  unfold left_step
  by_cases hg : s.sticks ROLL < 10 ∧ s.sticks YAW > 10 ∧ s.sticks YAW < 90
  · rw [if_pos hg, if_pos hg]
    by_cases h255 : s.cursor_row = 255
    · by_cases h0 : s.cursor_col > 0
      · rw [if_pos h0]
        simp only [cursor_of, h255, if_true, spec_left]
        congr 1
        omega
      · rw [if_neg h0]
        simp only [cursor_of, h255, if_true, spec_left]
        congr 1
        omega
    · by_cases h0 : s.cursor_col > 0
      · rw [if_pos h0]
        simp only [cursor_of, if_neg h255, spec_left]
        congr 1
        omega
      · rw [if_neg h0]
        simp only [cursor_of, if_neg h255, spec_left]
        congr 1
        omega
  · rw [if_neg hg, if_neg hg]

theorem step_sticks_page (B : Build) (s : State) :
    ((up_step B s).sticks = s.sticks ∧ (up_step B s).current_page = s.current_page) ∧
    ((down_step B s).sticks = s.sticks ∧ (down_step B s).current_page = s.current_page) ∧
    ((right_step B s).sticks = s.sticks ∧ (right_step B s).current_page = s.current_page) ∧
    ((left_step s).sticks = s.sticks ∧ (left_step s).current_page = s.current_page) := by
  refine ⟨?_, ?_, ?_, ?_⟩
  · unfold up_step
    split_ifs <;> exact ⟨rfl, rfl⟩
  · unfold down_step
    split_ifs <;> exact ⟨rfl, rfl⟩
  · unfold right_step
    split_ifs <;> exact ⟨rfl, rfl⟩
  · unfold left_step
    split_ifs <;> exact ⟨rfl, rfl⟩

theorem move_steps_spec (B : Build) (hB : 5 ≤ B.MAX_MENU_ROWS ∧ B.MAX_MENU_ROWS < 255)
    (s : State) (hinv : cursor_inv B s) :
    cursor_of (move_steps B s)
      = spec_moves (page_at B s.current_page) s.sticks (cursor_of s) := by
  have i1 := up_step_inv B hB s hinv
  have i2 := down_step_inv B _ i1
  have i3 := right_step_inv B hB _ i2
  have e1 := up_step_spec B hB s hinv
  have e2 := down_step_spec B _ i1
  have e3 := right_step_spec B hB _ i2
  have e4 := left_step_spec B _ i3
  obtain ⟨⟨a1, b1⟩, -, -, -⟩ := step_sticks_page B s
  obtain ⟨-, ⟨a2, b2⟩, -, -⟩ := step_sticks_page B (up_step B s)
  obtain ⟨-, -, ⟨a3, b3⟩, -⟩ := step_sticks_page B (down_step B (up_step B s))
  rw [a3, a2, a1] at e4
  rw [a2, a1, b2, b1] at e3
  rw [a1, b1] at e2
  unfold move_steps spec_moves
  rw [e4, e3, e2, e1]

/-- C10: for a state satisfying the cursor invariant and sticks with YAW strictly between
10 and 90, `show_menu` returns, and the cursor it leaves is the one the rules 3 to 6 of
the specification give, applied in that order (first the vertical rule Up / Down, then,
on the result, the horizontal rule Right / Left); `in_menu`, `current_page` and the
configuration are unchanged and no handler, `writeEEPROM` or VTX call is made. -/
theorem moves_refine_spec (B : Build) (hB : 5 ≤ B.MAX_MENU_ROWS ∧ B.MAX_MENU_ROWS < 255)
    (inp : Inputs) (s : State)
    (hpage : s.current_page < (menu_pages B).length)
    (hrow : s.cursor_row = 255 ∨ s.cursor_row < (page_at B s.current_page).rows_number)
    (hcol : (s.cursor_row = 255 → s.cursor_col < 3) ∧
      (s.cursor_row ≠ 255 → s.cursor_col < (page_at B s.current_page).cols_number))
    (hy : 10 < s.sticks YAW ∧ s.sticks YAW < 90) :
    ∃ t ev, show_menu B inp s = some (t, ev) ∧
      cursor_of t = spec_moves (page_at B s.current_page) s.sticks (cursor_of s) ∧
      t.in_menu = s.in_menu ∧ t.current_page = s.current_page ∧ t.cfg = s.cfg ∧
      calls ev = [] := by
  have hinv : cursor_inv B s := ⟨hpage, hrow, hcol.1, hcol.2⟩
  have h1 : select_step B s = some (s, []) := by
    unfold select_step
    rw [if_neg (by omega)]
  have h2 : back_step B s = some (s, []) := by
    unfold back_step
    rw [if_neg (by omega)]
  obtain ⟨g, hg⟩ := show_menu_of_steps B inp s s s [] [] h1 h2
  rw [final_cursor_state B hB _ (move_steps_inv B hB s hinv)] at hg
  obtain ⟨r, c, hm⟩ := move_steps_frame B s
  refine ⟨move_steps B s, _, hg, move_steps_spec B hB s hinv, ?_, ?_, ?_, ?_⟩
  · rw [hm]
  · rw [hm]
  · rw [hm]
  · have := calls_show_menu (render_menu B inp s).1 [] g (render_menu_writes B inp s)
    simpa using this

theorem moves_refine_spec_witness :
    ∃ t ev, show_menu sample_build (sample_inputs 400000 false 1950 1950 1500 1500)
        (sample_menu 2 255 2 (sample_sticks_at 95 95 50 50)) = some (t, ev) ∧
      cursor_of t = Cursor.row 5 1 ∧
      t.in_menu = true ∧ t.current_page = 2 ∧
      t.cfg = (sample_menu 2 255 2 (sample_sticks_at 95 95 50 50)).cfg ∧
      calls ev = [] :=
  moves_refine_spec sample_build (by decide)
    (sample_inputs 400000 false 1950 1950 1500 1500)
    (sample_menu 2 255 2 (sample_sticks_at 95 95 50 50)) (by decide) (by decide)
    (by decide) (by decide)

/-! ## What a pass leaves alone -/

/-- The fields `select_step` can write, and the calls it cannot make. -/
theorem select_step_shape (B : Build) (s t : State) (ev : List Event)
    (h : select_step B s = some (t, ev)) :
    (∃ p m c, t = { s with current_page := p, in_menu := m, cfg := c }) ∧
    Event.max7456_draw_screen_fast ∉ ev := by
  unfold select_step at h
  split_ifs at h <;> (try split at h) <;>
    simp only [Option.some.injEq, Prod.mk.injEq, Option.map_eq_some'] at h <;>
    first
    | (obtain ⟨rfl, rfl⟩ := h; exact ⟨⟨_, _, _, rfl⟩, by simp⟩)
    | (obtain ⟨c2, hu, rfl, rfl⟩ := h; exact ⟨⟨_, _, _, rfl⟩, by simp⟩)

/-- The fields `back_step` can write, and the calls it cannot make. -/
theorem back_step_shape (B : Build) (s t : State) (ev : List Event)
    (h : back_step B s = some (t, ev)) :
    (∃ p c, t = { s with current_page := p, cfg := c }) ∧
    Event.max7456_draw_screen_fast ∉ ev := by
  unfold back_step at h
  split_ifs at h <;> (try split at h) <;>
    simp only [Option.some.injEq, Prod.mk.injEq, Option.map_eq_some'] at h <;>
    first
    | (obtain ⟨rfl, rfl⟩ := h; exact ⟨⟨_, _, rfl⟩, by simp⟩)
    | (obtain ⟨c2, hu, rfl, rfl⟩ := h; exact ⟨⟨_, _, rfl⟩, by simp⟩)

theorem not_draw_of_writes (l : List Event) (h : l.all is_write = true) :
    Event.max7456_draw_screen_fast ∉ l := by
  intro hm
  have := List.all_eq_true.mp h _ hm
  simp [is_write] at this

/-- The fields `show_menu` can write (page, cursor, `in_menu`, configuration), and the
draw call it never makes. -/
theorem show_menu_shape (B : Build) (inp : Inputs) (s t : State) (ev : List Event)
    (h : show_menu B inp s = some (t, ev)) :
    (∃ p m c r k, t = { s with
        current_page := p, in_menu := m, cfg := c, cursor_row := r, cursor_col := k }) ∧
    Event.max7456_draw_screen_fast ∉ ev := by
  obtain ⟨s1, e1, s2, e2, h1, h2, rfl, rfl⟩ := show_menu_some B inp s t ev h
  obtain ⟨⟨p1, m1, c1, rfl⟩, d1⟩ := select_step_shape B s s1 e1 h1
  obtain ⟨⟨p2, c2, rfl⟩, d2⟩ := back_step_shape B _ s2 e2 h2
  obtain ⟨r, k, h3⟩ := move_steps_frame B
    { ({ s with current_page := p1, in_menu := m1, cfg := c1 } : State) with
      current_page := p2, cfg := c2 }
  obtain ⟨r2, h4⟩ := final_cursor_frame B (move_steps B
    { ({ s with current_page := p1, in_menu := m1, cfg := c1 } : State) with
      current_page := p2, cfg := c2 }) (render_menu B inp s).2.1 (render_menu B inp s).2.2
  constructor
  · rw [h4, h3]
    exact ⟨_, _, _, _, _, rfl⟩
  · have hw := not_draw_of_writes _ (render_menu_writes B inp s)
    simp only [List.mem_append, List.mem_singleton, not_or]
    exact ⟨⟨⟨hw, d1⟩, d2⟩, by simp⟩

/-- The state part of `overlay`: only the ARMED-flash countdown moves, by one, while it
is non-zero and `blink` is true. -/
theorem overlay_state (B : Build) (inp : Inputs) (s : State) :
    (overlay B inp s).1 =
      { s with arming :=
          if s.arming ≠ 0 ∧ s.blink = true then (s.arming - 1) % 256 else s.arming } := by
  unfold overlay
  simp only
  split_ifs with h1 h2 h2 <;> simp_all

/-- The fields `arming_step` leaves alone. -/
theorem arming_step_statics (B : Build) (inp : Inputs) (s : State) :
    (arming_step B inp s).skip = s.skip ∧ (arming_step B inp s).blink = s.blink ∧
    (arming_step B inp s).next_osd_update_at = s.next_osd_update_at ∧
    (arming_step B inp s).current_page = s.current_page ∧
    (arming_step B inp s).cfg = s.cfg := by
  unfold arming_step
  split_ifs <;> simp only <;> (try split_ifs) <;> simp

/-- A content-update pass: `skip`, `blink` and the deadline are not written, the arming
bookkeeping is that of `arming_step`, and no draw is requested. -/
theorem content_pass_shape (B : Build) (inp : Inputs) (s t : State) (ev : List Event)
    (h : content_pass B inp s = some (t, ev)) :
    t.skip = s.skip ∧ t.blink = s.blink ∧ t.next_osd_update_at = s.next_osd_update_at ∧
    t.armed = (arming_step B inp s).armed ∧
    t.armed_at = (arming_step B inp s).armed_at ∧
    t.armed_seconds = (arming_step B inp s).armed_seconds ∧
    Event.max7456_draw_screen_fast ∉ ev := by
  obtain ⟨a1, a2, a3, -, -⟩ := arming_step_statics B inp s
  unfold content_pass at h
  simp only at h
  split_ifs at h with hm
  · simp only [Option.map_eq_some', Prod.mk.injEq] at h
    obtain ⟨⟨t2, e2⟩, hsm, rfl, rfl⟩ := h
    obtain ⟨⟨p, m, c, r, k, ht⟩, hd⟩ := show_menu_shape B inp _ t2 e2 hsm
    subst ht
    refine ⟨a1, a2, a3, rfl, rfl, rfl, ?_⟩
    simp only [List.mem_cons, not_or]
    exact ⟨by simp, hd⟩
  · simp only [Option.some.injEq] at h
    have ht : t = (overlay B inp (arming_step B inp s)).1 := by rw [h]
    have he : ev = (overlay B inp (arming_step B inp s)).2 := by rw [h]
    rw [overlay_state] at ht
    subst ht he
    refine ⟨a1, a2, a3, rfl, rfl, rfl, ?_⟩
    have hw : (overlay B inp (arming_step B inp s)).2.all is_write = true :=
      List.all_eq_true.mpr (overlay_writes B inp _)
    exact not_draw_of_writes _ hw

/-! ## Arming edges and the armed-time clock -/

theorem pass_prelude_eq (inp : Inputs) (s : State) :
    pass_prelude inp s =
      { s with
        next_osd_update_at := (inp.now % 4294967296 + OSD_UPDATE_FREQUENCY) % 4294967296
        blink := if s.skip % 2 = 0 then !s.blink else s.blink
        skip := (s.skip + 1) % 256 } := by
  unfold pass_prelude
  simp only
  split_ifs <;> rfl

theorem updateOsd_content (B : Build) (inp : Inputs) (s : State)
    (hgate : updateNow inp.now s = true) (hskip : s.skip % 2 = 1) :
    updateOsd B inp s = content_pass B inp (pass_prelude inp s) := by
  unfold updateOsd
  simp [hgate, hskip]

theorem updateOsd_flush (B : Build) (inp : Inputs) (s : State)
    (hgate : updateNow inp.now s = true) (hskip : s.skip % 2 = 0) :
    updateOsd B inp s = some (pass_prelude inp s, [Event.max7456_draw_screen_fast]) := by
  unfold updateOsd
  simp [hgate, hskip]

theorem sample_armed_reachable : Reachable sample_build sample_armed :=
  Reachable.step sample_arm_inputs sample_flushed_reachable
    (rfl : updateOsd sample_build sample_arm_inputs sample_flushed
      = some (sample_armed,
          (overlay sample_build sample_arm_inputs
            (arming_step sample_build sample_arm_inputs
              (pass_prelude sample_arm_inputs sample_flushed))).2))

theorem sample_armed_flushed_reachable : Reachable sample_build sample_armed_flushed :=
  Reachable.step (sample_inputs 400000 true 1500 1500 1500 1500) sample_armed_reachable rfl

/-- C11 (as stated, refuted): on the arming pass from `sample_flushed`, where `blink` is
true, the overlay of the same pass draws the first ARMED flash and the countdown is 4,
not 5, after the pass. -/
theorem arming_edge_countdown_fails :
    ¬ (∀ (B : Build) (inp : Inputs) (s t : State) (ev : List Event),
        updateNow inp.now s = true → s.skip % 2 = 1 → inp.ARMED = true →
        s.armed = false → updateOsd B inp s = some (t, ev) → t.arming = 5) := by
  intro h
  have h1 := h sample_build sample_arm_inputs sample_flushed sample_armed _
    (by decide) (by decide) rfl rfl
    (rfl : updateOsd sample_build sample_arm_inputs sample_flushed
      = some (sample_armed,
          (overlay sample_build sample_arm_inputs
            (arming_step sample_build sample_arm_inputs
              (pass_prelude sample_arm_inputs sample_flushed))).2))
  revert h1
  decide

/-- C11 (amended): on a content-update pass of `updateOsd` with timestamp `now` where
`ARMING_FLAG(ARMED)` is set and `armed` is false, afterwards `armed` is true, `armed_at`
is `now`, `in_menu` is false, and the ARMED-flash countdown, set to 5 on the edge, is 5
when `blink` is false and 4 when `blink` is true (the overlay of the same pass then
draws the first flash); `armed_seconds`, `current_page`, `cursor_row`, `cursor_col` and
the configuration are unchanged.  On such a pass from a reachable state with `armed`
already true, `armed_at` is not changed. -/
theorem arming_edge (B : Build) (inp : Inputs) (s : State)
    (hgate : updateNow inp.now s = true) (hskip : s.skip % 2 = 1)
    (harm : inp.ARMED = true) :
    (s.armed = false →
      ∃ t ev, updateOsd B inp s = some (t, ev) ∧ t.armed = true ∧
        t.armed_at = inp.now % 4294967296 ∧ t.in_menu = false ∧
        t.arming = (if s.blink = true then 4 else 5) ∧
        t.armed_seconds = s.armed_seconds ∧ t.current_page = s.current_page ∧
        t.cursor_row = s.cursor_row ∧ t.cursor_col = s.cursor_col ∧ t.cfg = s.cfg) ∧
    (s.armed = true → Reachable B s →
      ∃ t ev, updateOsd B inp s = some (t, ev) ∧ t.armed_at = s.armed_at) := by
  have hu := updateOsd_content B inp s hgate hskip
  have hpe := pass_prelude_eq inp s
  constructor
  · intro ha
    have hp : ¬ ((pass_prelude inp s).armed = true ∧ (pass_prelude inp s).in_menu = true) := by
      rw [hpe]
      simp [ha]
    obtain ⟨-, c2, -⟩ := content_pass_armed B inp (pass_prelude inp s) hp harm
    refine ⟨_, _, by rw [hu, c2], ?_⟩
    rw [overlay_state, arming_step_armed B inp _ harm, hpe]
    have hne : ¬ s.skip % 2 = 0 := by omega
    cases hb : s.blink <;> simp [ha, hne]
  · intro ha hr
    have hex := reachable_exclusive B s hr
    have hp : ¬ ((pass_prelude inp s).armed = true ∧ (pass_prelude inp s).in_menu = true) := by
      rw [hpe]
      exact hex
    obtain ⟨-, c2, -⟩ := content_pass_armed B inp (pass_prelude inp s) hp harm
    refine ⟨_, _, by rw [hu, c2], ?_⟩
    rw [overlay_state, arming_step_armed B inp _ harm, hpe]
    simp [ha]

theorem arming_edge_witness :
    ∃ t ev, updateOsd sample_build sample_arm_inputs sample_flushed = some (t, ev) ∧
      t.armed = true ∧ t.armed_at = 200000 ∧ t.in_menu = false ∧ t.arming = 4 ∧
      t.armed_seconds = 0 ∧ t.current_page = 0 ∧ t.cursor_row = 255 ∧ t.cursor_col = 0 ∧
      t.cfg = sample_flushed.cfg :=
  (arming_edge sample_build sample_arm_inputs sample_flushed (by decide) (by decide) rfl).1
    rfl

/-- The arming bookkeeping of `arming_step`: `armed` follows the arming flag, `armed_at`
is written on the rising edge and `armed_seconds` on the falling edge. -/
theorem arming_step_clock (B : Build) (inp : Inputs) (s : State) :
    (arming_step B inp s).armed = inp.ARMED ∧
    (arming_step B inp s).armed_at =
      (if inp.ARMED = true ∧ s.armed = false then inp.now % 4294967296 else s.armed_at) ∧
    (arming_step B inp s).armed_seconds =
      (if inp.ARMED = false ∧ s.armed = true
       then (s.armed_seconds + sub32 inp.now s.armed_at / 1000000) % 4294967296
       else s.armed_seconds) := by
  unfold arming_step
  cases ha : inp.ARMED <;> cases hs : s.armed <;> simp <;> (try split_ifs) <;> simp [hs]

/-- The value of `armed_seconds` after any call of `updateOsd` that returns. -/
theorem updateOsd_clock (B : Build) (inp : Inputs) (s t : State) (ev : List Event)
    (h : updateOsd B inp s = some (t, ev)) :
    t.armed_seconds =
      (if updateNow inp.now s = true ∧ s.skip % 2 = 1 ∧ inp.ARMED = false ∧ s.armed = true
       then (s.armed_seconds + sub32 inp.now s.armed_at / 1000000) % 4294967296
       else s.armed_seconds) ∧
    (updateNow inp.now s = true → s.skip % 2 = 1 → t.armed = inp.ARMED) := by
  have hpe := pass_prelude_eq inp s
  unfold updateOsd at h
  split_ifs at h with hg hk
  · simp only [Option.some.injEq, Prod.mk.injEq] at h
    obtain ⟨rfl, -⟩ := h
    simp [hg]
  · obtain ⟨-, -, -, c1, -, c3, -⟩ := content_pass_shape B inp _ t ev h
    obtain ⟨k1, -, k3⟩ := arming_step_clock B inp (pass_prelude inp s)
    rw [c3, k3, c1, k1, hpe]
    simp at hg
    simp [hg, hk]
  · simp only [Option.some.injEq, Prod.mk.injEq] at h
    obtain ⟨rfl, -⟩ := h
    rw [hpe]
    simp [hk]

theorem reachable_armed_seconds (B : Build) (s : State) (h : Reachable B s) :
    s.armed_seconds < 4294967296 := by
  induction h with
  | init c => simp [init_state]
  | step inp _ hstep ih =>
    rw [(updateOsd_clock B inp _ _ _ hstep).1]
    split_ifs
    · exact Nat.mod_lt _ (by decide)
    · exact ih

/-- C12: from a reachable state (with 5 ≤ `MAX_MENU_ROWS` < 255) every call of
`updateOsd` returns, and it changes `armed_seconds` exactly when it is a content-update
pass (deadline reached, `skip` odd) with `ARMING_FLAG(ARMED)` clear, `armed` true and a
non-zero number of elapsed whole seconds; in such a pass `armed` becomes false and
`armed_seconds` becomes `armed_seconds + ((now - armed_at) mod 2^32) / 1000000`, taken
mod 2^32, which adds exactly 125 when `now` is 125000000 microseconds after `armed_at`. -/
theorem armed_seconds_accumulation (B : Build)
    (hB : 5 ≤ B.MAX_MENU_ROWS ∧ B.MAX_MENU_ROWS < 255) (s : State) (hs : Reachable B s)
    (inp : Inputs) :
    ∃ t ev, updateOsd B inp s = some (t, ev) ∧
      (t.armed_seconds ≠ s.armed_seconds ↔
        (updateNow inp.now s = true ∧ s.skip % 2 = 1 ∧ inp.ARMED = false ∧
          s.armed = true ∧ sub32 inp.now s.armed_at / 1000000 ≠ 0)) ∧
      (updateNow inp.now s = true → s.skip % 2 = 1 → inp.ARMED = false → s.armed = true →
        t.armed = false ∧
        t.armed_seconds
          = (s.armed_seconds + sub32 inp.now s.armed_at / 1000000) % 4294967296 ∧
        (sub32 inp.now s.armed_at = 125000000 →
          t.armed_seconds = (s.armed_seconds + 125) % 4294967296)) := by
  obtain ⟨⟨t, ev⟩, h⟩ := reachable_total B hB s hs inp
  have hlt := reachable_armed_seconds B s hs
  obtain ⟨hc, ha⟩ := updateOsd_clock B inp s t ev h
  have hd : sub32 inp.now s.armed_at / 1000000 < 4295 := by
    unfold sub32
    omega
  refine ⟨t, ev, h, ?_, ?_⟩
  · rw [hc]
    constructor
    · intro hne
      split_ifs at hne with hcond
      · refine ⟨hcond.1, hcond.2.1, hcond.2.2.1, hcond.2.2.2, ?_⟩
        intro h0
        rw [h0, Nat.add_zero, Nat.mod_eq_of_lt hlt] at hne
        exact hne rfl
      · exact absurd rfl hne
    · rintro ⟨h1, h2, h3, h4, h5⟩
      rw [if_pos ⟨h1, h2, h3, h4⟩]
      omega
  · intro h1 h2 h3 h4
    rw [if_pos ⟨h1, h2, h3, h4⟩] at hc
    refine ⟨by rw [ha h1 h2, h3], hc, ?_⟩
    intro h125
    rw [hc, h125]

theorem armed_seconds_accumulation_witness :
    ∃ t ev, updateOsd sample_build sample_disarm_inputs sample_armed_flushed = some (t, ev) ∧
      t.armed = false ∧ t.armed_seconds = 125 := by
  obtain ⟨t, ev, h, -, hacc⟩ := armed_seconds_accumulation sample_build (by decide)
    sample_armed_flushed sample_armed_flushed_reachable sample_disarm_inputs
  obtain ⟨h1, -, h3⟩ := hacc (by decide) (by decide) rfl rfl
  exact ⟨t, ev, h, h1, h3 (by decide)⟩

/-- C13 (the code at the failing input): the module was armed at 200000 with nothing
accumulated, and is disarmed at 125200000, 125 seconds later.  The disarming pass sets
`armed_seconds` to 125, and its overlay writes the elapsed time with minutes 4 and
seconds 10 (04:10), not 02:05: line 671 adds `(now - armed_at) / 1000000` to
`armed_seconds` also while disarmed. -/
theorem disarmed_overlay_double_counts :
    (updateOsd sample_build sample_disarm_inputs sample_armed_flushed).map
        (fun r => (r.1.armed, r.1.armed_seconds, elapsed_time_args r.2))
      = some (false, 125, [[Arg.int 4, Arg.int 10]]) := by
  decide

/-- What the overlay writes as elapsed time, armed or not: the whole seconds since
`armed_at` plus `armed_seconds`. -/
theorem overlay_elapsed (B : Build) (inp : Inputs) (s : State) :
    elapsed_time_args (overlay B inp s).2 =
      [[Arg.int (((sub32 inp.now s.armed_at / 1000000 + s.armed_seconds) % 4294967296 / 60
          : Nat)),
        Arg.int (((sub32 inp.now s.armed_at / 1000000 + s.armed_seconds) % 4294967296 % 60
          : Nat))]] := by
  unfold overlay
  simp only [print_average_system_load]
  split_ifs <;> rfl

/-! ## The deadline gate and the parity of passes -/

theorem updateNow_iff (now : Nat) (s : State) :
    (updateNow now s = true ↔ 0 ≤ int32_of (sub32 now s.next_osd_update_at)) ∧
    (updateNow now s = false ↔ int32_of (sub32 now s.next_osd_update_at) < 0) := by
  have hlt : sub32 now s.next_osd_update_at < 4294967296 := by
    unfold sub32
    omega
  unfold updateNow int32_of
  rw [Nat.mod_eq_of_lt hlt]
  constructor
  · rw [decide_eq_true_iff]
    split_ifs <;> omega
  · rw [decide_eq_false_iff_not]
    split_ifs <;> omega

/-- The effect of an un-gated call of `updateOsd` on the deadline, `skip` and `blink`,
and the kind of the pass. -/
theorem updateOsd_open (B : Build) (inp : Inputs) (s t : State) (ev : List Event)
    (hgate : updateNow inp.now s = true) (h : updateOsd B inp s = some (t, ev)) :
    t.next_osd_update_at = (inp.now + 200000) % 4294967296 ∧
    t.skip = (s.skip + 1) % 256 ∧
    t.blink = (if s.skip % 2 = 0 then !s.blink else s.blink) ∧
    ((s.skip % 2 = 1 ∧ content_pass B inp (pass_prelude inp s) = some (t, ev) ∧
        Event.max7456_draw_screen_fast ∉ ev) ∨
      (s.skip % 2 = 0 ∧ t = pass_prelude inp s ∧ ev = [Event.max7456_draw_screen_fast])) := by
  have hpe := pass_prelude_eq inp s
  have hnext : (inp.now % 4294967296 + OSD_UPDATE_FREQUENCY) % 4294967296
      = (inp.now + 200000) % 4294967296 := by
    have : OSD_UPDATE_FREQUENCY = 200000 := by decide
    rw [this]
    omega
  by_cases hk : s.skip % 2 = 1
  · rw [updateOsd_content B inp s hgate hk] at h
    obtain ⟨c1, c2, c3, -, -, -, c7⟩ := content_pass_shape B inp _ t ev h
    rw [hpe] at c1 c2 c3
    simp only at c1 c2 c3
    refine ⟨by rw [c3, hnext], c1, ?_, Or.inl ⟨hk, h, c7⟩⟩
    rw [c2]
  · have hk0 : s.skip % 2 = 0 := by omega
    rw [updateOsd_flush B inp s hgate hk0] at h
    simp only [Option.some.injEq, Prod.mk.injEq] at h
    obtain ⟨rfl, rfl⟩ := h
    refine ⟨?_, ?_, ?_, Or.inr ⟨hk0, rfl, rfl⟩⟩
    · rw [hpe]
      exact hnext
    · rw [hpe]
    · rw [hpe]

/-- C14: with `now` the timestamp read on entry, if `(now - next_osd_update_at) mod 2^32`
read as a signed 32-bit integer is negative, `updateOsd` is a complete no-op (the state
is unchanged and no call is made); otherwise, from a reachable state (with
5 ≤ `MAX_MENU_ROWS` < 255), it returns, `next_osd_update_at` becomes
`(now + 200000) mod 2^32`, computed from `now`, and exactly one pass is executed: the
content-update pass, without a draw request, when `skip` is odd, and the flush alone
when `skip` is even. -/
theorem deadline_gate (B : Build) (hB : 5 ≤ B.MAX_MENU_ROWS ∧ B.MAX_MENU_ROWS < 255)
    (s : State) (hs : Reachable B s) (inp : Inputs) :
    (int32_of (sub32 inp.now s.next_osd_update_at) < 0 → updateOsd B inp s = some (s, [])) ∧
    (0 ≤ int32_of (sub32 inp.now s.next_osd_update_at) →
      ∃ t ev, updateOsd B inp s = some (t, ev) ∧
        t.next_osd_update_at = (inp.now + 200000) % 4294967296 ∧
        ((s.skip % 2 = 1 ∧ content_pass B inp (pass_prelude inp s) = some (t, ev) ∧
            Event.max7456_draw_screen_fast ∉ ev) ∨
          (s.skip % 2 = 0 ∧ t = pass_prelude inp s ∧
            ev = [Event.max7456_draw_screen_fast]))) := by
  obtain ⟨g1, g2⟩ := updateNow_iff inp.now s
  constructor
  · intro hneg
    unfold updateOsd
    rw [if_pos (g2.2 hneg)]
  · intro hpos
    obtain ⟨⟨t, ev⟩, h⟩ := reachable_total B hB s hs inp
    obtain ⟨o1, -, -, o4⟩ := updateOsd_open B inp s t ev (g1.2 hpos) h
    exact ⟨t, ev, h, o1, o4⟩

theorem deadline_gate_witness :
    (int32_of (sub32 100000 sample_flushed.next_osd_update_at) < 0 ∧
      updateOsd sample_build (sample_inputs 100000 true 1500 1500 1500 1500) sample_flushed
        = some (sample_flushed, [])) ∧
    (0 ≤ int32_of (sub32 200000 sample_flushed.next_osd_update_at) ∧
      ∃ t ev, updateOsd sample_build sample_arm_inputs sample_flushed = some (t, ev) ∧
        t.next_osd_update_at = 400000) :=
  ⟨⟨by decide,
    (deadline_gate sample_build (by decide) sample_flushed sample_flushed_reachable
      (sample_inputs 100000 true 1500 1500 1500 1500)).1 (by decide)⟩,
   ⟨by decide, by
    obtain ⟨t, ev, h, hn, -⟩ :=
      (deadline_gate sample_build (by decide) sample_flushed sample_flushed_reachable
        sample_arm_inputs).2 (by decide)
    exact ⟨t, ev, h, hn⟩⟩⟩

/-- C19 (as stated, refuted): the first un-gated pass after start-up finds `skip` = 0,
an even value, and only requests the draw; it is not the content-update pass. -/
theorem even_pass_is_flush :
    ¬ (∀ (B : Build) (inp : Inputs) (s : State), updateNow inp.now s = true →
        (s.skip % 2 = 0 → updateOsd B inp s = content_pass B inp (pass_prelude inp s)) ∧
        (s.skip % 2 = 1 →
          updateOsd B inp s = some (pass_prelude inp s, [Event.max7456_draw_screen_fast]))) := by
  intro h
  have h1 := (h sample_build (sample_inputs 0 false 1500 1500 1500 1500)
    (init_state (sample_cfg 0 40 0 3 5)) (by decide)).1 (by decide)
  have h2 := congrArg (fun o : Option (State × List Event) => o.map fun r => r.2.length) h1
  revert h2
  decide

/-- C19 (amended): an un-gated pass from a reachable state (with 5 ≤ `MAX_MENU_ROWS` <
255) returns and does exactly one of two things, selected by the value of `skip` on
entry (0 on the first pass after start-up): when `skip` is odd it performs the
content-update pass (arming edges, stick sampling, menu or overlay) and requests no
draw; when `skip` is even it only requests the draw.  In both cases `skip` advances by
one (mod 256). -/
theorem pass_parity (B : Build) (hB : 5 ≤ B.MAX_MENU_ROWS ∧ B.MAX_MENU_ROWS < 255)
    (s : State) (hs : Reachable B s) (inp : Inputs) (hgate : updateNow inp.now s = true) :
    (init_state s.cfg).skip = 0 ∧
    ∃ t ev, updateOsd B inp s = some (t, ev) ∧ t.skip = (s.skip + 1) % 256 ∧
      (s.skip % 2 = 1 →
        content_pass B inp (pass_prelude inp s) = some (t, ev) ∧
        Event.max7456_draw_screen_fast ∉ ev) ∧
      (s.skip % 2 = 0 →
        ev = [Event.max7456_draw_screen_fast] ∧ t = pass_prelude inp s ∧
        t.armed = s.armed ∧ t.armed_at = s.armed_at ∧ t.armed_seconds = s.armed_seconds ∧
        t.sticks = s.sticks ∧ t.in_menu = s.in_menu ∧ t.current_page = s.current_page ∧
        t.cursor_row = s.cursor_row ∧ t.cursor_col = s.cursor_col ∧ t.cfg = s.cfg) := by
  refine ⟨rfl, ?_⟩
  obtain ⟨⟨t, ev⟩, h⟩ := reachable_total B hB s hs inp
  obtain ⟨-, o2, -, o4⟩ := updateOsd_open B inp s t ev hgate h
  refine ⟨t, ev, h, o2, ?_, ?_⟩
  · intro hk
    rcases o4 with ⟨-, hc, hd⟩ | ⟨hk0, -, -⟩
    · exact ⟨hc, hd⟩
    · omega
  · intro hk
    rcases o4 with ⟨hk1, -, -⟩ | ⟨-, ht, he⟩
    · omega
    · subst ht
      have hf := pass_prelude_frame inp s
      exact ⟨he, rfl, hf.2.2.2.2.1, hf.2.2.2.2.2.1, hf.2.2.2.2.2.2.1, hf.2.2.2.2.2.2.2.2.1,
        hf.2.2.2.1, hf.1, hf.2.1, hf.2.2.1, hf.2.2.2.2.2.2.2.2.2⟩

theorem pass_parity_witness :
    ∃ t ev, updateOsd sample_build sample_arm_inputs sample_flushed = some (t, ev) ∧
      sample_flushed.skip = 1 ∧ t.skip = 2 ∧
      content_pass sample_build sample_arm_inputs
        (pass_prelude sample_arm_inputs sample_flushed) = some (t, ev) ∧
      Event.max7456_draw_screen_fast ∉ ev := by
  obtain ⟨-, t, ev, h, hk, hodd, -⟩ := pass_parity sample_build (by decide) sample_flushed
    sample_flushed_reachable sample_arm_inputs (by decide)
  obtain ⟨hc, hd⟩ := hodd (by decide)
  exact ⟨t, ev, h, by decide, hk, hc, hd⟩

/-! ## Alternation of passes and of the blink phase -/

theorem due_inputs_open (s : State) : updateNow (due_inputs s).now s = true := by
  unfold updateNow sub32 due_inputs
  simp only [decide_eq_true_iff]
  omega

theorem ungated_run_exists (B : Build) (hB : 5 ≤ B.MAX_MENU_ROWS ∧ B.MAX_MENU_ROWS < 255)
    (n : Nat) : ∀ s : State, cursor_inv B s →
      ∃ l u, l.length = n ∧ ungated_run B l s = some u := by
  induction n with
  | zero => intro s _; exact ⟨[], s, rfl, rfl⟩
  | succ k ih =>
    intro s hs
    obtain ⟨⟨t, ev⟩, h⟩ := updateOsd_total B hB (due_inputs s) s hs
    obtain ⟨l, u, hl, hu⟩ := ih t (updateOsd_inv B hB (due_inputs s) s t ev hs h)
    refine ⟨due_inputs s :: l, u, by simp [hl], ?_⟩
    simp only [ungated_run, due_inputs_open, if_true, h, Option.some_bind]
    exact hu

theorem ungated_run_skip_blink (B : Build) (l : List Inputs) :
    ∀ s u : State, s.skip < 256 → ungated_run B l s = some u →
      u.skip = (s.skip + l.length) % 256 ∧
      u.blink = (if ((l.length + 1 - s.skip % 2) / 2) % 2 = 0 then s.blink else !s.blink) := by
  induction l with
  | nil =>
    intro s u hk h
    simp only [ungated_run, Option.some.injEq] at h
    subst h
    refine ⟨by simp only [List.length_nil]; omega, ?_⟩
    rw [if_pos (by simp only [List.length_nil]; omega)]
  | cons inp rest ih =>
    intro s u hk h
    simp only [ungated_run] at h
    split_ifs at h with hg
    rcases hr : updateOsd B inp s with _ | ⟨t, ev⟩
    · rw [hr] at h
      simp at h
    · rw [hr] at h
      simp only [Option.some_bind] at h
      obtain ⟨-, o2, o3, -⟩ := updateOsd_open B inp s t ev hg hr
      obtain ⟨i1, i2⟩ := ih t u (by rw [o2]; omega) h
      refine ⟨by rw [i1, o2]; simp only [List.length_cons]; omega, ?_⟩
      rw [i2, o3, o2]
      simp only [List.length_cons]
      split_ifs <;> first | rfl | (exfalso; omega) | simp

theorem reachable_skip (B : Build) (s : State) (h : Reachable B s) : s.skip < 256 := by
  induction h with
  | init c => simp [init_state]
  | step inp _ hstep ih =>
    rename_i s0 t0 ev0 _
    by_cases hg : updateNow inp.now s0 = true
    · rw [(updateOsd_open B inp s0 t0 ev0 hg hstep).2.1]
      omega
    · unfold updateOsd at hstep
      rw [if_pos (by simpa using hg)] at hstep
      simp only [Option.some.injEq, Prod.mk.injEq] at hstep
      rw [← hstep.1]
      exact ih

/-- C20: from a reachable state (with 5 ≤ `MAX_MENU_ROWS` < 255) runs of un-gated
`updateOsd` passes of every length exist.  In each un-gated pass the draw is requested
exactly when `skip` is even on entry (the content-update pass runs when it is odd), and
the parity of `skip` flips, so content-update and flush-only passes strictly alternate.
After a run of n passes `skip` is `(skip + n) mod 256` (the wrap from 255 to 0 keeps the
alternation) and `blink` has been toggled once per flush-only pass; in particular from
one content-update pass to the next (two passes later) `blink` is toggled exactly
once, so the blink value seen by successive content-update passes alternates. -/
theorem blink_alternation (B : Build) (hB : 5 ≤ B.MAX_MENU_ROWS ∧ B.MAX_MENU_ROWS < 255)
    (s : State) (hs : Reachable B s) :
    (∀ n, ∃ l u, l.length = n ∧ ungated_run B l s = some u) ∧
    (∀ inp t ev, updateNow inp.now s = true → updateOsd B inp s = some (t, ev) →
      (ev = [Event.max7456_draw_screen_fast] ↔ s.skip % 2 = 0) ∧
      (Event.max7456_draw_screen_fast ∉ ev ↔ s.skip % 2 = 1) ∧
      t.skip % 2 = (s.skip + 1) % 2) ∧
    (∀ l u, ungated_run B l s = some u →
      u.skip = (s.skip + l.length) % 256 ∧
      u.blink = (if ((l.length + 1 - s.skip % 2) / 2) % 2 = 0 then s.blink else !s.blink) ∧
      (s.skip % 2 = 1 → l.length = 2 → u.skip % 2 = 1 ∧ u.blink = !s.blink) ∧
      (s.skip = 255 → l.length = 1 → u.skip = 0 ∧ u.blink = s.blink)) := by
  have hinv := reachable_inv B hB s hs
  have hk := reachable_skip B s hs
  refine ⟨fun n => ungated_run_exists B hB n s hinv, ?_, ?_⟩
  · intro inp t ev hg h
    obtain ⟨-, o2, -, o4⟩ := updateOsd_open B inp s t ev hg h
    refine ⟨?_, ?_, by rw [o2]; omega⟩
    · rcases o4 with ⟨h1, -, hd⟩ | ⟨h0, -, he⟩
      · constructor
        · intro he
          rw [he] at hd
          simp at hd
        · intro h0
          omega
      · exact ⟨fun _ => h0, fun _ => he⟩
    · rcases o4 with ⟨h1, -, hd⟩ | ⟨h0, -, he⟩
      · exact ⟨fun _ => h1, fun _ => hd⟩
      · constructor
        · intro hd
          rw [he] at hd
          simp at hd
        · intro h1
          omega
  · intro l u hrun
    obtain ⟨r1, r2⟩ := ungated_run_skip_blink B l s u hk hrun
    refine ⟨r1, r2, ?_, ?_⟩
    · intro hodd hlen
      rw [r1, r2, hlen]
      refine ⟨by omega, ?_⟩
      rw [if_neg (by omega)]
    · intro h255 hlen
      rw [r1, r2, hlen, h255]
      exact ⟨by decide, by rw [if_pos (by decide)]⟩

theorem blink_alternation_witness :
    ∃ u, ungated_run sample_build
        [sample_arm_inputs, sample_inputs 400000 true 1500 1500 1500 1500] sample_flushed
          = some u ∧
      sample_flushed.skip % 2 = 1 ∧ u.skip % 2 = 1 ∧ u.blink = !sample_flushed.blink := by
  have hrun : ungated_run sample_build
      [sample_arm_inputs, sample_inputs 400000 true 1500 1500 1500 1500] sample_flushed
        = some sample_armed_flushed := by
    rfl
  obtain ⟨-, -, h2, -⟩ := (blink_alternation sample_build (by decide) sample_flushed
    sample_flushed_reachable).2.2 _ _ hrun
  obtain ⟨a, b⟩ := h2 (by decide) rfl
  exact ⟨sample_armed_flushed, hrun, by decide, a, b⟩

/-! ## Rate handlers and stick normalisation -/

theorem rate_step_inc (max v : Nat) (hv : v ≤ max) (hmax : max ≤ 255) :
    rate_step max true v = min (v + 1) max := by
  simp only [rate_step, if_true]
  split_ifs <;> omega

theorem rate_step_dec (max v : Nat) (hv : v ≤ max) (hmax : max ≤ 255) :
    ((rate_step max false v : Nat) : Int) = Max.max ((v : Int) - 1) 0 := by
  simp only [rate_step, Bool.false_eq_true, if_false]
  split_ifs <;> omega

/-- C17: with both rate maxima at most 255, for each of `update_roll_rate`,
`update_pitch_rate` and `update_yaw_rate`, every stored rate `r` at most the maximum of
its axis and every column argument: an increase leaves `min (r + 1) MAX`, a decrease
leaves `max (r - 1) 0` (no 8-bit wrap-around), and the rates of the other axes, the PID
profile and the VTX channels are unchanged. -/
theorem rate_updates_saturate (B : Build) (c : Config) (col : Nat)
    (hrp : B.CONTROL_RATE_CONFIG_ROLL_PITCH_RATE_MAX ≤ 255)
    (hyaw : B.CONTROL_RATE_CONFIG_YAW_RATE_MAX ≤ 255) :
    (c.rates FD_ROLL ≤ B.CONTROL_RATE_CONFIG_ROLL_PITCH_RATE_MAX →
      (update_roll_rate B true col c).rates FD_ROLL
        = min (c.rates FD_ROLL + 1) B.CONTROL_RATE_CONFIG_ROLL_PITCH_RATE_MAX ∧
      (((update_roll_rate B false col c).rates FD_ROLL : Nat) : Int)
        = Max.max ((c.rates FD_ROLL : Int) - 1) 0) ∧
    (c.rates FD_PITCH ≤ B.CONTROL_RATE_CONFIG_ROLL_PITCH_RATE_MAX →
      (update_pitch_rate B true col c).rates FD_PITCH
        = min (c.rates FD_PITCH + 1) B.CONTROL_RATE_CONFIG_ROLL_PITCH_RATE_MAX ∧
      (((update_pitch_rate B false col c).rates FD_PITCH : Nat) : Int)
        = Max.max ((c.rates FD_PITCH : Int) - 1) 0) ∧
    (c.rates FD_YAW ≤ B.CONTROL_RATE_CONFIG_YAW_RATE_MAX →
      (update_yaw_rate B true col c).rates FD_YAW
        = min (c.rates FD_YAW + 1) B.CONTROL_RATE_CONFIG_YAW_RATE_MAX ∧
      (((update_yaw_rate B false col c).rates FD_YAW : Nat) : Int)
        = Max.max ((c.rates FD_YAW : Int) - 1) 0) ∧
    (∀ inc : Bool,
      (∀ i, i ≠ FD_ROLL → (update_roll_rate B inc col c).rates i = c.rates i) ∧
      (∀ i, i ≠ FD_PITCH → (update_pitch_rate B inc col c).rates i = c.rates i) ∧
      (∀ i, i ≠ FD_YAW → (update_yaw_rate B inc col c).rates i = c.rates i) ∧
      (update_roll_rate B inc col c).pidProfile = c.pidProfile ∧
      (update_pitch_rate B inc col c).pidProfile = c.pidProfile ∧
      (update_yaw_rate B inc col c).pidProfile = c.pidProfile ∧
      (update_roll_rate B inc col c).vtx_channel = c.vtx_channel ∧
      (update_pitch_rate B inc col c).vtx_channel = c.vtx_channel ∧
      (update_yaw_rate B inc col c).vtx_channel = c.vtx_channel ∧
      (update_roll_rate B inc col c).current_vtx_channel = c.current_vtx_channel ∧
      (update_pitch_rate B inc col c).current_vtx_channel = c.current_vtx_channel ∧
      (update_yaw_rate B inc col c).current_vtx_channel = c.current_vtx_channel) ∧
    (FD_ROLL ≠ FD_PITCH ∧ FD_ROLL ≠ FD_YAW ∧ FD_PITCH ≠ FD_YAW) := by
  refine ⟨?_, ?_, ?_, ?_, by decide, by decide, by decide⟩
  · intro h
    simp only [update_roll_rate, Function.update_same]
    exact ⟨rate_step_inc _ _ h hrp, rate_step_dec _ _ h hrp⟩
  · intro h
    simp only [update_pitch_rate, Function.update_same]
    exact ⟨rate_step_inc _ _ h hrp, rate_step_dec _ _ h hrp⟩
  · intro h
    simp only [update_yaw_rate, Function.update_same]
    exact ⟨rate_step_inc _ _ h hyaw, rate_step_dec _ _ h hyaw⟩
  · intro inc
    refine ⟨?_, ?_, ?_, rfl, rfl, rfl, rfl, rfl, rfl, rfl, rfl, rfl⟩
    · intro i hi
      simp only [update_roll_rate, Function.update_noteq hi]
    · intro i hi
      simp only [update_pitch_rate, Function.update_noteq hi]
    · intro i hi
      simp only [update_yaw_rate, Function.update_noteq hi]

theorem rate_updates_saturate_witness :
    sample_build.CONTROL_RATE_CONFIG_ROLL_PITCH_RATE_MAX ≤ 255 ∧
    sample_build.CONTROL_RATE_CONFIG_YAW_RATE_MAX ≤ 255 ∧
    (update_roll_rate sample_build true 0 (sample_cfg 0 40 0 3 5)).rates FD_ROLL
      = min ((sample_cfg 0 40 0 3 5).rates FD_ROLL + 1)
          sample_build.CONTROL_RATE_CONFIG_ROLL_PITCH_RATE_MAX ∧
    (update_roll_rate sample_build true 0 (sample_cfg 0 40 0 3 5)).rates FD_ROLL = 51 :=
  ⟨by decide, by decide,
   ((rate_updates_saturate sample_build (sample_cfg 0 40 0 3 5) 0 (by decide)
      (by decide)).1 (by decide)).1,
   by decide⟩

theorem constrain_bounds (x lo hi : Int) (h : lo < hi) :
    lo ≤ constrain x lo hi ∧ constrain x lo hi ≤ hi ∧
    (x ≤ lo → constrain x lo hi = lo) ∧ (hi ≤ x → constrain x lo hi = hi) ∧
    (∀ y, x ≤ y → constrain x lo hi ≤ constrain y lo hi) := by
  unfold constrain
  refine ⟨?_, ?_, ?_, ?_, ?_⟩
  · split_ifs <;> omega
  · split_ifs <;> omega
  · intro hx
    split_ifs <;> omega
  · intro hx
    split_ifs <;> omega
  · intro y hy
    split_ifs <;> omega

/-- The stored stick value as an integer: the floor of the scaled, clamped reading. -/
theorem stick_value_eq (B : Build) (hB : B.PWM_RANGE_MIN < B.PWM_RANGE_MAX) (x : Int) :
    ((stick_value B x : Nat) : Int)
      = ((constrain x B.PWM_RANGE_MIN B.PWM_RANGE_MAX - B.PWM_RANGE_MIN) * 100)
          / (B.PWM_RANGE_MAX - B.PWM_RANGE_MIN) ∧
    0 ≤ ((constrain x B.PWM_RANGE_MIN B.PWM_RANGE_MAX - B.PWM_RANGE_MIN) * 100)
          / (B.PWM_RANGE_MAX - B.PWM_RANGE_MIN) ∧
    ((constrain x B.PWM_RANGE_MIN B.PWM_RANGE_MAX - B.PWM_RANGE_MIN) * 100)
          / (B.PWM_RANGE_MAX - B.PWM_RANGE_MIN) ≤ 100 := by
  obtain ⟨c1, c2, -, -, -⟩ := constrain_bounds x B.PWM_RANGE_MIN B.PWM_RANGE_MAX hB
  have hd : 0 < B.PWM_RANGE_MAX - B.PWM_RANGE_MIN := by omega
  have ha : 0 ≤ (constrain x B.PWM_RANGE_MIN B.PWM_RANGE_MAX - B.PWM_RANGE_MIN) * 100 := by
    omega
  have hq0 := Int.ediv_nonneg ha (Int.le_of_lt hd)
  have hq1 : ((constrain x B.PWM_RANGE_MIN B.PWM_RANGE_MAX - B.PWM_RANGE_MIN) * 100)
      / (B.PWM_RANGE_MAX - B.PWM_RANGE_MIN) ≤ 100 :=
    Int.ediv_le_of_le_mul hd (by omega)
  refine ⟨?_, hq0, hq1⟩
  unfold stick_value
  rw [Int.tdiv_eq_ediv ha (Int.le_of_lt hd), Int.emod_eq_of_lt hq0 (by omega),
    Int.toNat_of_nonneg hq0]

theorem content_pass_sticks (B : Build) (inp : Inputs) (s t : State) (ev : List Event)
    (h : content_pass B inp s = some (t, ev)) :
    t.sticks = (arming_step B inp s).sticks := by
  unfold content_pass at h
  simp only at h
  split_ifs at h with hm
  · simp only [Option.map_eq_some', Prod.mk.injEq] at h
    obtain ⟨⟨t2, e2⟩, hsm, rfl, -⟩ := h
    obtain ⟨⟨p, m, c, r, k, ht⟩, -⟩ := show_menu_shape B inp _ t2 e2 hsm
    subst ht
    rfl
  · simp only [Option.some.injEq] at h
    have ht : t = (overlay B inp (arming_step B inp s)).1 := by rw [h]
    rw [ht, overlay_state]

/-- C18: with `PWM_RANGE_MIN < PWM_RANGE_MAX`, the value computed from a raw reading `x`
for the `uint8_t` store into `sticks[i]` is
`floor ((clamp(x, MIN, MAX) - MIN) * 100 / (MAX - MIN))`; it lies in `[0, 100]`, is 0 for
`x ≤ MIN`, 100 for `x ≥ MAX`, and is monotonically non-decreasing in `x`.  It is the
value of `sticks[i]`, for each of the four channels, after a disarmed content-update
pass from a reachable state. -/
theorem stick_normalisation (B : Build) (hB : B.PWM_RANGE_MIN < B.PWM_RANGE_MAX) (x : Int) :
    ((stick_value B x : Nat) : Int)
      = ((constrain x B.PWM_RANGE_MIN B.PWM_RANGE_MAX - B.PWM_RANGE_MIN) * 100)
          / (B.PWM_RANGE_MAX - B.PWM_RANGE_MIN) ∧
    stick_value B x ≤ 100 ∧
    (x ≤ B.PWM_RANGE_MIN → stick_value B x = 0) ∧
    (B.PWM_RANGE_MAX ≤ x → stick_value B x = 100) ∧
    (∀ y, x ≤ y → stick_value B x ≤ stick_value B y) ∧
    (∀ (s : State) (inp : Inputs), 5 ≤ B.MAX_MENU_ROWS ∧ B.MAX_MENU_ROWS < 255 →
      Reachable B s → updateNow inp.now s = true → s.skip % 2 = 1 → inp.ARMED = false →
      ∃ t ev, updateOsd B inp s = some (t, ev) ∧
        t.sticks ROLL = stick_value B (inp.rcData ROLL) ∧
        t.sticks PITCH = stick_value B (inp.rcData PITCH) ∧
        t.sticks YAW = stick_value B (inp.rcData YAW) ∧
        t.sticks THROTTLE = stick_value B (inp.rcData THROTTLE)) := by
  obtain ⟨e1, e2, e3⟩ := stick_value_eq B hB x
  obtain ⟨c1, c2, c3, c4, c5⟩ := constrain_bounds x B.PWM_RANGE_MIN B.PWM_RANGE_MAX hB
  have hd : 0 < B.PWM_RANGE_MAX - B.PWM_RANGE_MIN := by omega
  refine ⟨e1, by omega, ?_, ?_, ?_, ?_⟩
  · intro hx
    have : ((stick_value B x : Nat) : Int) = 0 := by
      rw [e1, c3 hx]
      simp
    omega
  · intro hx
    have : ((stick_value B x : Nat) : Int) = 100 := by
      rw [e1, c4 hx, Int.mul_comm, Int.mul_ediv_cancel _ (by omega)]
    omega
  · intro y hy
    obtain ⟨f1, -, -⟩ := stick_value_eq B hB y
    have := c5 y hy
    have hle : ((stick_value B x : Nat) : Int) ≤ ((stick_value B y : Nat) : Int) := by
      rw [e1, f1]
      exact Int.ediv_le_ediv hd (by omega)
    omega
  · intro s inp hrows hs hgate hskip harm
    obtain ⟨⟨t, ev⟩, h⟩ := reachable_total B hrows s hs inp
    have hc := h
    rw [updateOsd_content B inp s hgate hskip] at hc
    have hst := content_pass_sticks B inp _ t ev hc
    have hsample : (arming_step B inp (pass_prelude inp s)).sticks
        = sample_sticks B inp.rcData (pass_prelude inp s).sticks := by
      unfold arming_step
      rw [if_neg (by simp [harm])]
      simp only
      split_ifs <;> rfl
    obtain ⟨k1, k2, k3, k4⟩ := sample_sticks_apply B inp.rcData (pass_prelude inp s).sticks
    refine ⟨t, ev, h, ?_, ?_, ?_, ?_⟩ <;> rw [hst, hsample]
    · exact k1
    · exact k2
    · exact k3
    · exact k4

theorem stick_normalisation_witness :
    sample_build.PWM_RANGE_MIN < sample_build.PWM_RANGE_MAX ∧
    stick_value sample_build 1234 ≤ 100 ∧ stick_value sample_build 1234 = 23 ∧
    stick_value sample_build 900 = 0 ∧ stick_value sample_build 2100 = 100 :=
  ⟨by decide, (stick_normalisation sample_build (by decide) 1234).2.1, by decide,
   (stick_normalisation sample_build (by decide) 900).2.2.1 (by decide),
   (stick_normalisation sample_build (by decide) 2100).2.2.2.1 (by decide)⟩

/-! ## Rendering and gesture handling inside `show_menu` -/

/-- C15 (as stated, refuted): on the PID page with the cursor on row ROLL, column P, an
integer controller and gain 40, a Select gesture makes `show_menu` call the row's
handler, and the gain is 41 afterwards; the value the same call prints at that cell
(position (4 + 0) * 30 + 13 = 133) is 40, and 41 is not printed. -/
theorem print_shows_old_value :
    ∃ t ev, show_menu sample_build sample_menu_inputs (sample_menu 2 0 0 select_sticks)
        = some (t, ev) ∧
      Event.update UpdateFn.update_roll_pid true 0 ∈ ev ∧
      t.cfg.pidProfile.P8 ROLL = 41 ∧
      Event.max7456_write_string "%d" [Arg.int 40] 133 ∈ ev ∧
      Event.max7456_write_string "%d" [Arg.int 41] 133 ∉ ev := by
  have hs : (show_menu sample_build sample_menu_inputs
      (sample_menu 2 0 0 select_sticks)).isSome = true := by decide
  obtain ⟨⟨t, ev⟩, h⟩ := Option.isSome_iff_exists.mp hs
  have hp : ∀ r ∈ show_menu sample_build sample_menu_inputs (sample_menu 2 0 0 select_sticks),
      Event.update UpdateFn.update_roll_pid true 0 ∈ r.2 ∧
      r.1.cfg.pidProfile.P8 ROLL = 41 ∧
      Event.max7456_write_string "%d" [Arg.int 40] 133 ∈ r.2 ∧
      Event.max7456_write_string "%d" [Arg.int 41] 133 ∉ r.2 := by
    decide
  exact ⟨t, ev, h, hp (t, ev) h⟩

theorem foldl_append_mem {α : Type} (e : Event) (f : α → List Event) (l : List α) :
    ∀ init : List Event,
      (e ∈ init ∨ ∃ a ∈ l, e ∈ f a) → e ∈ l.foldl (fun acc a => acc ++ f a) init := by
  induction l with
  | nil =>
    intro init h
    rcases h with h | ⟨a, ha, -⟩
    · exact h
    · simp at ha
  | cons b l ih =>
    intro init h
    apply ih
    rcases h with h | ⟨a, ha, he⟩
    · exact Or.inl (List.mem_append_left _ h)
    · rcases List.mem_cons.mp ha with rfl | ha
      · exact Or.inl (List.mem_append_right _ he)
      · exact Or.inr ⟨a, ha, he⟩

theorem foldl_pair_mem {α : Type} (e : Event) (g : Nat × List Event → α → Nat)
    (f : α → List Event) (l : List α) :
    ∀ acc : Nat × List Event,
      (e ∈ acc.2 ∨ ∃ a ∈ l, e ∈ f a) →
      e ∈ (l.foldl (fun acc a => (g acc a, acc.2 ++ f a)) acc).2 := by
  induction l with
  | nil =>
    intro acc h
    rcases h with h | ⟨a, ha, -⟩
    · exact h
    · simp at ha
  | cons b l ih =>
    intro acc h
    apply ih
    rcases h with h | ⟨a, ha, he⟩
    · exact Or.inl (List.mem_append_left _ h)
    · rcases List.mem_cons.mp ha with rfl | ha
      · exact Or.inl (List.mem_append_right _ he)
      · exact Or.inr ⟨a, ha, he⟩

/-- The print call of a row and column of the current page is part of what `show_menu`
renders, and it reads the configuration the call starts with. -/
theorem row_print_rendered (B : Build) (inp : Inputs) (s : State) (r k : Nat)
    (hr : r < (page_at B s.current_page).rows_number)
    (hk : k < (page_at B s.current_page).cols_number) :
    ∀ e ∈ row_print_events B inp s.cfg (page_at B s.current_page) r k,
      e ∈ (render_menu B inp s).1 := by
  intro e he
  have h1 : e ∈ row_prints B inp s.cfg (page_at B s.current_page)
      (row_at (page_at B s.current_page) r) 4 := by
    unfold row_prints
    apply foldl_append_mem
    exact Or.inr ⟨k, List.mem_range.mpr hk, he⟩
  have h2 : e ∈ (rows_loop B inp s.cfg (page_at B s.current_page) s.cursor_row 4
      inp.cursor_y).2 := by
    unfold rows_loop
    simp only [List.append_assoc]
    apply foldl_pair_mem e
      (fun acc i => if s.cursor_row = i
        then (4 + (row_at (page_at B s.current_page) i).y_pos) % 65536 else acc.1)
      (fun i => [Event.max7456_write_string "%s"
          [Arg.str (row_at (page_at B s.current_page) i).title]
          ((4 + (row_at (page_at B s.current_page) i).y_pos) * OSD_LINE_LENGTH + 1)] ++
        row_prints B inp s.cfg (page_at B s.current_page)
          (row_at (page_at B s.current_page) i) 4)
    exact Or.inr ⟨r, List.mem_range.mpr hr, List.mem_append_right _ h1⟩
  unfold render_menu
  exact List.mem_append_right _ h2

/-- C15 (amended): with the cursor on a data row (r, c) whose row has an update handler,
a Select or Back gesture makes `show_menu` render first and call the handler afterwards:
the calls of the pass are the render writes for the state the call starts with, then the
handler call, then the cursor glyph.  So the value the same pass prints for that row and
column is the one before the update (the print call reads the configuration as it is at
the start of `show_menu`), and the updated configuration is what the next `show_menu`
call renders. -/
theorem render_precedes_update (B : Build)
    (hB : 5 ≤ B.MAX_MENU_ROWS ∧ B.MAX_MENU_ROWS < 255) (inp : Inputs) (s : State)
    (hpage : s.current_page < (menu_pages B).length)
    (hrow : s.cursor_row < (page_at B s.current_page).rows_number)
    (hcol : s.cursor_col < (page_at B s.current_page).cols_number)
    (hroll : 10 < s.sticks ROLL ∧ s.sticks ROLL < 90)
    (hpitch : 10 < s.sticks PITCH ∧ s.sticks PITCH < 90)
    (inc : Bool) (hy : if inc = true then s.sticks YAW > 90 else s.sticks YAW < 10)
    (f : UpdateFn) (hf : (row_at (page_at B s.current_page) s.cursor_row).update = some f) :
    ∃ c g, call_update B inc s.cursor_col s.cfg f = some c ∧
      show_menu B inp s =
        some ({ s with cfg := c },
          (render_menu B inp s).1 ++ [Event.update f inc s.cursor_col] ++
            [Event.max7456_write_string ">" [] g]) ∧
      (∀ e ∈ row_print_events B inp s.cfg (page_at B s.current_page) s.cursor_row
          s.cursor_col, e ∈ (render_menu B inp s).1) ∧
      (∀ (inp2 : Inputs),
        ∀ e ∈ row_print_events B inp2 c (page_at B s.current_page) s.cursor_row
          s.cursor_col, e ∈ (render_menu B inp2 { s with cfg := c }).1) := by
  have hb := page_bounds B s.current_page hpage
  have hr : s.cursor_row = 255 ∨ s.cursor_row ≤ B.MAX_MENU_ROWS := Or.inr (by omega)
  obtain ⟨c, hc⟩ := call_update_total B inc s.cursor_col s.cfg f (by omega)
  have hold := row_print_rendered B inp s s.cursor_row s.cursor_col hrow hcol
  have hnew : ∀ (inp2 : Inputs),
      ∀ e ∈ row_print_events B inp2 c (page_at B s.current_page) s.cursor_row
        s.cursor_col, e ∈ (render_menu B inp2 { s with cfg := c }).1 :=
    fun inp2 => row_print_rendered B inp2 { s with cfg := c } s.cursor_row s.cursor_col
      hrow hcol
  cases inc
  · simp only [Bool.false_eq_true, if_false] at hy
    have hg : s.sticks YAW < 10 ∧ s.sticks ROLL > 10 ∧ s.sticks ROLL < 90 ∧
        s.sticks PITCH > 10 ∧ s.sticks PITCH < 90 :=
      ⟨hy, hroll.1, hroll.2, hpitch.1, hpitch.2⟩
    have h2 : back_step B s =
        some ({ s with cfg := c }, [Event.update f false s.cursor_col]) := by
      unfold back_step
      rw [if_pos hg, if_neg (by omega), hf]
      simp only [hc, Option.map_some']
    obtain ⟨g, h⟩ := show_menu_back B inp s _ _ hy hr h2
    exact ⟨c, g, hc, h, hold, hnew⟩
  · simp only [if_true] at hy
    have hg : s.sticks YAW > 90 ∧ s.sticks ROLL > 10 ∧ s.sticks ROLL < 90 ∧
        s.sticks PITCH > 10 ∧ s.sticks PITCH < 90 :=
      ⟨hy, hroll.1, hroll.2, hpitch.1, hpitch.2⟩
    have h1 : select_step B s =
        some ({ s with cfg := c }, [Event.update f true s.cursor_col]) := by
      unfold select_step
      rw [if_pos hg, if_neg (by omega), hf]
      simp only [hc, Option.map_some']
    obtain ⟨g, h⟩ := show_menu_select B inp s _ _ hy hr h1
    exact ⟨c, g, hc, h, hold, hnew⟩

theorem render_precedes_update_witness :
    ∃ c g, call_update sample_build true 0 (sample_menu 2 0 0 select_sticks).cfg
        UpdateFn.update_roll_pid = some c ∧
      show_menu sample_build sample_menu_inputs (sample_menu 2 0 0 select_sticks) =
        some ({ sample_menu 2 0 0 select_sticks with cfg := c },
          (render_menu sample_build sample_menu_inputs (sample_menu 2 0 0 select_sticks)).1
            ++ [Event.update UpdateFn.update_roll_pid true 0] ++
            [Event.max7456_write_string ">" [] g]) ∧
      Event.max7456_write_string "%d" [Arg.int 40] 133
        ∈ (render_menu sample_build sample_menu_inputs
            (sample_menu 2 0 0 select_sticks)).1 := by
  obtain ⟨c, g, h1, h2, h3, -⟩ := render_precedes_update sample_build (by decide)
    sample_menu_inputs (sample_menu 2 0 0 select_sticks) (by decide) (by decide)
    (by decide) (by decide) (by decide) true (by decide) UpdateFn.update_roll_pid rfl
  exact ⟨c, g, h1, h2, h3 _ (by decide)⟩

/-! ## The cursor glyph -/

/-- C16 (the code at the failing inputs), on the PID page.  First input: cursor on row 0,
column 0, Down gesture: the final cursor is row 1, column 0, whose cell is
(4 + 1) * 30 + 13 - 1 = 162, but the only glyph of the call is written at 132, the cell
of the cursor at the start of the call.  Second input: cursor on the toolbar at column
2, Up gesture: the final cursor is row 5, column 0, whose cell is
(4 + 5) * 30 + 13 - 1 = 282, but the glyph is written at `cursor_x + cursor_y * 30` with
`cursor_x` = 25 - 1 from the column loop and `cursor_y` never assigned: at 24 when the
local happens to hold 0 and at 30024 when it holds 1000. -/
theorem glyph_not_at_final_cursor :
    (∃ t ev, show_menu sample_build sample_menu_inputs (sample_menu 2 0 0 down_sticks)
        = some (t, ev) ∧
      t.cursor_row = 1 ∧ t.cursor_col = 0 ∧
      (4 + (row_at (page_at sample_build t.current_page) t.cursor_row).y_pos) * 30
        + (col_at (page_at sample_build t.current_page) t.cursor_col).x_pos - 1 = 162 ∧
      write_positions ">" [] ev = [132]) ∧
    (∃ t ev, show_menu sample_build (sample_menu_inputs_with 0 0)
        (sample_menu 2 255 2 up_sticks) = some (t, ev) ∧
      t.cursor_row = 5 ∧ t.cursor_col = 0 ∧
      (4 + (row_at (page_at sample_build t.current_page) t.cursor_row).y_pos) * 30
        + (col_at (page_at sample_build t.current_page) t.cursor_col).x_pos - 1 = 282 ∧
      write_positions ">" [] ev = [24]) ∧
    (∃ t ev, show_menu sample_build (sample_menu_inputs_with 0 1000)
        (sample_menu 2 255 2 up_sticks) = some (t, ev) ∧
      t.cursor_row = 5 ∧ t.cursor_col = 0 ∧
      (4 + (row_at (page_at sample_build t.current_page) t.cursor_row).y_pos) * 30
        + (col_at (page_at sample_build t.current_page) t.cursor_col).x_pos - 1 = 282 ∧
      write_positions ">" [] ev = [30024]) := by
  refine ⟨?_, ?_, ?_⟩
  · have hs : (show_menu sample_build sample_menu_inputs
        (sample_menu 2 0 0 down_sticks)).isSome = true := by decide
    obtain ⟨⟨t, ev⟩, h⟩ := Option.isSome_iff_exists.mp hs
    have hp : ∀ r ∈ show_menu sample_build sample_menu_inputs
        (sample_menu 2 0 0 down_sticks),
        r.1.cursor_row = 1 ∧ r.1.cursor_col = 0 ∧
        (4 + (row_at (page_at sample_build r.1.current_page) r.1.cursor_row).y_pos) * 30
          + (col_at (page_at sample_build r.1.current_page) r.1.cursor_col).x_pos - 1
          = 162 ∧
        write_positions ">" [] r.2 = [132] := by
      decide
    exact ⟨t, ev, h, hp (t, ev) h⟩
  · have hs : (show_menu sample_build (sample_menu_inputs_with 0 0)
        (sample_menu 2 255 2 up_sticks)).isSome = true := by decide
    obtain ⟨⟨t, ev⟩, h⟩ := Option.isSome_iff_exists.mp hs
    have hp : ∀ r ∈ show_menu sample_build (sample_menu_inputs_with 0 0)
        (sample_menu 2 255 2 up_sticks),
        r.1.cursor_row = 5 ∧ r.1.cursor_col = 0 ∧
        (4 + (row_at (page_at sample_build r.1.current_page) r.1.cursor_row).y_pos) * 30
          + (col_at (page_at sample_build r.1.current_page) r.1.cursor_col).x_pos - 1
          = 282 ∧
        write_positions ">" [] r.2 = [24] := by
      decide
    exact ⟨t, ev, h, hp (t, ev) h⟩
  · have hs : (show_menu sample_build (sample_menu_inputs_with 0 1000)
        (sample_menu 2 255 2 up_sticks)).isSome = true := by decide
    obtain ⟨⟨t, ev⟩, h⟩ := Option.isSome_iff_exists.mp hs
    have hp : ∀ r ∈ show_menu sample_build (sample_menu_inputs_with 0 1000)
        (sample_menu 2 255 2 up_sticks),
        r.1.cursor_row = 5 ∧ r.1.cursor_col = 0 ∧
        (4 + (row_at (page_at sample_build r.1.current_page) r.1.cursor_row).y_pos) * 30
          + (col_at (page_at sample_build r.1.current_page) r.1.cursor_col).x_pos - 1
          = 282 ∧
        write_positions ">" [] r.2 = [30024] := by
      decide
    exact ⟨t, ev, h, hp (t, ev) h⟩

theorem foldl_range_select (v : Nat → Nat) (h : Nat × List Event → Nat → List Event)
    (cc x0 : Nat) (n : Nat) :
    ((List.range n).foldl (fun acc i => ((if cc = i then v i else acc.1), h acc i))
        (x0, [])).1 = if cc < n then v cc else x0 := by
  induction n with
  | zero => simp
  | succ k ih =>
    rw [List.range_succ, List.foldl_append]
    simp only [List.foldl_cons, List.foldl_nil]
    rw [ih]
    by_cases hc : cc = k
    · subst hc
      rw [if_pos rfl, if_pos (by omega)]
    · rw [if_neg hc]
      by_cases hlt : cc < k
      · rw [if_pos hlt, if_pos (by omega)]
      · rw [if_neg hlt, if_neg (by omega)]

/-- The local `cursor_x` after the column loop. -/
theorem cols_loop_cursor_x (page : page_t) (cc line x0 : Nat) :
    (cols_loop page cc line x0).1 =
      if cc < page.cols_number then ((col_at page cc).x_pos + 65535) % 65536 else x0 := by
  unfold cols_loop
  exact foldl_range_select (fun i => ((col_at page i).x_pos + 65535) % 65536) _ cc x0 _

/-- The local `cursor_y` after the row loop. -/
theorem rows_loop_cursor_y (B : Build) (inp : Inputs) (c : Config) (page : page_t)
    (cr line y0 : Nat) :
    (rows_loop B inp c page cr line y0).1 =
      if cr < page.rows_number then (line + (row_at page cr).y_pos) % 65536 else y0 := by
  unfold rows_loop
  exact foldl_range_select (fun i => (line + (row_at page i).y_pos) % 65536) _ cr y0 _

/-- Offsets of the catalog: on every page the columns in use have an `x_pos` between 1
and 255 and row `r` has `y_pos = r`. -/
theorem page_offsets (B : Build) (p : Nat) (hp : p < (menu_pages B).length) :
    (∀ k, k < (page_at B p).cols_number →
      1 ≤ (col_at (page_at B p) k).x_pos ∧ (col_at (page_at B p) k).x_pos ≤ 255) ∧
    (∀ r, r < (page_at B p).rows_number → (row_at (page_at B p) r).y_pos = r) := by
  cases h : B.USE_RTC6705
  · simp [menu_pages, h] at hp
    have hp2 : p = 0 ∨ p = 1 := by omega
    rcases hp2 with rfl | rfl <;>
      simp only [page_at, menu_pages, h, status_page, pid_page] <;> decide
  · simp [menu_pages, h] at hp
    have hp2 : p = 0 ∨ p = 1 ∨ p = 2 := by omega
    rcases hp2 with rfl | rfl | rfl <;>
      simp only [page_at, menu_pages, h, status_page, vtx_page, pid_page] <;> decide

theorem no_glyph_append (l1 l2 : List Event) (h1 : l1.all (fun e => !is_glyph e) = true)
    (h2 : l2.all (fun e => !is_glyph e) = true) :
    (l1 ++ l2).all (fun e => !is_glyph e) = true := by
  rw [List.all_append, h1, h2]
  rfl

theorem call_print_no_glyph (B : Build) (inp : Inputs) (c : Config) (pos col : Nat)
    (f : PrintFn) : (call_print B inp c pos col f).all (fun e => !is_glyph e) = true := by
  cases f <;>
    simp only [call_print, print_average_system_load, print_batt_voltage, print_vtx_band,
      print_vtx_channel, print_vtx_freq, print_pid, print_rate]
  all_goals first
    | rfl
    | (split_ifs <;> rfl)
    | (split <;> first | rfl | (split_ifs <;> rfl))

theorem render_menu_no_glyph (B : Build) (inp : Inputs) (s : State) :
    (render_menu B inp s).1.all (fun e => !is_glyph e) = true := by
  have hprints : ∀ (row : row_t),
      (row_prints B inp s.cfg (page_at B s.current_page) row 4).all
        (fun e => !is_glyph e) = true := by
    intro row
    unfold row_prints
    apply foldl_invariant (fun acc : List Event => acc.all (fun e => !is_glyph e) = true)
    · rfl
    · intro b a hb
      apply no_glyph_append _ _ hb
      split
      · exact call_print_no_glyph B inp s.cfg _ _ _
      · rfl
  have hcols : (cols_loop (page_at B s.current_page) s.cursor_col 3 inp.cursor_x).2.all
      (fun e => !is_glyph e) = true := by
    unfold cols_loop
    apply foldl_invariant
      (fun acc : Nat × List Event => acc.2.all (fun e => !is_glyph e) = true)
    · rfl
    · intro b a hb
      apply no_glyph_append _ _ hb
      split <;> rfl
  have hrows : (rows_loop B inp s.cfg (page_at B s.current_page) s.cursor_row 4
      inp.cursor_y).2.all (fun e => !is_glyph e) = true := by
    unfold rows_loop
    apply foldl_invariant
      (fun acc : Nat × List Event => acc.2.all (fun e => !is_glyph e) = true)
    · rfl
    · intro b a hb
      exact no_glyph_append _ _ (no_glyph_append _ _ hb rfl) (hprints _)
  unfold render_menu
  exact no_glyph_append _ _ (no_glyph_append _ _ rfl hcols) hrows

/-- The calls made by `select_step` and `back_step` are not display writes. -/
theorem gesture_calls_no_write (B : Build) (s t : State) (ev : List Event) :
    (select_step B s = some (t, ev) → ev.all (fun e => !is_glyph e) = true) ∧
    (back_step B s = some (t, ev) → ev.all (fun e => !is_glyph e) = true) := by
  constructor
  · intro h
    unfold select_step at h
    split_ifs at h <;> (try split at h) <;>
      simp only [Option.some.injEq, Prod.mk.injEq, Option.map_eq_some'] at h <;>
      first
      | (obtain ⟨-, rfl⟩ := h; rfl)
      | (obtain ⟨c2, -, -, rfl⟩ := h; rfl)
  · intro h
    unfold back_step at h
    split_ifs at h <;> (try split at h) <;>
      simp only [Option.some.injEq, Prod.mk.injEq, Option.map_eq_some'] at h <;>
      first
      | (obtain ⟨-, rfl⟩ := h; rfl)
      | (obtain ⟨c2, -, -, rfl⟩ := h; rfl)

theorem row_below_max (B : Build) (hB : 5 ≤ B.MAX_MENU_ROWS ∧ B.MAX_MENU_ROWS < 255)
    (p r : Nat) (hp : p < (menu_pages B).length) (hr : r < (page_at B p).rows_number) :
    ¬ r > B.MAX_MENU_ROWS := by
  have hb := page_bounds B p hp
  omega

theorem glyph_position_arith (x y : Nat) (hx1 : 1 ≤ x) (hx2 : x ≤ 255) (hy : y ≤ 255) :
    (x + 65535) % 65536 + (4 + y) % 65536 * 30 = (4 + y) * 30 + x - 1 := by
  omega

/-- The glyph in general: from a state satisfying the cursor invariant (with 5 ≤
`MAX_MENU_ROWS` < 255) every call of `show_menu` returns and writes the cursor glyph ">"
exactly once, as its last call.  When the final cursor is on the toolbar the glyph is at
12 * 30 + 0, 12 * 30 + 9 or 12 * 30 + 23 for the final column 0, 1 or 2.  When the final
cursor is on a row and the cursor was on a row when the call started, the page is
unchanged and the glyph is at `(4 + rows[r].y_pos) * 30 + cols[c].x_pos - 1` for the
`cursor_row` r and `cursor_col` c at the start of the call (the render loops fix
`cursor_x`, `cursor_y` before the gestures are handled); this is the cell left of the
final cursor's value when the call did not move the cursor. -/
theorem cursor_glyph (B : Build) (hB : 5 ≤ B.MAX_MENU_ROWS ∧ B.MAX_MENU_ROWS < 255)
    (inp : Inputs) (s : State)
    (hpage : s.current_page < (menu_pages B).length)
    (hrow : s.cursor_row = 255 ∨ s.cursor_row < (page_at B s.current_page).rows_number)
    (hcol : (s.cursor_row = 255 → s.cursor_col < 3) ∧
      (s.cursor_row ≠ 255 → s.cursor_col < (page_at B s.current_page).cols_number)) :
    ∃ t pre g, show_menu B inp s = some (t, pre ++ [Event.max7456_write_string ">" [] g]) ∧
      (∀ e ∈ pre, is_glyph e = false) ∧
      (t.cursor_row = 255 →
        (t.cursor_col = 0 → g = 12 * 30 + 0) ∧ (t.cursor_col = 1 → g = 12 * 30 + 9) ∧
        (t.cursor_col = 2 → g = 12 * 30 + 23)) ∧
      (s.cursor_row ≠ 255 → t.cursor_row ≠ 255 →
        t.current_page = s.current_page ∧
        g = (4 + (row_at (page_at B s.current_page) s.cursor_row).y_pos) * 30
              + (col_at (page_at B s.current_page) s.cursor_col).x_pos - 1 ∧
        (t.cursor_row = s.cursor_row → t.cursor_col = s.cursor_col →
          g = (4 + (row_at (page_at B t.current_page) t.cursor_row).y_pos) * 30
                + (col_at (page_at B t.current_page) t.cursor_col).x_pos - 1)) := by
  have hinv : cursor_inv B s := ⟨hpage, hrow, hcol.1, hcol.2⟩
  obtain ⟨hx, hyp⟩ := page_offsets B s.current_page hpage
  obtain ⟨⟨t, ev⟩, h⟩ := show_menu_total B hB inp s hinv
  obtain ⟨s1, e1, s2, e2, h1, h2, ht, hev⟩ := show_menu_some B inp s t ev h
  have f1 := select_step_frame B s s1 e1 h1
  have f2 := back_step_frame B s1 s2 e2 h2
  obtain ⟨mr, mc, hm⟩ := move_steps_frame B s2
  have hmpage : (move_steps B s2).current_page = s2.current_page := by rw [hm]
  have hpre : ∀ e ∈ (render_menu B inp s).1 ++ e1 ++ e2, is_glyph e = false := by
    have hall := no_glyph_append _ _
      (no_glyph_append _ _ (render_menu_no_glyph B inp s)
        ((gesture_calls_no_write B s s1 e1).1 h1))
      ((gesture_calls_no_write B s1 s2 e2).2 h2)
    intro e he
    have := List.all_eq_true.mp hall e he
    simpa using this
  have hrx : (render_menu B inp s).2.1 =
      if s.cursor_col < (page_at B s.current_page).cols_number
      then ((col_at (page_at B s.current_page) s.cursor_col).x_pos + 65535) % 65536
      else inp.cursor_x := by
    unfold render_menu
    exact cols_loop_cursor_x _ _ _ _
  have hry : (render_menu B inp s).2.2 =
      if s.cursor_row < (page_at B s.current_page).rows_number
      then (4 + (row_at (page_at B s.current_page) s.cursor_row).y_pos) % 65536
      else inp.cursor_y := by
    unfold render_menu
    exact rows_loop_cursor_y _ _ _ _ _ _ _
  refine ⟨t, (render_menu B inp s).1 ++ e1 ++ e2, _, by rw [h, hev], hpre, ?_, ?_⟩
  · intro ht255
    by_cases htb : (move_steps B s2).cursor_row > B.MAX_MENU_ROWS
    · have hfc : (final_cursor B (move_steps B s2) (render_menu B inp s).2.1
          (render_menu B inp s).2.2).1 = { move_steps B s2 with cursor_row := 255 } ∧
          (final_cursor B (move_steps B s2) (render_menu B inp s).2.1
            (render_menu B inp s).2.2).2.2 = 12 ∧
          ((move_steps B s2).cursor_col = 0 →
            (final_cursor B (move_steps B s2) (render_menu B inp s).2.1
              (render_menu B inp s).2.2).2.1 = 0) ∧
          ((move_steps B s2).cursor_col = 1 →
            (final_cursor B (move_steps B s2) (render_menu B inp s).2.1
              (render_menu B inp s).2.2).2.1 = 9) ∧
          ((move_steps B s2).cursor_col = 2 →
            (final_cursor B (move_steps B s2) (render_menu B inp s).2.1
              (render_menu B inp s).2.2).2.1 = 23) := by
        unfold final_cursor
        rw [if_pos htb]
        refine ⟨rfl, rfl, ?_, ?_, ?_⟩ <;> intro hc <;> simp only [hc]
      obtain ⟨k1, k2, k3, k4, k5⟩ := hfc
      have htc : t.cursor_col = (move_steps B s2).cursor_col := by rw [ht, k1]
      rw [k2, htc]
      simp only [OSD_LINE_LENGTH]
      refine ⟨?_, ?_, ?_⟩
      · intro hc
        rw [k3 hc]
      · intro hc
        rw [k4 hc]
      · intro hc
        rw [k5 hc]
    · have hfc : (final_cursor B (move_steps B s2) (render_menu B inp s).2.1
          (render_menu B inp s).2.2).1 = move_steps B s2 := by
        unfold final_cursor
        rw [if_neg htb]
      rw [hfc] at ht
      rw [ht] at ht255
      exact absurd (by rw [ht255]; exact hB.2) htb
  · intro hs255 ht255
    have hsrow : s.cursor_row < (page_at B s.current_page).rows_number := by
      rcases hrow with hr | hr
      · exact absurd hr hs255
      · exact hr
    have hscol := hcol.2 hs255
    obtain ⟨x1, x2⟩ := hx _ hscol
    have hy1 := hyp _ hsrow
    have hnt := row_below_max B hB s.current_page s.cursor_row hpage hsrow
    have hp1 : s1.current_page = s.current_page := by
      rcases f1.2.2.2.2 with hp | ⟨hgt, -, -⟩
      · exact hp
      · exact absurd hgt hnt
    have hp2 : s2.current_page = s1.current_page := by
      rcases f2.2.2.2.2.2 with hp | ⟨hgt, -, -, -⟩
      · exact hp
      · rw [f1.1] at hgt
        exact absurd hgt hnt
    have htb : ¬ (move_steps B s2).cursor_row > B.MAX_MENU_ROWS := by
      intro htb
      have hfc : (final_cursor B (move_steps B s2) (render_menu B inp s).2.1
          (render_menu B inp s).2.2).1 = { move_steps B s2 with cursor_row := 255 } := by
        unfold final_cursor
        rw [if_pos htb]
      rw [hfc] at ht
      rw [ht] at ht255
      exact ht255 rfl
    have hfc : final_cursor B (move_steps B s2) (render_menu B inp s).2.1
        (render_menu B inp s).2.2 =
        (move_steps B s2, (render_menu B inp s).2.1, (render_menu B inp s).2.2) := by
      unfold final_cursor
      rw [if_neg htb]
    have htp : t.current_page = s.current_page := by
      rw [ht, hfc]
      simp only
      rw [hmpage, hp2, hp1]
    have hy255 : (row_at (page_at B s.current_page) s.cursor_row).y_pos ≤ 255 := by
      have hb := page_bounds B s.current_page hpage
      rw [hy1]
      exact Nat.le_trans (Nat.le_of_lt hsrow) (Nat.le_trans hb.2.1 (by decide))
    have hg : (final_cursor B (move_steps B s2) (render_menu B inp s).2.1
          (render_menu B inp s).2.2).2.1 +
        (final_cursor B (move_steps B s2) (render_menu B inp s).2.1
          (render_menu B inp s).2.2).2.2 * OSD_LINE_LENGTH
        = (4 + (row_at (page_at B s.current_page) s.cursor_row).y_pos) * 30
              + (col_at (page_at B s.current_page) s.cursor_col).x_pos - 1 := by
      rw [hfc]
      simp only [OSD_LINE_LENGTH]
      rw [hrx, hry, if_pos hscol, if_pos hsrow]
      exact glyph_position_arith _ _ x1 x2 hy255
    refine ⟨htp, hg, ?_⟩
    intro hr hc
    rw [hg, htp, hr, hc]

theorem cursor_glyph_witness :
    ∃ t pre g, show_menu sample_build sample_menu_inputs (sample_menu 2 0 0 down_sticks)
        = some (t, pre ++ [Event.max7456_write_string ">" [] g]) ∧
      (∀ e ∈ pre, is_glyph e = false) ∧ t.cursor_row = 1 ∧ g = 132 := by
  obtain ⟨t, pre, g, h, hpre, -, hrowcase⟩ := cursor_glyph sample_build (by decide)
    sample_menu_inputs (sample_menu 2 0 0 down_sticks) (by decide) (by decide) (by decide)
  have hp : ∀ r ∈ show_menu sample_build sample_menu_inputs (sample_menu 2 0 0 down_sticks),
      r.1.cursor_row = 1 := by
    decide
  have ht1 : t.cursor_row = 1 := hp _ h
  obtain ⟨-, hg, -⟩ := hrowcase (by decide) (by rw [ht1]; decide)
  exact ⟨t, pre, g, h, hpre, ht1, hg⟩

/-! ## Placement of the page title -/

/-- C21 (as stated, refuted): on the STATUS page `show_menu` writes the toolbar line at
position 361, grid row 12, and the title once, at position 42, grid row 1 and column 12;
the title is not on row 14, two rows below the toolbar. -/
theorem title_is_on_row_one :
    ∃ t ev, show_menu sample_build sample_menu_inputs (sample_menu 0 255 2 idle_sticks)
        = some (t, ev) ∧
      write_positions "EXIT     SAVE+EXIT     PAGE" [] ev = [361] ∧ 361 / 30 = 12 ∧
      write_positions "%s" [Arg.str "STATUS"] ev = [42] ∧ 42 / 30 = 1 ∧
      42 / 30 ≠ 12 + 2 := by
  have hs : (show_menu sample_build sample_menu_inputs
      (sample_menu 0 255 2 idle_sticks)).isSome = true := by decide
  obtain ⟨⟨t, ev⟩, h⟩ := Option.isSome_iff_exists.mp hs
  have hp : ∀ r ∈ show_menu sample_build sample_menu_inputs (sample_menu 0 255 2 idle_sticks),
      write_positions "EXIT     SAVE+EXIT     PAGE" [] r.2 = [361] ∧
      write_positions "%s" [Arg.str "STATUS"] r.2 = [42] := by
    decide
  obtain ⟨p1, p2⟩ := hp (t, ev) h
  exact ⟨t, ev, h, p1, by decide, p2, by decide, by decide⟩

/-- The titles of the catalog fit into a line of the grid. -/
theorem page_title_length (B : Build) (p : Nat) (hp : p < (menu_pages B).length) :
    (page_at B p).title.length ≤ 30 := by
  cases h : B.USE_RTC6705
  · simp [menu_pages, h] at hp
    have hp2 : p = 0 ∨ p = 1 := by omega
    rcases hp2 with rfl | rfl <;>
      simp only [page_at, menu_pages, h, status_page, pid_page] <;> decide
  · simp [menu_pages, h] at hp
    have hp2 : p = 0 ∨ p = 1 ∨ p = 2 := by omega
    rcases hp2 with rfl | rfl | rfl <;>
      simp only [page_at, menu_pages, h, status_page, vtx_page, pid_page] <;> decide

theorem header_writes_eq (page : page_t) (hlen : page.title.length ≤ 30) :
    header_writes page =
      [Event.max7456_write_string "EXIT     SAVE+EXIT     PAGE" [] (12 * 30 + 1),
       Event.max7456_write_string "%s" [Arg.str page.title]
         (1 * 30 + (30 - page.title.length) / 2)] := by
  unfold header_writes
  simp only [OSD_LINE_LENGTH]
  have : ((30 + (4294967296 - page.title.length % 4294967296)) % 4294967296 / 2 + 1 * 30)
      % 65536 = 1 * 30 + (30 - page.title.length) / 2 := by
    omega
  rw [this]

/-- C21 (amended): for every page of `menu_pages`, `show_menu` (from a state satisfying
the cursor invariant, with 5 ≤ `MAX_MENU_ROWS` < 255) first writes the toolbar line, on
grid row 12, and then the page title on grid row 1, eleven rows above the toolbar line,
starting at column `(30 - len(title)) / 2` of that row, so that the blank margins left
and right of the title within the 30-cell line differ by at most one cell. -/
theorem title_placement (B : Build) (hB : 5 ≤ B.MAX_MENU_ROWS ∧ B.MAX_MENU_ROWS < 255)
    (inp : Inputs) (s : State)
    (hpage : s.current_page < (menu_pages B).length)
    (hrow : s.cursor_row = 255 ∨ s.cursor_row < (page_at B s.current_page).rows_number)
    (hcol : (s.cursor_row = 255 → s.cursor_col < 3) ∧
      (s.cursor_row ≠ 255 → s.cursor_col < (page_at B s.current_page).cols_number)) :
    ∃ t rest, show_menu B inp s =
        some (t,
          Event.max7456_write_string "EXIT     SAVE+EXIT     PAGE" [] (12 * 30 + 1) ::
          Event.max7456_write_string "%s" [Arg.str (page_at B s.current_page).title]
            (1 * 30 + (30 - (page_at B s.current_page).title.length) / 2) :: rest) ∧
      (page_at B s.current_page).title.length ≤ 30 ∧
      (12 * 30 + 1) / 30 = 12 ∧
      (1 * 30 + (30 - (page_at B s.current_page).title.length) / 2) / 30 = 1 ∧
      (1 * 30 + (30 - (page_at B s.current_page).title.length) / 2) % 30
        = (30 - (page_at B s.current_page).title.length) / 2 ∧
      (30 - (page_at B s.current_page).title.length) / 2
        ≤ 30 - (page_at B s.current_page).title.length
            - (30 - (page_at B s.current_page).title.length) / 2 ∧
      30 - (page_at B s.current_page).title.length
          - (30 - (page_at B s.current_page).title.length) / 2
        ≤ (30 - (page_at B s.current_page).title.length) / 2 + 1 := by
  have hinv : cursor_inv B s := ⟨hpage, hrow, hcol.1, hcol.2⟩
  have hlen := page_title_length B s.current_page hpage
  obtain ⟨⟨t, ev⟩, h⟩ := show_menu_total B hB inp s hinv
  obtain ⟨s1, e1, s2, e2, -, -, -, hev⟩ := show_menu_some B inp s t ev h
  have hr : (render_menu B inp s).1 =
      header_writes (page_at B s.current_page) ++
        (cols_loop (page_at B s.current_page) s.cursor_col 3 inp.cursor_x).2 ++
        (rows_loop B inp s.cfg (page_at B s.current_page) s.cursor_row 4 inp.cursor_y).2 := by
    unfold render_menu
    rfl
  rw [hr, header_writes_eq _ hlen] at hev
  simp only [List.cons_append, List.nil_append, List.append_assoc] at hev
  rw [hev] at h
  exact ⟨t, _, h, hlen, by decide, by omega, by omega, by omega, by omega⟩

theorem title_placement_witness :
    ∃ t rest, show_menu sample_build sample_menu_inputs (sample_menu 2 255 2 idle_sticks) =
        some (t,
          Event.max7456_write_string "EXIT     SAVE+EXIT     PAGE" [] 361 ::
          Event.max7456_write_string "%s" [Arg.str "PID SETTINGS"] 39 :: rest) := by
  obtain ⟨t, rest, h, -⟩ := title_placement sample_build (by decide) sample_menu_inputs
    (sample_menu 2 255 2 idle_sticks) (by decide) (by decide) (by decide)
  exact ⟨t, rest, h⟩

/-! ## Exclusivity of the gestures -/

/-- Each step of `show_menu` acts only under its gesture condition. -/
theorem steps_need_gesture (B : Build) (s : State) :
    (¬ select_gesture s.sticks → select_step B s = some (s, [])) ∧
    (¬ back_gesture s.sticks → back_step B s = some (s, [])) ∧
    (¬ up_gesture s.sticks → up_step B s = s) ∧
    (¬ down_gesture s.sticks → down_step B s = s) ∧
    (¬ right_gesture s.sticks → right_step B s = s) ∧
    (¬ left_gesture s.sticks → left_step s = s) := by
  refine ⟨?_, ?_, ?_, ?_, ?_, ?_⟩
  · intro h
    unfold select_gesture at h
    unfold select_step
    rw [if_neg h]
  · intro h
    unfold back_gesture at h
    unfold back_step
    rw [if_neg h]
  · intro h
    unfold up_gesture at h
    unfold up_step
    rw [if_neg h]
  · intro h
    unfold down_gesture at h
    unfold down_step
    rw [if_neg h]
  · intro h
    unfold right_gesture at h
    unfold right_step
    rw [if_neg h]
  · intro h
    unfold left_gesture at h
    unfold left_step
    rw [if_neg h]

/-- The enter-menu test of line 645 is `enter_gesture` on the sampled sticks. -/
theorem enter_needs_gesture (B : Build) (inp : Inputs) (s : State)
    (ha : inp.ARMED = false) (hm : s.in_menu = false) :
    ((arming_step B inp s).in_menu = true ↔ enter_gesture (arming_step B inp s).sticks) := by
  obtain ⟨a1, -, -, -, a5⟩ := arming_step_disarmed B inp s ha hm
  obtain ⟨k1, k2, k3, k4⟩ := sample_sticks_apply B inp.rcData s.sticks
  rw [a1, a5]
  unfold enter_gesture
  rw [k1, k2, k3, k4]

/-- C22: for every vector of stick values, the Select and Back conditions tested by
`show_menu` never hold together; neither holds together with any of Up, Down, Right or
Left; Up and Down never hold together and Right and Left never hold together.  So when
Select or Back holds the directional steps leave the state unchanged, and when a
directional gesture holds `select_step` and `back_step` change nothing and make no call.
The enter-menu condition of `updateOsd` holds together with none of the six menu
gestures, and a stick value of exactly 10 or exactly 90 on the deciding axis triggers no
gesture of that axis (a YAW of exactly 10 or 90 triggers no gesture at all). -/
theorem gesture_exclusivity (sticks : Nat → Nat) :
    ¬ (select_gesture sticks ∧ back_gesture sticks) ∧
    (select_gesture sticks ∨ back_gesture sticks →
      ¬ up_gesture sticks ∧ ¬ down_gesture sticks ∧ ¬ right_gesture sticks ∧
      ¬ left_gesture sticks) ∧
    ¬ (up_gesture sticks ∧ down_gesture sticks) ∧
    ¬ (right_gesture sticks ∧ left_gesture sticks) ∧
    (enter_gesture sticks →
      ¬ select_gesture sticks ∧ ¬ back_gesture sticks ∧ ¬ up_gesture sticks ∧
      ¬ down_gesture sticks ∧ ¬ right_gesture sticks ∧ ¬ left_gesture sticks) ∧
    (sticks YAW = 10 ∨ sticks YAW = 90 →
      ¬ select_gesture sticks ∧ ¬ back_gesture sticks ∧ ¬ up_gesture sticks ∧
      ¬ down_gesture sticks ∧ ¬ right_gesture sticks ∧ ¬ left_gesture sticks ∧
      ¬ enter_gesture sticks) ∧
    (sticks PITCH = 10 ∨ sticks PITCH = 90 →
      ¬ up_gesture sticks ∧ ¬ down_gesture sticks ∧ ¬ select_gesture sticks ∧
      ¬ back_gesture sticks ∧ ¬ enter_gesture sticks) ∧
    (sticks ROLL = 10 ∨ sticks ROLL = 90 →
      ¬ right_gesture sticks ∧ ¬ left_gesture sticks ∧ ¬ select_gesture sticks ∧
      ¬ back_gesture sticks ∧ ¬ enter_gesture sticks) ∧
    (sticks THROTTLE = 10 ∨ sticks THROTTLE = 90 → ¬ enter_gesture sticks) ∧
    (∀ (B : Build) (s : State), s.sticks = sticks →
      (select_gesture sticks ∨ back_gesture sticks → move_steps B s = s) ∧
      (up_gesture sticks ∨ down_gesture sticks ∨ right_gesture sticks ∨
          left_gesture sticks →
        select_step B s = some (s, []) ∧ back_step B s = some (s, [])) ∧
      (up_step B s = s ∨ ∀ u : State, u.sticks = sticks → down_step B u = u) ∧
      (right_step B s = s ∨ ∀ u : State, u.sticks = sticks → left_step u = u)) ∧
    (∀ (B : Build) (inp : Inputs) (s : State), inp.ARMED = false → s.in_menu = false →
      (arming_step B inp s).sticks = sticks →
      ((arming_step B inp s).in_menu = true ↔ enter_gesture sticks)) := by
  unfold select_gesture back_gesture up_gesture down_gesture right_gesture left_gesture
    enter_gesture
  refine ⟨by omega, by omega, by omega, by omega, by omega, by omega, by omega, by omega,
    by omega, ?_, ?_⟩
  · intro B s hs
    obtain ⟨n1, n2, n3, n4, n5, n6⟩ := steps_need_gesture B s
    rw [hs] at n1 n2 n3 n4 n5 n6
    unfold select_gesture at n1
    unfold back_gesture at n2
    unfold up_gesture at n3
    unfold down_gesture at n4
    unfold right_gesture at n5
    unfold left_gesture at n6
    refine ⟨?_, ?_, ?_, ?_⟩
    · intro h
      have hy : ¬ (s.sticks YAW > 10 ∧ s.sticks YAW < 90) := by
        rw [hs]
        omega
      exact move_steps_yaw_out B s hy
    · intro h
      exact ⟨n1 (by omega), n2 (by omega)⟩
    · by_cases hu : sticks PITCH > 90 ∧ sticks YAW > 10 ∧ sticks YAW < 90
      · right
        intro u hu2
        obtain ⟨-, -, -, m4, -, -⟩ := steps_need_gesture B u
        rw [hu2] at m4
        unfold down_gesture at m4
        exact m4 (by omega)
      · exact Or.inl (n3 hu)
    · by_cases hr : sticks ROLL > 90 ∧ sticks YAW > 10 ∧ sticks YAW < 90
      · right
        intro u hu2
        obtain ⟨-, -, -, -, -, m6⟩ := steps_need_gesture B u
        rw [hu2] at m6
        unfold left_gesture at m6
        exact m6 (by omega)
      · exact Or.inl (n5 hr)
  · intro B inp s ha hm hst
    have := enter_needs_gesture B inp s ha hm
    rw [hst] at this
    unfold enter_gesture at this
    exact this

theorem gesture_exclusivity_witness :
    select_gesture select_sticks ∧
    (¬ up_gesture select_sticks ∧ ¬ down_gesture select_sticks ∧
      ¬ right_gesture select_sticks ∧ ¬ left_gesture select_sticks) ∧
    move_steps sample_build (sample_menu 2 0 0 select_sticks)
      = sample_menu 2 0 0 select_sticks :=
  have hsel : select_gesture select_sticks := by
    unfold select_gesture
    decide
  ⟨hsel, (gesture_exclusivity select_sticks).2.1 (Or.inl hsel),
   ((gesture_exclusivity select_sticks).2.2.2.2.2.2.2.2.2.1 sample_build
      (sample_menu 2 0 0 select_sticks) rfl).1 (Or.inl hsel)⟩

end Osd
